import Mathlib

/-!
# ops-tempd: the platform temperature daemon

A shallow embedding of `src/src/tempd.c` and `src/include/tempd.h`.

* C `int` fields (`temp`, `min`, `max`, `fault_count`, `test_temp`) are `Int`; the
  values reached here (a byte times 1000 plus 500, a small counter) stay far from
  the 32-bit limits, so no wrap-around is modelled.
* The catalog thresholds are C floating-point numbers.  Every finite one is a
  rational, so a threshold is a `ℚ` (NaN and infinities are not modelled).  The C
  expression `(float)sensor->temp/MILI_DEGREES_FLOAT` is the exact quotient
  `temp / 1000` (`degrees`) as long as the conversion `(float)` is exact, which
  it is for every `temp` of at most 2^24 = 16777216 in magnitude: every
  temperature the daemon reads (a multiple of 500 between -128000 and 127500, or
  the fallback 35000) and every override in that range.  A larger override is
  rounded to 24 significant bits before the comparison; `float_of_int`,
  `degrees_float` and the ladders `alarm_ladder_float`, `fan_ladder_float` carry
  that rounding, and agree with `degrees`, `alarm_ladder`, `fan_ladder` within
  2^24 (`degrees_float_eq`, `alarm_ladder_float_eq`, `fan_ladder_float_eq`).  A
  theorem that derives the outcome of a comparison from `temp / 1000` carries
  the bound.
* The bus read `i2c_data_read` is external.  Its outcome is an argument of the
  functions that may call it: `none` for a non-zero return code, `some (b0, b1)`
  for the two `char` values left in `buf`.
* `shash` dictionaries are association lists in iteration order.
-/

namespace Tempd

/-! ## tempd.h -/

def POLLING_PERIOD : Int := 5
def MSEC_PER_SEC : Int := 1000
def DEFAULT_TEMP : Int := 35
def MILI_DEGREES : Int := 1000
/-- The constant `1000.0`, the divisor of every threshold comparison. -/
def MILI_DEGREES_FLOAT : Nat := 1000
def MAX_FAIL_RETRY : Int := 2

/-- The `enum sensorstatus` of tempd.h, constructors in numeric order 0..7. -/
inductive sensorstatus where
  | SENSOR_STATUS_UNINITIALIZED
  | SENSOR_STATUS_NORMAL
  | SENSOR_STATUS_MIN
  | SENSOR_STATUS_MAX
  | SENSOR_STATUS_LOWCRIT
  | SENSOR_STATUS_CRITICAL
  | SENSOR_STATUS_FAILED
  | SENSOR_STATUS_EMERGENCY
  deriving DecidableEq, Repr

/-- The `enum fanspeed` of tempd.h, constructors in numeric order 0..3. -/
inductive fanspeed where
  | SENSOR_FAN_NORMAL
  | SENSOR_FAN_MEDIUM
  | SENSOR_FAN_FAST
  | SENSOR_FAN_MAX
  deriving DecidableEq, Repr

open sensorstatus fanspeed

/-- Modelled from the spec: the alarm thresholds of a catalog sensor descriptor
(`yaml_sensor->alarm_thresholds` of config-yaml.h, which is not part of the
sources), floating-point degrees Celsius. -/
structure YamlAlarmThresholds where
  emergency_on : ℚ
  emergency_off : ℚ
  critical_on : ℚ
  critical_off : ℚ
  max_on : ℚ
  max_off : ℚ
  min : ℚ
  low_crit : ℚ
  deriving DecidableEq

/-- Modelled from the spec: the fan thresholds of a catalog sensor descriptor
(`yaml_sensor->fan_thresholds` of config-yaml.h, which is not part of the
sources), floating-point degrees Celsius. -/
structure YamlFanThresholds where
  max_on : ℚ
  max_off : ℚ
  fast_on : ℚ
  fast_off : ℚ
  medium_on : ℚ
  medium_off : ℚ
  deriving DecidableEq

/-- Modelled from the spec: the catalog sensor descriptor `YamlSensor` of
config-yaml.h (not part of the sources), with the fields tempd.c reads:
number, location, device, type, alarm and fan thresholds. -/
structure YamlSensor where
  number : Int
  location : String
  device : String
  type : String
  alarm_thresholds : YamlAlarmThresholds
  fan_thresholds : YamlFanThresholds
  deriving DecidableEq

/-- The `struct locl_sensor` of tempd.h.  The back-reference `subsystem` is the
name of the owning subsystem. -/
structure locl_sensor where
  name : String
  subsystem : String
  yaml_sensor : YamlSensor
  status : sensorstatus
  fan_speed : fanspeed
  temp : Int
  min : Int
  max : Int
  fault_count : Int
  test_temp : Int
  deriving DecidableEq

/-- The `struct locl_subsystem` of tempd.h.  `parent_subsystem` is always NULL in
the source and is left out; `subsystem_sensors` is the dictionary of owned
sensors in iteration order. -/
structure locl_subsystem where
  name : String
  marked : Bool
  valid : Bool
  subsystem_sensors : List locl_sensor
  emergency_shutdown : Bool
  deriving DecidableEq

/-- Outcome of `i2c_data_read` into `char buf[2]`: `none` when `rc != 0`,
otherwise the values of `buf[0]` and `buf[1]` as C `char`s. -/
abbrev i2c_result := Option (Int × Int)

/-! ## tempd.c -/

/-- The C expression `(float)temp/MILI_DEGREES_FLOAT` for a `temp` that the
conversion `(float)` keeps, which is every `temp` of at most 2^24 in magnitude:
the rational `temp / 1000` (see `degrees_eq`).  Beyond 2^24 the conversion
rounds, and the value the code compares is `degrees_float` (see
`degrees_float_eq`). -/
def degrees (temp : Int) : ℚ := mkRat temp MILI_DEGREES_FLOAT

/-- Lines 185-192 of `lm75_read`: the first byte is whole degrees, a negative
second byte (its top bit set) adds half a degree. -/
def lm75_decode (b0 b1 : Int) : Int :=
  let temp := b0 * MILI_DEGREES
  if b1 < 0 then temp + 500 else temp

/-- The function `lm75_read` (tempd.c:140-195); `rd` is what `i2c_data_read`
delivers if it is called. -/
def lm75_read (rd : i2c_result) (sensor : locl_sensor) : locl_sensor :=
  if sensor.test_temp ≠ -1 then
    { sensor with status := SENSOR_STATUS_NORMAL, temp := sensor.test_temp }
  else
    match rd with
    | none =>
      -- fault: the limit is tested before the counter is incremented
      let sensor :=
        if sensor.fault_count > MAX_FAIL_RETRY then
          { sensor with status := SENSOR_STATUS_FAILED }
        else sensor
      { sensor with fault_count := sensor.fault_count + 1 }
    | some (b0, b1) =>
      let sensor := { sensor with fault_count := 0 }
      let sensor :=
        if sensor.status = SENSOR_STATUS_FAILED then
          { sensor with status := SENSOR_STATUS_NORMAL }
        else sensor
      { sensor with temp := lm75_decode b0 b1 }

/-- Lines 203-210 of `tempd_read_sensor`: the read step, by sensor type. -/
def tempd_read_step (rd : i2c_result) (sensor : locl_sensor) : locl_sensor :=
  if sensor.yaml_sensor.type = "lm75" then
    lm75_read rd sensor
  else
    { sensor with temp := DEFAULT_TEMP * MILI_DEGREES }

/-- Lines 221-228 of `tempd_read_sensor`: adjust min and max values. -/
def adjust_min_max (sensor : locl_sensor) : locl_sensor :=
  let sensor := if sensor.min > sensor.temp then { sensor with min := sensor.temp } else sensor
  if sensor.max < sensor.temp then { sensor with max := sensor.temp } else sensor

/-- Lines 230-280 of `tempd_read_sensor`: the ten alarm rules, each tested
against the status left by the rules before it. -/
def alarm_ladder (a : YamlAlarmThresholds) (temp : Int) (status : sensorstatus) :
    sensorstatus :=
  -- decreasing alarms
  let status := if status = SENSOR_STATUS_EMERGENCY ∧ degrees temp ≤ a.emergency_off
    then SENSOR_STATUS_CRITICAL else status
  let status := if status = SENSOR_STATUS_CRITICAL ∧ degrees temp ≤ a.critical_off
    then SENSOR_STATUS_MAX else status
  let status := if status = SENSOR_STATUS_MAX ∧ degrees temp ≤ a.max_off
    then SENSOR_STATUS_NORMAL else status
  let status := if status = SENSOR_STATUS_NORMAL ∧ degrees temp > a.low_crit
    then SENSOR_STATUS_MIN else status
  let status := if status = SENSOR_STATUS_MIN ∧ degrees temp > a.min
    then SENSOR_STATUS_NORMAL else status
  -- increasing alarms
  let status := if status = SENSOR_STATUS_NORMAL ∧ degrees temp ≥ a.max_on
    then SENSOR_STATUS_MAX else status
  let status := if status = SENSOR_STATUS_MAX ∧ degrees temp ≥ a.critical_on
    then SENSOR_STATUS_CRITICAL else status
  let status := if status = SENSOR_STATUS_CRITICAL ∧ degrees temp ≥ a.emergency_on
    then SENSOR_STATUS_EMERGENCY else status
  let status := if status = SENSOR_STATUS_NORMAL ∧ degrees temp ≤ a.min
    then SENSOR_STATUS_MIN else status
  if status = SENSOR_STATUS_MIN ∧ degrees temp ≤ a.low_crit
    then SENSOR_STATUS_LOWCRIT else status

/-- Lines 282-311 of `tempd_read_sensor`: the six fan rules, each tested against
the fan speed left by the rules before it. -/
def fan_ladder (f : YamlFanThresholds) (temp : Int) (fan_speed : fanspeed) : fanspeed :=
  let fan_speed := if fan_speed = SENSOR_FAN_NORMAL ∧ degrees temp ≥ f.medium_on
    then SENSOR_FAN_MEDIUM else fan_speed
  let fan_speed := if fan_speed = SENSOR_FAN_MEDIUM ∧ degrees temp ≥ f.fast_on
    then SENSOR_FAN_FAST else fan_speed
  let fan_speed := if fan_speed = SENSOR_FAN_FAST ∧ degrees temp ≥ f.max_on
    then SENSOR_FAN_MAX else fan_speed
  let fan_speed := if fan_speed = SENSOR_FAN_MAX ∧ degrees temp ≤ f.max_off
    then SENSOR_FAN_FAST else fan_speed
  let fan_speed := if fan_speed = SENSOR_FAN_FAST ∧ degrees temp ≤ f.fast_off
    then SENSOR_FAN_MEDIUM else fan_speed
  if fan_speed = SENSOR_FAN_MEDIUM ∧ degrees temp ≤ f.medium_off
    then SENSOR_FAN_NORMAL else fan_speed

/-- Lines 212-311 of `tempd_read_sensor`: recalculate alarm and fan state.  A
FAILED sensor returns at once; otherwise min/max, the alarm rules and the fan
rules are applied to the current `temp`. -/
def tempd_evaluate (sensor : locl_sensor) : locl_sensor :=
  if sensor.status = SENSOR_STATUS_FAILED then sensor
  else
    let sensor := adjust_min_max sensor
    let sensor := { sensor with
      status := alarm_ladder sensor.yaml_sensor.alarm_thresholds sensor.temp sensor.status }
    { sensor with
      fan_speed := fan_ladder sensor.yaml_sensor.fan_thresholds sensor.temp sensor.fan_speed }

/-- The function `tempd_read_sensor` (tempd.c:198-312): read step, then
evaluation. -/
def tempd_read_sensor (rd : i2c_result) (sensor : locl_sensor) : locl_sensor :=
  tempd_evaluate (tempd_read_step rd sensor)

/-- Body of the inner loop of `tempd_run__` (tempd.c:575-596) for one sensor of
`subsystem`: `rd1` and `rd2` are the outcomes of the bus for the first read and
for the confirming read.  The Boolean is `true` when `system(EMERGENCY_POWEROFF)`
is reached, after which the process never proceeds. -/
def tempd_run_sensor (subsystem : locl_subsystem) (rd1 rd2 : i2c_result)
    (sensor : locl_sensor) : locl_sensor × Bool :=
  let sensor := tempd_read_sensor rd1 sensor
  if sensor.status = SENSOR_STATUS_EMERGENCY then
    let sensor := tempd_read_sensor rd2 sensor
    if sensor.status = SENSOR_STATUS_EMERGENCY then
      if subsystem.emergency_shutdown = true then (sensor, true)
      else (sensor, false)
    else (sensor, false)
  else (sensor, false)

/-- Inner `SHASH_FOR_EACH` of `tempd_run__` (tempd.c:574-597) over the sensors of
one subsystem; `i2c` gives, per sensor name, the outcomes of the bus for its
first and its confirming read.  `none` means the power-off was reached. -/
def tempd_run_sensors (subsystem : locl_subsystem)
    (i2c : String → i2c_result × i2c_result) :
    List locl_sensor → Option (List locl_sensor)
  | [] => some []
  | sensor :: rest =>
    match tempd_run_sensor subsystem (i2c sensor.name).1 (i2c sensor.name).2 sensor with
    | (_, true) => none
    | (sensor, false) =>
      match tempd_run_sensors subsystem i2c rest with
      | none => none
      | some rest => some (sensor :: rest)

/-- Outer `SHASH_FOR_EACH` of `tempd_run__` (tempd.c:572-598) over
`subsystem_data`.  `none` means the power-off was reached. -/
def tempd_run_poll (i2c : String → i2c_result × i2c_result) :
    List locl_subsystem → Option (List locl_subsystem)
  | [] => some []
  | subsystem :: rest =>
    match tempd_run_sensors subsystem i2c subsystem.subsystem_sensors with
    | none => none
    | some sensors =>
      match tempd_run_poll i2c rest with
      | none => none
      | some rest => some ({ subsystem with subsystem_sensors := sensors } :: rest)

/-- Consecutive polls of one sensor, one bus outcome per poll, oldest first. -/
def tempd_polls (rds : List i2c_result) (sensor : locl_sensor) : locl_sensor :=
  rds.foldl (fun sensor rd => tempd_read_sensor rd sensor) sensor

/-- Line 491 of `tempd_unixctl_test`: the override of the sensor found by name
is set to the value given on the command line (`-1` clears it). -/
def tempd_unixctl_test (temp : Int) (sensor : locl_sensor) : locl_sensor :=
  { sensor with test_temp := temp }

/-- What can happen to one sensor between start and stop of the daemon: a poll
with the outcome of the bus, or the test command with a new override. -/
inductive sensor_event where
  | poll (rd : i2c_result)
  | test (temp : Int)

/-- One event applied to a sensor. -/
def sensor_step (sensor : locl_sensor) : sensor_event → locl_sensor
  | sensor_event.poll rd => tempd_read_sensor rd sensor
  | sensor_event.test temp => tempd_unixctl_test temp sensor

/-- A sequence of events applied to a sensor, oldest first. -/
def sensor_run (events : List sensor_event) (sensor : locl_sensor) : locl_sensor :=
  events.foldl sensor_step sensor

/-! ## tempd.c: the registry -/

/-- The two global dictionaries of tempd.c.  `subsystem_data` maps a subsystem
name to its `locl_subsystem`.  `sensor_data` maps a sensor name to a pointer to
a `locl_sensor` owned by a subsystem; an entry is the key together with the name
of the owning subsystem, and the pointer is followed by `sensor_data_find`. -/
structure tempd_state where
  subsystem_data : List locl_subsystem
  sensor_data : List (String × String)
  deriving DecidableEq

/-- The function `init_subsystems` (tempd.c:114-119). -/
def init_subsystems : tempd_state :=
  { subsystem_data := [], sensor_data := [] }

/-- Modelled from the spec: a row of the Subsystem table as tempd.c reads it
(`struct ovsrec_subsystem` of the generated vswitch-idl.h, not part of the
sources); `hw_desc_dir = none` stands for NULL. -/
structure ovsrec_subsystem where
  name : String
  hw_desc_dir : Option String
  deriving DecidableEq

/-- Modelled from the spec: the answers of the hardware catalog (config-yaml, not
part of the sources) for one subsystem: the return codes of
`yaml_add_subsystem`, `yaml_parse_devices` and `yaml_parse_thermal`, the
`auto_shutdown` flag of `yaml_get_thermal_info`, `yaml_get_sensor_count` and
`yaml_get_sensor` by index. -/
structure YamlSubsystem where
  add_rc : Int
  devices_rc : Int
  thermal_rc : Int
  auto_shutdown : Bool
  sensor_count : Int
  sensor : Nat → YamlSensor

/-- Everything outside the process that `add_subsystem` consults: the catalog by
subsystem name and description directory, the outcome of the bus for the
initial read of each new sensor (by sensor name), and the content of the
`fault_count` field of a freshly allocated sensor, which `add_subsystem` never
initialises. -/
structure tempd_env where
  yaml : String → String → YamlSubsystem
  i2c : String → i2c_result
  fault_count : String → Int

/-- Lines 405-431 of `add_subsystem`: the sensor created for one catalog
descriptor, named `{subsystem}-{number}`, after its initial
`tempd_read_sensor`. -/
def new_sensor (env : tempd_env) (subsystem : String) (sensor : YamlSensor) : locl_sensor :=
  let sensor_name := subsystem ++ "-" ++ toString sensor.number
  tempd_read_sensor (env.i2c sensor_name)
    { name := sensor_name, subsystem := subsystem, yaml_sensor := sensor,
      min := 1000000, max := -1000000, temp := 0,
      status := SENSOR_STATUS_NORMAL, fan_speed := SENSOR_FAN_NORMAL,
      test_temp := -1, fault_count := env.fault_count sensor_name }

/-- The function `add_subsystem` (tempd.c:315-468), without its OVSDB
transaction.  The struct `result` is put into `subsystem_data` at line 332,
before anything is checked, with `marked = true` (line 335) and `valid = false`
(memset); being a pointer, what is assigned to it later shows in the dictionary.
Every failing check returns NULL (`none`) and leaves that entry where it is.
On success the answer is the name under which the new subsystem is entered. -/
def add_subsystem (env : tempd_env) (ovsrec_subsys : ovsrec_subsystem) (st : tempd_state) :
    tempd_state × Option String :=
  let result : locl_subsystem :=
    { name := ovsrec_subsys.name, marked := true, valid := false,
      subsystem_sensors := [], emergency_shutdown := false }
  match ovsrec_subsys.hw_desc_dir with
  | none => ({ st with subsystem_data := st.subsystem_data ++ [result] }, none)
  | some dir =>
    if dir.length = 0 then
      ({ st with subsystem_data := st.subsystem_data ++ [result] }, none)
    else
      let yaml := env.yaml ovsrec_subsys.name dir
      if yaml.add_rc ≠ 0 then
        ({ st with subsystem_data := st.subsystem_data ++ [result] }, none)
      else if yaml.devices_rc ≠ 0 then
        ({ st with subsystem_data := st.subsystem_data ++ [result] }, none)
      else if yaml.thermal_rc ≠ 0 then
        ({ st with subsystem_data := st.subsystem_data ++ [result] }, none)
      else
        let result := { result with emergency_shutdown := yaml.auto_shutdown }
        if yaml.sensor_count ≤ 0 then
          ({ st with subsystem_data := st.subsystem_data ++ [result] }, none)
        else
          let sensors := (List.range yaml.sensor_count.toNat).map
            (fun idx => new_sensor env ovsrec_subsys.name (yaml.sensor idx))
          let result := { result with valid := true, subsystem_sensors := sensors }
          ({ subsystem_data := st.subsystem_data ++ [result],
             sensor_data := st.sensor_data ++
               sensors.map (fun sensor => (sensor.name, ovsrec_subsys.name)) },
           some ovsrec_subsys.name)

/-- The function `get_subsystem` (tempd.c:672-691): the entry found under the
name, created by `add_subsystem` when there is none; an entry that is not valid
gives NULL (`none`) and nothing is loaded. -/
def get_subsystem (env : tempd_env) (ovsrec_subsys : ovsrec_subsystem) (st : tempd_state) :
    tempd_state × Option String :=
  match st.subsystem_data.find? (fun s => s.name = ovsrec_subsys.name) with
  | none => add_subsystem env ovsrec_subsys st
  | some result => if result.valid = false then (st, none) else (st, some result.name)

/-- The function `tempd_unmark_subsystems` (tempd.c:694-703). -/
def tempd_unmark_subsystems (st : tempd_state) : tempd_state :=
  { st with subsystem_data := st.subsystem_data.map (fun s => { s with marked := false }) }

/-- The assignment `subsystem->marked = true` through the pointer that
`get_subsystem` returned: the dictionary entry found under that name. -/
def set_marked (name : String) : List locl_subsystem → List locl_subsystem
  | [] => []
  | s :: rest =>
    if s.name = name then { s with marked := true } :: rest
    else s :: set_marked name rest

/-- The calls `shash_find(&sensor_data, name)` and `shash_delete` of
`tempd_remove_unmarked_subsystems`: the entry found under the key is removed.
The source does not test whether one is found; here nothing happens then. -/
def sensor_data_delete (name : String) : List (String × String) → List (String × String)
  | [] => []
  | e :: rest => if e.1 = name then rest else e :: sensor_data_delete name rest

/-- The inner loop of `tempd_remove_unmarked_subsystems` (tempd.c:720-730): the
global entry of every sensor of one subsystem is deleted. -/
def delete_sensors (sensors : List locl_sensor) (sensor_data : List (String × String)) :
    List (String × String) :=
  sensors.foldl (fun sensor_data sensor => sensor_data_delete sensor.name sensor_data)
    sensor_data

/-- The function `tempd_remove_unmarked_subsystems` (tempd.c:708-740): every
subsystem with `marked == false` loses the global entries of its sensors and
its own dictionary entry; the marked ones stay. -/
def tempd_remove_unmarked_subsystems (st : tempd_state) : tempd_state :=
  { subsystem_data := st.subsystem_data.filter (fun s => s.marked = true),
    sensor_data :=
      (st.subsystem_data.filter (fun s => s.marked = false)).foldl
        (fun sensor_data s => delete_sensors s.subsystem_sensors sensor_data)
        st.sensor_data }

/-- Body of the `OVSREC_SUBSYSTEM_FOR_EACH` loop of `tempd_reconfigure`
(tempd.c:760-766). -/
def tempd_reconfigure_row (env : tempd_env) (st : tempd_state) (subsys : ovsrec_subsystem) :
    tempd_state :=
  match get_subsystem env subsys st with
  | (st, none) => st
  | (st, some name) => { st with subsystem_data := set_marked name st.subsystem_data }

/-- Lines 758-766 of `tempd_reconfigure`: unmark, then get and mark the
subsystem of every row. -/
def tempd_reconfigure_mark (env : tempd_env) (rows : List ovsrec_subsystem)
    (st : tempd_state) : tempd_state :=
  rows.foldl (tempd_reconfigure_row env) (tempd_unmark_subsystems st)

/-- Lines 757-769 of `tempd_reconfigure`: one reconciliation pass. -/
def tempd_reconfigure_pass (env : tempd_env) (rows : List ovsrec_subsystem)
    (st : tempd_state) : tempd_state :=
  tempd_remove_unmarked_subsystems (tempd_reconfigure_mark env rows st)

/-- The function `tempd_reconfigure` (tempd.c:743-770) with the global
`idl_seqno` passed in and out: nothing happens when the sequence number of the
database is the one already seen. -/
def tempd_reconfigure (env : tempd_env) (idl_seqno new_idl_seqno : Nat)
    (rows : List ovsrec_subsystem) (st : tempd_state) : Nat × tempd_state :=
  if new_idl_seqno = idl_seqno then (idl_seqno, st)
  else (new_idl_seqno, tempd_reconfigure_pass env rows st)

/-- Reconciliation passes one after the other, each with the catalog and the
rows of its moment, oldest first. -/
def tempd_reconfigure_passes (passes : List (tempd_env × List ovsrec_subsystem))
    (st : tempd_state) : tempd_state :=
  passes.foldl (fun st pass => tempd_reconfigure_pass pass.1 pass.2 st) st

/-! ## tempd.c: publishing to the database -/

/-- The string `NAME_IN_DAEMON_TABLE` of tempd.h. -/
def NAME_IN_DAEMON_TABLE : String := "ops-tempd"

/-- The numeric value of a `enum sensorstatus` constant. -/
def sensorstatus.code : sensorstatus → Nat
  | SENSOR_STATUS_UNINITIALIZED => 0
  | SENSOR_STATUS_NORMAL => 1
  | SENSOR_STATUS_MIN => 2
  | SENSOR_STATUS_MAX => 3
  | SENSOR_STATUS_LOWCRIT => 4
  | SENSOR_STATUS_CRITICAL => 5
  | SENSOR_STATUS_FAILED => 6
  | SENSOR_STATUS_EMERGENCY => 7

/-- The numeric value of a `enum fanspeed` constant. -/
def fanspeed.code : fanspeed → Nat
  | SENSOR_FAN_NORMAL => 0
  | SENSOR_FAN_MEDIUM => 1
  | SENSOR_FAN_FAST => 2
  | SENSOR_FAN_MAX => 3

/-- The array `sensor_status` of tempd.h. -/
def sensor_status : List String :=
  ["uninitialized", "normal", "min", "max", "low_critical", "critical", "fault",
   "emergency"]

/-- The array `fan_speed` of tempd.h. -/
def fan_speed : List String := ["normal", "medium", "fast", "max"]

/-- The function `sensor_status_to_string` (tempd.c:89-100). -/
def sensor_status_to_string (status : sensorstatus) : String :=
  if status.code < sensor_status.length then sensor_status.getD status.code ""
  else sensor_status.getD SENSOR_STATUS_UNINITIALIZED.code ""

/-- The function `sensor_speed_to_string` (tempd.c:103-111). -/
def sensor_speed_to_string (speed : fanspeed) : String :=
  if speed.code < fan_speed.length then fan_speed.getD speed.code ""
  else fan_speed.getD SENSOR_FAN_NORMAL.code ""

/-- Modelled from the spec: a row of the Temp_sensor table as the IDL caches it
(`struct ovsrec_temp_sensor` of the generated vswitch-idl.h, not part of the
sources), the persisted record of one sensor. -/
structure ovsrec_temp_sensor where
  name : String
  status : String
  temperature : Int
  min : Int
  max : Int
  fan_state : String
  location : String
  deriving DecidableEq

/-- Modelled from the spec: a row of the Daemon table (`struct ovsrec_daemon` of
the generated vswitch-idl.h, not part of the sources). -/
structure ovsrec_daemon where
  name : String
  cur_hw : Int
  deriving DecidableEq

/-- The columns of a Temp_sensor row that tempd.c sets with
`ovsrec_temp_sensor_set_*`. -/
inductive temp_sensor_column where
  | status
  | temperature
  | min
  | max
  | fan_state
  | location
  deriving DecidableEq, Repr

/-- The lookup `shash_find(&sensor_data, name)` followed by `node->data`: the
entry under the key, then the sensor it points to in the dictionary of its
subsystem.  A pointer to a sensor that is no longer there gives `none`. -/
def sensor_data_find (st : tempd_state) (name : String) : Option locl_sensor :=
  match st.sensor_data.find? (fun e => e.1 = name) with
  | none => none
  | some (key, owner) =>
    match st.subsystem_data.find? (fun s => s.name = owner) with
    | none => none
    | some subsystem => subsystem.subsystem_sensors.find? (fun s => s.name = key)

/-- What the publish step of `tempd_run__` has done to one Temp_sensor row: the
row after the writes, the columns written in order, and the `change` flag. -/
structure temp_sensor_update where
  cfg : ovsrec_temp_sensor
  written : List temp_sensor_column
  change : Bool
  deriving DecidableEq

/-- Body of the `OVSREC_TEMP_SENSOR_FOR_EACH` loop of `tempd_run__`
(tempd.c:601-648) for the row `cfg`, entered with the flag `change`. -/
def tempd_run_publish_row (st : tempd_state) (change : Bool) (cfg : ovsrec_temp_sensor) :
    temp_sensor_update :=
  match sensor_data_find st cfg.name with
  | none =>
    { cfg := { cfg with status := sensor_status_to_string SENSOR_STATUS_UNINITIALIZED },
      written := [temp_sensor_column.status], change := true }
  | some sensor =>
    let u : temp_sensor_update := { cfg := cfg, written := [], change := change }
    -- note: only apply changes - don't blindly set data
    let status := sensor_status_to_string sensor.status
    let u := if status ≠ u.cfg.status then
        { cfg := { u.cfg with status := status },
          written := u.written ++ [temp_sensor_column.status], change := true }
      else u
    let u := if u.cfg.temperature ≠ sensor.temp then
        { cfg := { u.cfg with temperature := sensor.temp },
          written := u.written ++ [temp_sensor_column.temperature], change := true }
      else u
    let u := if u.cfg.min ≠ sensor.min then
        { cfg := { u.cfg with min := sensor.min },
          written := u.written ++ [temp_sensor_column.min], change := true }
      else u
    let u := if u.cfg.max ≠ sensor.max then
        { cfg := { u.cfg with max := sensor.max },
          written := u.written ++ [temp_sensor_column.max], change := true }
      else u
    let status := sensor_speed_to_string sensor.fan_speed
    let u := if status ≠ u.cfg.fan_state then
        { cfg := { u.cfg with fan_state := status },
          written := u.written ++ [temp_sensor_column.fan_state], change := true }
      else u
    if sensor.yaml_sensor.location ≠ u.cfg.location then
      { cfg := { u.cfg with location := sensor.yaml_sensor.location },
        written := u.written ++ [temp_sensor_column.location], change := true }
    else u

/-- The `OVSREC_TEMP_SENSOR_FOR_EACH` loop of `tempd_run__` (tempd.c:601-648):
the rows with what was written to each, and the `change` flag at the end. -/
def tempd_run_publish_rows (st : tempd_state) :
    Bool → List ovsrec_temp_sensor → List temp_sensor_update × Bool
  | change, [] => ([], change)
  | change, cfg :: rest =>
    let u := tempd_run_publish_row st change cfg
    let r := tempd_run_publish_rows st u.change rest
    (u :: r.1, r.2)

/-- The `OVSREC_DAEMON_FOR_EACH` loop of `tempd_run__` (tempd.c:652-660): the
first row whose name begins with `NAME_IN_DAEMON_TABLE` gets `cur_hw = 1`;
`none` when there is no such row. -/
def tempd_run_set_cur_hw : List ovsrec_daemon → Option (List ovsrec_daemon)
  | [] => none
  | db_daemon :: rest =>
    if NAME_IN_DAEMON_TABLE.toList.isPrefixOf db_daemon.name.toList then
      some ({ db_daemon with cur_hw := 1 } :: rest)
    else
      match tempd_run_set_cur_hw rest with
      | none => none
      | some rest => some (db_daemon :: rest)

/-- Outcome of the publish step: the Temp_sensor rows with the writes made to
each, the Daemon rows, the global `cur_hw_set`, the final `change` flag, and
whether `ovsdb_idl_txn_commit_block` was called. -/
structure tempd_publish where
  temp_sensors : List temp_sensor_update
  daemons : List ovsrec_daemon
  cur_hw_set : Bool
  change : Bool
  committed : Bool
  deriving DecidableEq

/-- The publish step of `tempd_run__` (tempd.c:600-667), entered with
`change = false`. -/
def tempd_run_publish (st : tempd_state) (cur_hw_set : Bool)
    (temp_sensors : List ovsrec_temp_sensor) (daemons : List ovsrec_daemon) :
    tempd_publish :=
  let r := tempd_run_publish_rows st false temp_sensors
  let change := r.2
  -- If first time through, set cur_hw = 1
  let d : List ovsrec_daemon × Bool × Bool :=
    if cur_hw_set = false then
      match tempd_run_set_cur_hw daemons with
      | none => (daemons, cur_hw_set, change)
      | some daemons => (daemons, true, true)
    else (daemons, cur_hw_set, change)
  -- if a change was made, execute the transaction
  { temp_sensors := r.1, daemons := d.1, cur_hw_set := d.2.1, change := d.2.2,
    committed := d.2.2 }

/-- The function `tempd_run__` (tempd.c:561-668): the poll of every sensor, then
the publish step on the polled registry; `none` when the power-off was
reached. -/
def tempd_run__ (i2c : String → i2c_result × i2c_result) (st : tempd_state)
    (cur_hw_set : Bool) (temp_sensors : List ovsrec_temp_sensor)
    (daemons : List ovsrec_daemon) : Option (tempd_state × tempd_publish) :=
  match tempd_run_poll i2c st.subsystem_data with
  | none => none
  | some subsystem_data =>
    let st := { st with subsystem_data := subsystem_data }
    some (st, tempd_run_publish st cur_hw_set temp_sensors daemons)

/-! ## The registry while the daemon runs -/

/-- The dictionary `l` with `f` applied to the entry found by `p`. -/
def modify_found {α : Type} (p : α → Bool) (f : α → α) : List α → List α
  | [] => []
  | a :: rest => if p a then f a :: rest else a :: modify_found p f rest

/-- The function `tempd_unixctl_test` (tempd.c:470-493) on the registry: the
sensor found in `sensor_data` under the name gets the override; nothing changes
when there is no such sensor ("Sensor does not exist"). -/
def tempd_unixctl_test_sensor (name : String) (temp : Int) (st : tempd_state) :
    tempd_state :=
  match st.sensor_data.find? (fun e => e.1 = name) with
  | none => st
  | some (key, owner) =>
    let set_override := fun (sensors : List locl_sensor) =>
      modify_found (fun x => x.name = key) (tempd_unixctl_test temp) sensors
    let subsystem_data := modify_found (fun s => s.name = owner)
      (fun s => { s with subsystem_sensors := set_override s.subsystem_sensors })
      st.subsystem_data
    { st with subsystem_data := subsystem_data }

/-- What happens to the registry while the daemon runs: a reconciliation pass
with the catalog and rows of its moment, a poll of all sensors with the
outcomes of the bus, or the test command. -/
inductive registry_event where
  | reconfigure (env : tempd_env) (rows : List ovsrec_subsystem)
  | poll (i2c : String → i2c_result × i2c_result)
  | test (name : String) (temp : Int)

/-- One event applied to the registry.  A poll that reaches the power-off ends
the process; the registry is then left as it was. -/
def registry_step (st : tempd_state) : registry_event → tempd_state
  | registry_event.reconfigure env rows => tempd_reconfigure_pass env rows st
  | registry_event.poll i2c =>
    match tempd_run_poll i2c st.subsystem_data with
    | none => st
    | some subsystem_data => { st with subsystem_data := subsystem_data }
  | registry_event.test name temp => tempd_unixctl_test_sensor name temp st

/-- A sequence of events applied to the registry, oldest first. -/
def registry_run (events : List registry_event) (st : tempd_state) : tempd_state :=
  events.foldl registry_step st

/-! ## The bytes of the transducer -/

/-- The value of a byte `b` (0..255) stored in a plain `char` of `buf`, for a
compiler whose plain `char` is signed, as the decoding of `lm75_read` expects
(`buf[1] < 0` is its test of the top bit). -/
def char_of_byte (b : Nat) : Int :=
  if b < 128 then (b : Int) else (b : Int) - 256

/-- The signed value of the 9-bit two's-complement number made of the byte `b0`
followed by the top bit of the byte `b1`. -/
def lm75_signed9 (b0 b1 : Nat) : Int :=
  if 2 * b0 + b1 / 128 < 256 then ((2 * b0 + b1 / 128 : Nat) : Int)
  else ((2 * b0 + b1 / 128 : Nat) : Int) - 512

/-! ## Proof-side view of the rule ladders -/

/-- One guarded assignment `if (src == cur && guard) cur = dst;`. -/
def guarded {α : Type} [DecidableEq α] (src : α) (guard : Prop) [Decidable guard]
    (dst cur : α) : α :=
  if cur = src ∧ guard then dst else cur

/-- The invariant of a sensor that has been evaluated once: temp lies between
min and max, and only an lm75 sensor can be FAILED. -/
def in_range (s : locl_sensor) : Prop :=
  s.min ≤ s.temp ∧ s.temp ≤ s.max ∧
  (s.yaml_sensor.type ≠ "lm75" → s.status ≠ SENSOR_STATUS_FAILED)

/-- The failures of `add_subsystem` that the checks at tempd.c:342-392 catch: no
or an empty description directory, a catalog that does not load, a devices or
thermal file that does not parse, or no sensor. -/
def load_fails (env : tempd_env) (subsys : ovsrec_subsystem) : Prop :=
  match subsys.hw_desc_dir with
  | none => True
  | some dir =>
    dir.length = 0 ∨ (env.yaml subsys.name dir).add_rc ≠ 0 ∨
    (env.yaml subsys.name dir).devices_rc ≠ 0 ∨
    (env.yaml subsys.name dir).thermal_rc ≠ 0 ∨
    (env.yaml subsys.name dir).sensor_count ≤ 0

/-- Every subsystem of the registry that is not valid owns no sensor. -/
def invalid_without_sensors (st : tempd_state) : Prop :=
  ∀ e ∈ st.subsystem_data, e.valid = true ∨ e.subsystem_sensors = []

/-- No marked subsystem has an earlier entry of the same name in the
dictionary. -/
def marked_first (l : List locl_subsystem) : Prop :=
  l.Pairwise (fun a b => b.marked = true → a.name ≠ b.name)

/-- The dictionary `l` with the mark of every entry set to whether its name is
in `seen`. -/
def marked_by (seen : List String) (l : List locl_subsystem) : List locl_subsystem :=
  l.map (fun e => { e with marked := decide (e.name ∈ seen) })

/-- The entry found under the name `x` has the validity `v` and is marked. -/
def found_marked (x : String) (v : Bool) (st : tempd_state) : Prop :=
  ∃ e, st.subsystem_data.find? (fun s => s.name = x) = some e ∧ e.valid = v ∧
    e.marked = true

/-- The entry found under the name `x` is not valid, and no entry of that name
is marked. -/
def found_invalid_unmarked (x : String) (st : tempd_state) : Prop :=
  (∃ e, st.subsystem_data.find? (fun s => s.name = x) = some e ∧ e.valid = false) ∧
  ∀ e ∈ st.subsystem_data, e.name = x → e.marked = false

/-- The persisted record that mirrors a sensor field by field: status string,
temperature, min, max, fan-state string and location. -/
def sensor_record (name : String) (sensor : locl_sensor) : ovsrec_temp_sensor :=
  { name := name,
    status := sensor_status_to_string sensor.status,
    temperature := sensor.temp,
    min := sensor.min,
    max := sensor.max,
    fan_state := sensor_speed_to_string sensor.fan_speed,
    location := sensor.yaml_sensor.location }

/-- The persisted value of a column differs from the value the sensor has for
it. -/
def column_differs (cfg : ovsrec_temp_sensor) (sensor : locl_sensor) :
    temp_sensor_column → Prop
  | temp_sensor_column.status => sensor_status_to_string sensor.status ≠ cfg.status
  | temp_sensor_column.temperature => cfg.temperature ≠ sensor.temp
  | temp_sensor_column.min => cfg.min ≠ sensor.min
  | temp_sensor_column.max => cfg.max ≠ sensor.max
  | temp_sensor_column.fan_state => sensor_speed_to_string sensor.fan_speed ≠ cfg.fan_state
  | temp_sensor_column.location => sensor.yaml_sensor.location ≠ cfg.location

/-- What the publish step owes a row: with a sensor of its name, the mirror of
that sensor, written in exactly the columns that differed; without one, the row
with status "uninitialized" and nothing else changed. -/
def published (st : tempd_state) (cfg : ovsrec_temp_sensor) (u : temp_sensor_update) : Prop :=
  match sensor_data_find st cfg.name with
  | some sensor =>
    u.cfg = sensor_record cfg.name sensor ∧ ∀ c, c ∈ u.written ↔ column_differs cfg sensor c
  | none =>
    u.cfg = { cfg with status := "uninitialized" } ∧ u.written = [temp_sensor_column.status]

/-- One compare-and-set of the publish loop: when the row differs from the
sensor in the column `c`, the column is set, recorded as written, and the
`change` flag is raised. -/
def publish_column (c : temp_sensor_column) (differs : ovsrec_temp_sensor → Bool)
    (set : ovsrec_temp_sensor → ovsrec_temp_sensor) (u : temp_sensor_update) :
    temp_sensor_update :=
  if differs u.cfg then
    { cfg := set u.cfg, written := u.written ++ [c], change := true }
  else u

/-- Every sensor of every subsystem of the registry satisfies `P`. -/
def all_sensors (P : locl_sensor → Prop) (st : tempd_state) : Prop :=
  ∀ e ∈ st.subsystem_data, ∀ s ∈ e.subsystem_sensors, P s

/-- The ten alarm rules with the outcome of each comparison given: `eoff` is
`t ≤ emergency_off`, `coff` is `t ≤ critical_off`, `moff` is `t ≤ max_off`,
`mon`, `con`, `eon` are `t ≥ max_on`, `t ≥ critical_on`, `t ≥ emergency_on`,
`minle` is `t ≤ min` and `lowle` is `t ≤ low_crit`. -/
def alarm_rules (eoff coff moff mon con eon minle lowle : Bool) (st : sensorstatus) :
    sensorstatus :=
  guarded SENSOR_STATUS_MIN (lowle = true) SENSOR_STATUS_LOWCRIT
  (guarded SENSOR_STATUS_NORMAL (minle = true) SENSOR_STATUS_MIN
  (guarded SENSOR_STATUS_CRITICAL (eon = true) SENSOR_STATUS_EMERGENCY
  (guarded SENSOR_STATUS_MAX (con = true) SENSOR_STATUS_CRITICAL
  (guarded SENSOR_STATUS_NORMAL (mon = true) SENSOR_STATUS_MAX
  (guarded SENSOR_STATUS_MIN (minle = false) SENSOR_STATUS_NORMAL
  (guarded SENSOR_STATUS_NORMAL (lowle = false) SENSOR_STATUS_MIN
  (guarded SENSOR_STATUS_MAX (moff = true) SENSOR_STATUS_NORMAL
  (guarded SENSOR_STATUS_CRITICAL (coff = true) SENSOR_STATUS_MAX
  (guarded SENSOR_STATUS_EMERGENCY (eoff = true) SENSOR_STATUS_CRITICAL
    st)))))))))

/-- The six fan rules with the outcome of each comparison given. -/
def fan_rules (medon faston maxon maxoff fastoff medoff : Bool) (fs : fanspeed) :
    fanspeed :=
  guarded SENSOR_FAN_MEDIUM (medoff = true) SENSOR_FAN_NORMAL
  (guarded SENSOR_FAN_FAST (fastoff = true) SENSOR_FAN_MEDIUM
  (guarded SENSOR_FAN_MAX (maxoff = true) SENSOR_FAN_FAST
  (guarded SENSOR_FAN_FAST (maxon = true) SENSOR_FAN_MAX
  (guarded SENSOR_FAN_MEDIUM (faston = true) SENSOR_FAN_FAST
  (guarded SENSOR_FAN_NORMAL (medon = true) SENSOR_FAN_MEDIUM
    fs)))))

/-- The number that a list of decimal digit characters denotes, most
significant digit first. -/
def decimal_value (l : List Char) : Nat :=
  l.foldl (fun acc c => 10 * acc + (c.toNat - 48)) 0

/-- The entries that the sensors owned by the subsystems of the registry call
for in the global sensor dictionary: the name of the sensor with the name of
its owner, subsystem by subsystem. -/
def owned_sensors (st : tempd_state) : List (String × String) :=
  st.subsystem_data.flatMap
    (fun e => e.subsystem_sensors.map (fun sensor => (sensor.name, e.name)))

/-- The global sensor dictionary holds the entries of the owned sensors and
nothing else, and the back-reference of every sensor names its owner. -/
def registry_mirrors (st : tempd_state) : Prop :=
  st.sensor_data = owned_sensors st ∧
  ∀ e ∈ st.subsystem_data, ∀ s ∈ e.subsystem_sensors, s.subsystem = e.name

/-- The keys of the global sensor dictionary are pairwise distinct each time
the loop over the rows has run and the sweep starts, pass after pass from the
state `st` on. -/
def names_distinct : List (tempd_env × List ovsrec_subsystem) → tempd_state → Prop
  | [], _ => True
  | pass :: rest, st =>
    ((tempd_reconfigure_mark pass.1 pass.2 st).sensor_data.map Prod.fst).Nodup ∧
    names_distinct rest (tempd_reconfigure_pass pass.1 pass.2 st)

/-- Registry consistency: the keys of the global sensor dictionary are pairwise
distinct; it has an entry (sensor name, owner name) exactly for the sensors
owned by the subsystems of the subsystem dictionary; the lookup of the name of
an owned sensor gives that sensor, whose back-reference names its owner; a
sensor that a lookup gives is under its own name and is owned by a subsystem of
the registry that its back-reference names; and the lookup of the key of every
entry gives a sensor. -/
def registry_consistent (st : tempd_state) : Prop :=
  (st.sensor_data.map Prod.fst).Nodup ∧
  (∀ k o, (k, o) ∈ st.sensor_data ↔
    ∃ e ∈ st.subsystem_data, e.name = o ∧ ∃ s ∈ e.subsystem_sensors, s.name = k) ∧
  (∀ e ∈ st.subsystem_data, ∀ s ∈ e.subsystem_sensors,
    sensor_data_find st s.name = some s ∧ s.subsystem = e.name) ∧
  (∀ k s, sensor_data_find st k = some s →
    s.name = k ∧ ∃ e ∈ st.subsystem_data, s ∈ e.subsystem_sensors ∧ s.subsystem = e.name) ∧
  (∀ p ∈ st.sensor_data, ∃ s, sensor_data_find st p.1 = some s)

/-! ## The conversion to single precision -/

/-- The spacing of the single-precision numbers around the magnitude `a` of a C
`int`: 24 significant bits are kept, so the spacing is 1 below 2^24 and doubles
with every further bit, up to 2^31. -/
def float_ulp (a : Nat) : Nat :=
  if a < 16777216 then 1
  else if a < 33554432 then 2
  else if a < 67108864 then 4
  else if a < 134217728 then 8
  else if a < 268435456 then 16
  else if a < 536870912 then 32
  else if a < 1073741824 then 64
  else if a < 2147483648 then 128
  else 256

/-- The C conversion `(float)sensor->temp` of an `int` to IEEE 754 single
precision: the nearest number with 24 significant bits, a tie going to the one
whose last kept bit is 0.  Every `temp` up to 2^24 in magnitude is kept as it
is. -/
def float_of_int (temp : Int) : Int :=
  let a := temp.natAbs
  let u := float_ulp a
  let q := a / u
  let r := a % u
  let q := if 2 * r > u ∨ (2 * r = u ∧ q % 2 = 1) then q + 1 else q
  if temp < 0 then -((q * u : Nat) : Int) else ((q * u : Nat) : Int)

/-- The C expression `(float)sensor->temp/MILI_DEGREES_FLOAT` with the rounding
of the conversion.  The division by `1000.0` is one of double precision; its
rounding is far finer than the distance of the quotient to any single-precision
threshold other than the quotient itself, so it changes the outcome of no
comparison and the quotient is taken exactly. -/
def degrees_float (temp : Int) : ℚ := mkRat (float_of_int temp) MILI_DEGREES_FLOAT

/-- Lines 230-280 of `tempd_read_sensor` with the rounding of `(float)`: the ten
alarm rules on the outcomes of the comparisons of `degrees_float temp` with the
thresholds. -/
def alarm_ladder_float (a : YamlAlarmThresholds) (temp : Int) (status : sensorstatus) :
    sensorstatus :=
  alarm_rules (decide (degrees_float temp ≤ a.emergency_off))
    (decide (degrees_float temp ≤ a.critical_off)) (decide (degrees_float temp ≤ a.max_off))
    (decide (degrees_float temp ≥ a.max_on)) (decide (degrees_float temp ≥ a.critical_on))
    (decide (degrees_float temp ≥ a.emergency_on)) (decide (degrees_float temp ≤ a.min))
    (decide (degrees_float temp ≤ a.low_crit)) status

/-- Lines 282-311 of `tempd_read_sensor` with the rounding of `(float)`: the six
fan rules on the outcomes of the comparisons of `degrees_float temp` with the
thresholds. -/
def fan_ladder_float (f : YamlFanThresholds) (temp : Int) (fan_speed : fanspeed) : fanspeed :=
  fan_rules (decide (degrees_float temp ≥ f.medium_on)) (decide (degrees_float temp ≥ f.fast_on))
    (decide (degrees_float temp ≥ f.max_on)) (decide (degrees_float temp ≤ f.max_off))
    (decide (degrees_float temp ≤ f.fast_off)) (decide (degrees_float temp ≤ f.medium_off))
    fan_speed

/-! ## Example data -/

def exampleAlarm : YamlAlarmThresholds :=
  { emergency_on := 90, emergency_off := 85, critical_on := 75, critical_off := 70,
    max_on := 60, max_off := 55, min := 5, low_crit := 0 }

def exampleFan : YamlFanThresholds :=
  { max_on := 70, max_off := 65, fast_on := 55, fast_off := 50,
    medium_on := 40, medium_off := 35 }

def exampleYaml : YamlSensor :=
  { number := 1, location := "front", device := "temp1", type := "lm75",
    alarm_thresholds := exampleAlarm, fan_thresholds := exampleFan }

/-- A sensor as `add_subsystem` (tempd.c:419-428) initialises it, fault count 0. -/
def exampleSensor : locl_sensor :=
  { name := "base-1", subsystem := "base", yaml_sensor := exampleYaml,
    status := SENSOR_STATUS_NORMAL, fan_speed := SENSOR_FAN_NORMAL,
    temp := 0, min := 1000000, max := -1000000, fault_count := 0, test_temp := -1 }


/-- A sensor of type lm75 with the given thresholds, alarm status, fan speed and
current temperature, no override and fault count 0. -/
def mkSensor (a : YamlAlarmThresholds) (f : YamlFanThresholds) (status : sensorstatus)
    (fan_speed : fanspeed) (temp : Int) : locl_sensor :=
  { name := "base-1", subsystem := "base",
    yaml_sensor := { number := 1, location := "front", device := "temp1", type := "lm75",
                     alarm_thresholds := a, fan_thresholds := f },
    status := status, fan_speed := fan_speed,
    temp := temp, min := 1000000, max := -1000000, fault_count := 0, test_temp := -1 }

/-- Alarm thresholds whose `min` lies above every `_on` threshold. -/
def highMinAlarm : YamlAlarmThresholds :=
  { emergency_on := 90, emergency_off := 85, critical_on := 75, critical_off := 70,
    max_on := 60, max_off := 55, min := 100, low_crit := 0 }

/-- A sensor that was marked FAILED after repeated read faults while it held
the temperature 95000. -/
def failedSensor : locl_sensor :=
  { mkSensor exampleAlarm exampleFan SENSOR_STATUS_FAILED SENSOR_FAN_MAX 95000 with
    fault_count := 4 }

/-- A sensor in status NORMAL that has already counted three read faults. -/
def faultySensor : locl_sensor :=
  { mkSensor exampleAlarm exampleFan SENSOR_STATUS_NORMAL SENSOR_FAN_NORMAL 30000 with
    fault_count := 3 }

/-- A catalog answer for a subsystem with two lm75 sensors, numbered 1 and 2. -/
def exampleYamlSubsystem : YamlSubsystem :=
  { add_rc := 0, devices_rc := 0, thermal_rc := 0, auto_shutdown := true,
    sensor_count := 2,
    sensor := fun idx => { exampleYaml with number := (idx : Int) + 1 } }

/-- A catalog answer whose description files cannot be read. -/
def brokenYamlSubsystem : YamlSubsystem :=
  { exampleYamlSubsystem with add_rc := -1 }

/-- A world in which every subsystem loads with two sensors, every initial read
delivers 30 degrees, and fresh memory holds zeros. -/
def exampleEnv : tempd_env :=
  { yaml := fun _ _ => exampleYamlSubsystem,
    i2c := fun _ => some (30, 0),
    fault_count := fun _ => 0 }

/-- A world in which no description file can be read. -/
def brokenEnv : tempd_env :=
  { exampleEnv with yaml := fun _ _ => brokenYamlSubsystem }

/-- The Subsystem rows `A` and `B`, each with a description directory. -/
def rowA : ovsrec_subsystem := { name := "A", hw_desc_dir := some "/etc/hw/A" }

def rowB : ovsrec_subsystem := { name := "B", hw_desc_dir := some "/etc/hw/B" }

/-- A Subsystem row without description directory. -/
def rowNoDir : ovsrec_subsystem := { name := "C", hw_desc_dir := none }

/-- The registry after a first pass over the rows `A` and `B`. -/
def registryAB : tempd_state :=
  tempd_reconfigure_pass exampleEnv [rowA, rowB] init_subsystems

/-- The example sensor with the override 95000 set by the test command. -/
def overrideSensor : locl_sensor := tempd_unixctl_test 95000 exampleSensor

/-- A sensor of a type other than lm75. -/
def unknownTypeSensor : locl_sensor :=
  { exampleSensor with yaml_sensor := { exampleYaml with type := "tmp102" } }

/-- The subsystem `B` as the first pass over `A` and `B` created it. -/
def subsystemB : locl_subsystem :=
  { name := "B", marked := true, valid := true,
    subsystem_sensors :=
      [new_sensor exampleEnv "B" (exampleYamlSubsystem.sensor 0),
       new_sensor exampleEnv "B" (exampleYamlSubsystem.sensor 1)],
    emergency_shutdown := true }

/-- A persisted record of a sensor that the registry does not hold, its status
already "uninitialized". -/
def orphanRow : ovsrec_temp_sensor :=
  { name := "gone-1", status := "uninitialized", temperature := 41000, min := 20000,
    max := 45000, fan_state := "normal", location := "rear" }

/-- The persisted record of the sensor `A-1` of `registryAB` before its first
publication. -/
def staleRowA1 : ovsrec_temp_sensor :=
  { name := "A-1", status := "normal", temperature := 0, min := 30000,
    max := 30000, fan_state := "normal", location := "front" }

/-- Two passes: the rows `A` and `B`, then the row `A` alone. -/
def examplePasses : List (tempd_env × List ovsrec_subsystem) :=
  [(exampleEnv, [rowA, rowB]), (exampleEnv, [rowA])]

/-- The world of `exampleEnv` with a bus on which every read fails. -/
def deadBusEnv : tempd_env :=
  { exampleEnv with i2c := fun _ => none }

/-- Alarm thresholds whose `max_on` is 16777.5, half a milli-degree step above
16777.499. -/
def halfStepMaxAlarm : YamlAlarmThresholds :=
  { emergency_on := 30000, emergency_off := 29000, critical_on := 20000,
    critical_off := 19000, max_on := mkRat 33555 2, max_off := 16000, min := 5,
    low_crit := 0 }

/-- Alarm thresholds whose `emergency_on` is 16777.5. -/
def halfStepEmergencyAlarm : YamlAlarmThresholds :=
  { emergency_on := mkRat 33555 2, emergency_off := 16000, critical_on := 75,
    critical_off := 70, max_on := 60, max_off := 55, min := 5, low_crit := 0 }

/-- Alarm thresholds whose three `_on` values are 8589935/512 = 16777.216796875,
between 16777.216 and 16777.217. -/
def fineStepAlarm : YamlAlarmThresholds :=
  { emergency_on := mkRat 8589935 512, emergency_off := 85,
    critical_on := mkRat 8589935 512, critical_off := 70,
    max_on := mkRat 8589935 512, max_off := 55, min := 5, low_crit := 0 }

/-- Fan thresholds whose three `_on` values are 8589935/512. -/
def fineStepFan : YamlFanThresholds :=
  { max_on := mkRat 8589935 512, max_off := 65, fast_on := mkRat 8589935 512,
    fast_off := 50, medium_on := mkRat 8589935 512, medium_off := 35 }

/-- Fan thresholds whose `max_off` is 8589935/512. -/
def fineStepOffFan : YamlFanThresholds :=
  { max_on := 17000, max_off := mkRat 8589935 512, fast_on := 55, fast_off := 50,
    medium_on := 40, medium_off := 35 }

/-! ## Basic facts -/

theorem degrees_eq (t : Int) : degrees t = (t : ℚ) / 1000 := by
  simp [degrees, MILI_DEGREES_FLOAT, Rat.mkRat_eq_div]

theorem guarded_of_ne {α : Type} [DecidableEq α] (src : α) (guard : Prop) [Decidable guard]
    (dst cur : α) (h : cur ≠ src) : guarded src guard dst cur = cur := by
  simp [guarded, h]

theorem guarded_pos {α : Type} [DecidableEq α] (src : α) (guard : Prop) [Decidable guard]
    (dst : α) (h : guard) : guarded src guard dst src = dst := by
  simp [guarded, h]

theorem guarded_neg {α : Type} [DecidableEq α] (src : α) (guard : Prop) [Decidable guard]
    (dst cur : α) (h : ¬ guard) : guarded src guard dst cur = cur := by
  simp [guarded, h]

theorem guarded_avoids {α : Type} [DecidableEq α] (src : α) (guard : Prop) [Decidable guard]
    (dst cur x : α) (hd : dst ≠ x) (hc : cur ≠ x) : guarded src guard dst cur ≠ x := by
  unfold guarded
  split_ifs <;> assumption

/-- The alarm rules as ten guarded assignments, innermost first. -/
theorem alarm_ladder_eq (a : YamlAlarmThresholds) (t : Int) (st : sensorstatus) :
    alarm_ladder a t st =
      guarded SENSOR_STATUS_MIN (degrees t ≤ a.low_crit) SENSOR_STATUS_LOWCRIT
      (guarded SENSOR_STATUS_NORMAL (degrees t ≤ a.min) SENSOR_STATUS_MIN
      (guarded SENSOR_STATUS_CRITICAL (degrees t ≥ a.emergency_on) SENSOR_STATUS_EMERGENCY
      (guarded SENSOR_STATUS_MAX (degrees t ≥ a.critical_on) SENSOR_STATUS_CRITICAL
      (guarded SENSOR_STATUS_NORMAL (degrees t ≥ a.max_on) SENSOR_STATUS_MAX
      (guarded SENSOR_STATUS_MIN (degrees t > a.min) SENSOR_STATUS_NORMAL
      (guarded SENSOR_STATUS_NORMAL (degrees t > a.low_crit) SENSOR_STATUS_MIN
      (guarded SENSOR_STATUS_MAX (degrees t ≤ a.max_off) SENSOR_STATUS_NORMAL
      (guarded SENSOR_STATUS_CRITICAL (degrees t ≤ a.critical_off) SENSOR_STATUS_MAX
      (guarded SENSOR_STATUS_EMERGENCY (degrees t ≤ a.emergency_off) SENSOR_STATUS_CRITICAL
        st))))))))) := by
  simp only [alarm_ladder, guarded]

/-- The fan rules as six guarded assignments, innermost first. -/
theorem fan_ladder_eq (f : YamlFanThresholds) (t : Int) (fs : fanspeed) :
    fan_ladder f t fs =
      guarded SENSOR_FAN_MEDIUM (degrees t ≤ f.medium_off) SENSOR_FAN_NORMAL
      (guarded SENSOR_FAN_FAST (degrees t ≤ f.fast_off) SENSOR_FAN_MEDIUM
      (guarded SENSOR_FAN_MAX (degrees t ≤ f.max_off) SENSOR_FAN_FAST
      (guarded SENSOR_FAN_FAST (degrees t ≥ f.max_on) SENSOR_FAN_MAX
      (guarded SENSOR_FAN_MEDIUM (degrees t ≥ f.fast_on) SENSOR_FAN_FAST
      (guarded SENSOR_FAN_NORMAL (degrees t ≥ f.medium_on) SENSOR_FAN_MEDIUM
        fs))))) := by
  simp only [fan_ladder, guarded]

theorem alarm_ladder_rules (a : YamlAlarmThresholds) (t : Int) (st : sensorstatus) :
    alarm_ladder a t st =
      alarm_rules (decide (degrees t ≤ a.emergency_off)) (decide (degrees t ≤ a.critical_off))
        (decide (degrees t ≤ a.max_off)) (decide (degrees t ≥ a.max_on))
        (decide (degrees t ≥ a.critical_on)) (decide (degrees t ≥ a.emergency_on))
        (decide (degrees t ≤ a.min)) (decide (degrees t ≤ a.low_crit)) st := by
  rw [alarm_ladder_eq]
  simp only [alarm_rules, decide_eq_true_eq, decide_eq_false_iff_not, not_le, gt_iff_lt]

theorem fan_ladder_rules (f : YamlFanThresholds) (t : Int) (fs : fanspeed) :
    fan_ladder f t fs =
      fan_rules (decide (degrees t ≥ f.medium_on)) (decide (degrees t ≥ f.fast_on))
        (decide (degrees t ≥ f.max_on)) (decide (degrees t ≤ f.max_off))
        (decide (degrees t ≤ f.fast_off)) (decide (degrees t ≤ f.medium_off)) fs := by
  rw [fan_ladder_eq]
  simp only [fan_rules, decide_eq_true_eq]

theorem float_of_nat_eq (n : Nat) (h : n ≤ 16777216) :
    (if 2 * (n % float_ulp n) > float_ulp n ∨
        (2 * (n % float_ulp n) = float_ulp n ∧ n / float_ulp n % 2 = 1)
      then n / float_ulp n + 1 else n / float_ulp n) * float_ulp n = n := by
  by_cases hlt : n < 16777216
  · have hu : float_ulp n = 1 := by simp [float_ulp, hlt]
    rw [hu]
    simp [Nat.mod_one]
  · have hn : n = 16777216 := by omega
    subst hn
    decide

theorem float_of_int_eq (t : Int) (hlo : -16777216 ≤ t) (hhi : t ≤ 16777216) :
    float_of_int t = t := by
  have ha : t.natAbs ≤ 16777216 := by omega
  unfold float_of_int
  simp only []
  rw [float_of_nat_eq _ ha]
  split_ifs <;> omega

theorem degrees_float_eq (t : Int) (hlo : -16777216 ≤ t) (hhi : t ≤ 16777216) :
    degrees_float t = degrees t := by
  unfold degrees_float degrees
  rw [float_of_int_eq t hlo hhi]

/-- Within 2^24 the alarm rules with the rounding of `(float)` are the alarm
rules on the exact quotient. -/
theorem alarm_ladder_float_eq (a : YamlAlarmThresholds) (t : Int) (st : sensorstatus)
    (hlo : -16777216 ≤ t) (hhi : t ≤ 16777216) :
    alarm_ladder_float a t st = alarm_ladder a t st := by
  rw [alarm_ladder_rules, alarm_ladder_float, degrees_float_eq t hlo hhi]

theorem fan_ladder_float_eq (f : YamlFanThresholds) (t : Int) (fs : fanspeed)
    (hlo : -16777216 ≤ t) (hhi : t ≤ 16777216) :
    fan_ladder_float f t fs = fan_ladder f t fs := by
  rw [fan_ladder_rules, fan_ladder_float, degrees_float_eq t hlo hhi]

/-- No alarm rule produces FAILED. -/
theorem alarm_ladder_ne_failed (a : YamlAlarmThresholds) (t : Int) (st : sensorstatus)
    (h : st ≠ SENSOR_STATUS_FAILED) : alarm_ladder a t st ≠ SENSOR_STATUS_FAILED := by
  rw [alarm_ladder_eq]
  iterate 10 refine guarded_avoids _ _ _ _ _ (by decide) ?_
  exact h

/-- The alarm rules leave NORMAL in place when min < temp/1000 < max_on. -/
theorem alarm_normal_ladder_between (a : YamlAlarmThresholds) (t : Int)
    (hmin : a.min < (t : ℚ) / 1000) (hmax : (t : ℚ) / 1000 < a.max_on) :
    alarm_ladder a t SENSOR_STATUS_NORMAL = SENSOR_STATUS_NORMAL := by
  rw [alarm_ladder_eq]
  rw [← degrees_eq] at hmin hmax
  have hmin' := not_le.mpr hmin
  have hmax' := not_le.mpr hmax
  by_cases hl : degrees t > a.low_crit
  · simp [guarded, hl, hmin, hmin', hmax']
  · simp [guarded, hl, hmin, hmin', hmax']

/-! ## Frame facts of one poll -/

theorem adjust_min_max_frame (s : locl_sensor) :
    (adjust_min_max s).status = s.status ∧ (adjust_min_max s).temp = s.temp ∧
    (adjust_min_max s).fan_speed = s.fan_speed ∧
    (adjust_min_max s).yaml_sensor = s.yaml_sensor ∧
    (adjust_min_max s).fault_count = s.fault_count ∧
    (adjust_min_max s).test_temp = s.test_temp ∧ (adjust_min_max s).name = s.name := by
  unfold adjust_min_max
  simp only []
  split_ifs <;> simp

theorem tempd_evaluate_frame (s : locl_sensor) :
    (tempd_evaluate s).temp = s.temp ∧ (tempd_evaluate s).yaml_sensor = s.yaml_sensor ∧
    (tempd_evaluate s).fault_count = s.fault_count ∧
    (tempd_evaluate s).test_temp = s.test_temp ∧ (tempd_evaluate s).name = s.name := by
  obtain ⟨_, h2, _, h4, h5, h6, h7⟩ := adjust_min_max_frame s
  unfold tempd_evaluate
  split_ifs <;> simp [*]

theorem tempd_evaluate_failed (s : locl_sensor) (h : s.status = SENSOR_STATUS_FAILED) :
    tempd_evaluate s = s := by
  simp [tempd_evaluate, h]

theorem tempd_evaluate_status (s : locl_sensor) (h : s.status ≠ SENSOR_STATUS_FAILED) :
    (tempd_evaluate s).status =
      alarm_ladder s.yaml_sensor.alarm_thresholds s.temp s.status := by
  obtain ⟨h1, h2, _, h4, _⟩ := adjust_min_max_frame s
  simp [tempd_evaluate, h, h1, h2, h4]

theorem tempd_evaluate_fan_speed (s : locl_sensor) (h : s.status ≠ SENSOR_STATUS_FAILED) :
    (tempd_evaluate s).fan_speed =
      fan_ladder s.yaml_sensor.fan_thresholds s.temp s.fan_speed := by
  obtain ⟨_, h2, h3, h4, _⟩ := adjust_min_max_frame s
  simp [tempd_evaluate, h, h2, h3, h4]

theorem tempd_evaluate_ne_failed (s : locl_sensor) (h : s.status ≠ SENSOR_STATUS_FAILED) :
    (tempd_evaluate s).status ≠ SENSOR_STATUS_FAILED := by
  rw [tempd_evaluate_status s h]
  exact alarm_ladder_ne_failed _ _ _ h

/-- The read step of an lm75 sensor without override whose bus read fails. -/
theorem tempd_read_step_fault (s : locl_sensor) (htype : s.yaml_sensor.type = "lm75")
    (htest : s.test_temp = -1) :
    tempd_read_step none s =
      { (if s.fault_count > MAX_FAIL_RETRY then { s with status := SENSOR_STATUS_FAILED }
          else s) with fault_count := s.fault_count + 1 } := by
  unfold tempd_read_step lm75_read
  simp only [htype, htest]
  split_ifs <;> simp_all

/-- What one failing poll does to an lm75 sensor without override. -/
theorem tempd_read_sensor_fault (s : locl_sensor) (htype : s.yaml_sensor.type = "lm75")
    (htest : s.test_temp = -1) :
    (tempd_read_sensor none s).yaml_sensor = s.yaml_sensor ∧
    (tempd_read_sensor none s).test_temp = s.test_temp ∧
    (tempd_read_sensor none s).fault_count = s.fault_count + 1 ∧
    (tempd_read_sensor none s).temp = s.temp ∧
    (s.fault_count > 2 → (tempd_read_sensor none s).status = SENSOR_STATUS_FAILED) ∧
    (s.fault_count ≤ 2 → (tempd_read_sensor none s).status = (tempd_evaluate s).status) := by
  obtain ⟨e1, e2, e3, e4, _⟩ := tempd_evaluate_frame (tempd_read_step none s)
  unfold tempd_read_sensor
  rw [e1, e2, e3, e4, tempd_read_step_fault s htype htest]
  refine ⟨?_, ?_, ?_, ?_, ?_, ?_⟩
  · split_ifs <;> rfl
  · split_ifs <;> rfl
  · rfl
  · split_ifs <;> rfl
  · intro h
    have h' : s.fault_count > MAX_FAIL_RETRY := h
    rw [if_pos h']
    exact congrArg locl_sensor.status (tempd_evaluate_failed _ rfl)
  · intro h
    have h' : ¬ s.fault_count > MAX_FAIL_RETRY := by
      simpa [MAX_FAIL_RETRY] using h
    rw [if_neg h']
    by_cases hf : s.status = SENSOR_STATUS_FAILED
    · rw [tempd_evaluate_failed _ hf, tempd_evaluate_failed _ (by exact hf)]
    · rw [tempd_evaluate_status _ hf, tempd_evaluate_status _ (by exact hf)]

/-! ## Read faults and the retry limit -/

/-- C1, the code on the claim's scenario: from fault_count = 0 and a status other
than FAILED, two failing polls of an lm75 sensor without override leave
fault_count = 2 and a status other than FAILED; the third failing poll leaves
fault_count = 3 and the status still not FAILED (the limit is compared before the
increment); only the fourth failing poll sets FAILED. -/
theorem lm75_fault_failed_on_fourth (s : locl_sensor)
    (htype : s.yaml_sensor.type = "lm75") (htest : s.test_temp = -1)
    (hfc : s.fault_count = 0) (hst : s.status ≠ SENSOR_STATUS_FAILED) :
    (tempd_polls [none, none] s).fault_count = 2 ∧
    (tempd_polls [none, none] s).status ≠ SENSOR_STATUS_FAILED ∧
    (tempd_polls [none, none, none] s).fault_count = 3 ∧
    (tempd_polls [none, none, none] s).status ≠ SENSOR_STATUS_FAILED ∧
    (tempd_polls [none, none, none, none] s).status = SENSOR_STATUS_FAILED := by
  simp only [tempd_polls, List.foldl]
  obtain ⟨y1, t1, f1, -, -, s1⟩ := tempd_read_sensor_fault s htype htest
  have n1 : (tempd_read_sensor none s).status ≠ SENSOR_STATUS_FAILED := by
    rw [s1 (by omega)]
    exact tempd_evaluate_ne_failed s hst
  obtain ⟨y2, t2, f2, -, -, s2⟩ :=
    tempd_read_sensor_fault (tempd_read_sensor none s) (by rw [y1]; exact htype)
      (by rw [t1]; exact htest)
  have n2 : (tempd_read_sensor none (tempd_read_sensor none s)).status
      ≠ SENSOR_STATUS_FAILED := by
    rw [s2 (by omega)]
    exact tempd_evaluate_ne_failed _ n1
  obtain ⟨y3, t3, f3, -, -, s3⟩ :=
    tempd_read_sensor_fault (tempd_read_sensor none (tempd_read_sensor none s))
      (by rw [y2, y1]; exact htype) (by rw [t2, t1]; exact htest)
  have n3 : (tempd_read_sensor none (tempd_read_sensor none (tempd_read_sensor none s))).status
      ≠ SENSOR_STATUS_FAILED := by
    rw [s3 (by omega)]
    exact tempd_evaluate_ne_failed _ n2
  obtain ⟨-, -, -, -, s4, -⟩ :=
    tempd_read_sensor_fault
      (tempd_read_sensor none (tempd_read_sensor none (tempd_read_sensor none s)))
      (by rw [y3, y2, y1]; exact htype) (by rw [t3, t2, t1]; exact htest)
  exact ⟨by omega, n2, by omega, n3, s4 (by omega)⟩

theorem lm75_fault_failed_on_fourth_witness :
    exampleSensor.yaml_sensor.type = "lm75" ∧ exampleSensor.test_temp = -1 ∧
    exampleSensor.fault_count = 0 ∧ exampleSensor.status ≠ SENSOR_STATUS_FAILED ∧
    (tempd_polls [none, none] exampleSensor).fault_count = 2 ∧
    (tempd_polls [none, none] exampleSensor).status ≠ SENSOR_STATUS_FAILED ∧
    (tempd_polls [none, none, none] exampleSensor).fault_count = 3 ∧
    (tempd_polls [none, none, none] exampleSensor).status ≠ SENSOR_STATUS_FAILED ∧
    (tempd_polls [none, none, none, none] exampleSensor).status = SENSOR_STATUS_FAILED :=
  ⟨by decide, by decide, by decide, by decide,
    lm75_fault_failed_on_fourth exampleSensor (by decide) (by decide) (by decide) (by decide)⟩

/-! ## The poll loop and the emergency power-off -/

theorem tempd_run_sensor_poweroff (subsystem : locl_subsystem) (rd1 rd2 : i2c_result)
    (sensor : locl_sensor) :
    (tempd_run_sensor subsystem rd1 rd2 sensor).2 = true ↔
      (tempd_read_sensor rd1 sensor).status = SENSOR_STATUS_EMERGENCY ∧
      (tempd_read_sensor rd2 (tempd_read_sensor rd1 sensor)).status
        = SENSOR_STATUS_EMERGENCY ∧
      subsystem.emergency_shutdown = true := by
  unfold tempd_run_sensor
  simp only []
  split_ifs <;> simp_all

theorem tempd_run_sensors_none (subsystem : locl_subsystem)
    (i2c : String → i2c_result × i2c_result) (sensors : List locl_sensor) :
    tempd_run_sensors subsystem i2c sensors = none ↔
      ∃ sensor ∈ sensors,
        (tempd_run_sensor subsystem (i2c sensor.name).1 (i2c sensor.name).2 sensor).2
          = true := by
  induction sensors with
  | nil => simp [tempd_run_sensors]
  | cons x rest ih =>
    rw [tempd_run_sensors]
    rcases hx : tempd_run_sensor subsystem (i2c x.name).1 (i2c x.name).2 x with ⟨x', b⟩
    cases b with
    | true => simp [hx]
    | false =>
      cases hr : tempd_run_sensors subsystem i2c rest with
      | none =>
        rw [hr] at ih
        simpa [hx] using ih.mp rfl
      | some r =>
        rw [hr] at ih
        have hno := ih.not.mp (by simp)
        simp only [hx, List.mem_cons, exists_eq_or_imp, Bool.false_eq_true, false_or]
        constructor
        · intro h
          cases h
        · intro h
          exact absurd h hno

theorem tempd_run_poll_none (i2c : String → i2c_result × i2c_result)
    (subsystems : List locl_subsystem) :
    tempd_run_poll i2c subsystems = none ↔
      ∃ subsystem ∈ subsystems, ∃ sensor ∈ subsystem.subsystem_sensors,
        (tempd_run_sensor subsystem (i2c sensor.name).1 (i2c sensor.name).2 sensor).2
          = true := by
  induction subsystems with
  | nil => simp [tempd_run_poll]
  | cons x rest ih =>
    rw [tempd_run_poll]
    have hx := tempd_run_sensors_none x i2c x.subsystem_sensors
    cases hs : tempd_run_sensors x i2c x.subsystem_sensors with
    | none =>
      rw [hs] at hx
      simpa using Or.inl (hx.mp rfl)
    | some r =>
      rw [hs] at hx
      have hno := hx.not.mp (by simp)
      cases hr : tempd_run_poll i2c rest with
      | none =>
        rw [hr] at ih
        simpa using Or.inr (ih.mp rfl)
      | some r' =>
        rw [hr] at ih
        have hno' := ih.not.mp (by simp)
        simp only [List.mem_cons, exists_eq_or_imp]
        constructor
        · intro h
          cases h
        · rintro (h | h)
          · exact absurd h hno
          · exact absurd h hno'

/-- C2: in the poll loop of tempd_run__, the power-off is reached for a sensor
exactly when (a) its status is EMERGENCY after the first read and evaluation,
(b) it is still EMERGENCY after one further read and evaluation of the same
sensor and (c) the owning subsystem has its shutdown flag set; the sensor is read
twice when the first result is EMERGENCY and once otherwise; and a whole pass
over the registry reaches the power-off exactly when some sensor of some
subsystem meets (a), (b) and (c). -/
theorem tempd_run_poweroff_iff :
    (∀ (subsystem : locl_subsystem) (rd1 rd2 : i2c_result) (sensor : locl_sensor),
      ((tempd_run_sensor subsystem rd1 rd2 sensor).2 = true ↔
        (tempd_read_sensor rd1 sensor).status = SENSOR_STATUS_EMERGENCY ∧
        (tempd_read_sensor rd2 (tempd_read_sensor rd1 sensor)).status
          = SENSOR_STATUS_EMERGENCY ∧
        subsystem.emergency_shutdown = true) ∧
      (tempd_run_sensor subsystem rd1 rd2 sensor).1 =
        (if (tempd_read_sensor rd1 sensor).status = SENSOR_STATUS_EMERGENCY
          then tempd_read_sensor rd2 (tempd_read_sensor rd1 sensor)
          else tempd_read_sensor rd1 sensor)) ∧
    (∀ (i2c : String → i2c_result × i2c_result) (subsystems : List locl_subsystem),
      tempd_run_poll i2c subsystems = none ↔
        ∃ subsystem ∈ subsystems, ∃ sensor ∈ subsystem.subsystem_sensors,
          (tempd_read_sensor (i2c sensor.name).1 sensor).status
            = SENSOR_STATUS_EMERGENCY ∧
          (tempd_read_sensor (i2c sensor.name).2
            (tempd_read_sensor (i2c sensor.name).1 sensor)).status
            = SENSOR_STATUS_EMERGENCY ∧
          subsystem.emergency_shutdown = true) := by
  refine ⟨fun subsystem rd1 rd2 sensor => ⟨tempd_run_sensor_poweroff _ _ _ _, ?_⟩, ?_⟩
  · unfold tempd_run_sensor
    simp only []
    split_ifs <;> rfl
  · intro i2c subsystems
    rw [tempd_run_poll_none]
    simp only [tempd_run_sensor_poweroff]

/-! ## The alarm ladder -/

/-- C3 as stated fails: with min = 5 and max_on = 16777.5 the temperature
16777499 has min < temp/1000 < max_on, but `(float)` rounds it to 16777500, the
code compares 16777.5 >= max_on, and the alarm rules started from NORMAL end
with MAX. -/
theorem alarm_normal_rounding_counterexample :
    halfStepMaxAlarm.min < ((16777499 : Int) : ℚ) / 1000 ∧
    ((16777499 : Int) : ℚ) / 1000 < halfStepMaxAlarm.max_on ∧
    float_of_int 16777499 = 16777500 ∧
    alarm_ladder_float halfStepMaxAlarm 16777499 SENSOR_STATUS_NORMAL = SENSOR_STATUS_MAX := by
  refine ⟨by rw [← degrees_eq]; decide, by rw [← degrees_eq]; decide, by decide, by decide⟩

/-- C3 amended: for every alarm threshold set and every temperature of at most
2^24 = 16777216 in magnitude with min < temp/1000 < max_on, the evaluation of
tempd_read_sensor started from status NORMAL ends with status NORMAL, whatever
low_crit and the other thresholds are; so do the alarm rules with the rounding
of `(float)`. -/
theorem alarm_normal_stays_normal (s : locl_sensor)
    (hst : s.status = SENSOR_STATUS_NORMAL)
    (hlo : -16777216 ≤ s.temp) (hhi : s.temp ≤ 16777216)
    (hmin : s.yaml_sensor.alarm_thresholds.min < (s.temp : ℚ) / 1000)
    (hmax : (s.temp : ℚ) / 1000 < s.yaml_sensor.alarm_thresholds.max_on) :
    (tempd_evaluate s).status = SENSOR_STATUS_NORMAL ∧
    alarm_ladder_float s.yaml_sensor.alarm_thresholds s.temp s.status
      = SENSOR_STATUS_NORMAL := by
  have hne : s.status ≠ SENSOR_STATUS_FAILED := by simp [hst]
  have hev : (tempd_evaluate s).status = SENSOR_STATUS_NORMAL := by
    rw [tempd_evaluate_status s hne, hst]
    exact alarm_normal_ladder_between _ _ hmin hmax
  refine ⟨hev, ?_⟩
  rw [alarm_ladder_float_eq _ _ _ hlo hhi, ← tempd_evaluate_status s hne]
  exact hev

theorem alarm_normal_stays_normal_witness :
    (mkSensor exampleAlarm exampleFan SENSOR_STATUS_NORMAL SENSOR_FAN_NORMAL 30000).status
      = SENSOR_STATUS_NORMAL ∧
    (tempd_evaluate
      (mkSensor exampleAlarm exampleFan SENSOR_STATUS_NORMAL SENSOR_FAN_NORMAL 30000)).status
      = SENSOR_STATUS_NORMAL ∧
    alarm_ladder_float exampleAlarm 30000 SENSOR_STATUS_NORMAL = SENSOR_STATUS_NORMAL :=
  ⟨rfl, alarm_normal_stays_normal
    (mkSensor exampleAlarm exampleFan SENSOR_STATUS_NORMAL SENSOR_FAN_NORMAL 30000) rfl
    (by decide) (by decide)
    (by rw [← degrees_eq]; decide) (by rw [← degrees_eq]; decide)⟩

/-- C4 as stated fails: with max_on = 60, critical_on = 75, emergency_on = 90,
min = 100 and low_crit = 0, the temperature 95000 is at or above the three `_on`
thresholds, yet the evaluation started from NORMAL ends with MIN: the fourth
rule moves NORMAL to MIN and the fifth does not move it back.  And with the
three `_on` thresholds at 8589935/512, min = 5 and low_crit = 0, the temperature
16777217 has temp/1000 at or above them and above min, but `(float)` rounds it
to 16777216, the code compares 16777.216 with them, and the alarm rules started
from NORMAL end with NORMAL. -/
theorem alarm_cascade_high_min_counterexample :
    ((95000 : Int) : ℚ) / 1000 ≥ highMinAlarm.max_on ∧
    ((95000 : Int) : ℚ) / 1000 ≥ highMinAlarm.critical_on ∧
    ((95000 : Int) : ℚ) / 1000 ≥ highMinAlarm.emergency_on ∧
    (tempd_evaluate
      (mkSensor highMinAlarm exampleFan SENSOR_STATUS_NORMAL SENSOR_FAN_NORMAL 95000)).status
      = SENSOR_STATUS_MIN ∧
    (tempd_evaluate
      (mkSensor highMinAlarm exampleFan SENSOR_STATUS_NORMAL SENSOR_FAN_NORMAL 95000)).status
      ≠ SENSOR_STATUS_EMERGENCY ∧
    alarm_ladder_float highMinAlarm 95000 SENSOR_STATUS_NORMAL = SENSOR_STATUS_MIN ∧
    ((16777217 : Int) : ℚ) / 1000 ≥ fineStepAlarm.max_on ∧
    ((16777217 : Int) : ℚ) / 1000 ≥ fineStepAlarm.critical_on ∧
    ((16777217 : Int) : ℚ) / 1000 ≥ fineStepAlarm.emergency_on ∧
    ((16777217 : Int) : ℚ) / 1000 > fineStepAlarm.min ∧
    float_of_int 16777217 = 16777216 ∧
    alarm_ladder_float fineStepAlarm 16777217 SENSOR_STATUS_NORMAL = SENSOR_STATUS_NORMAL := by
  refine ⟨by rw [← degrees_eq]; decide, by rw [← degrees_eq]; decide,
    by rw [← degrees_eq]; decide, by decide, by decide, by decide,
    by rw [← degrees_eq]; decide, by rw [← degrees_eq]; decide,
    by rw [← degrees_eq]; decide, by rw [← degrees_eq]; decide, by decide, by decide⟩

/-- C4 amended: for every alarm threshold set and every temperature of at most
2^24 = 16777216 in magnitude with temp/1000 >= max_on, critical_on and
emergency_on, and with temp/1000 > min or temp/1000 <= low_crit, a single
evaluation started from NORMAL ends with EMERGENCY; so do the alarm rules with
the rounding of `(float)`. -/
theorem alarm_cascade_to_emergency (s : locl_sensor)
    (hst : s.status = SENSOR_STATUS_NORMAL)
    (hlo : -16777216 ≤ s.temp) (hhi : s.temp ≤ 16777216)
    (hmax : (s.temp : ℚ) / 1000 ≥ s.yaml_sensor.alarm_thresholds.max_on)
    (hcrit : (s.temp : ℚ) / 1000 ≥ s.yaml_sensor.alarm_thresholds.critical_on)
    (hemer : (s.temp : ℚ) / 1000 ≥ s.yaml_sensor.alarm_thresholds.emergency_on)
    (hlow : (s.temp : ℚ) / 1000 > s.yaml_sensor.alarm_thresholds.min ∨
      (s.temp : ℚ) / 1000 ≤ s.yaml_sensor.alarm_thresholds.low_crit) :
    (tempd_evaluate s).status = SENSOR_STATUS_EMERGENCY ∧
    alarm_ladder_float s.yaml_sensor.alarm_thresholds s.temp s.status
      = SENSOR_STATUS_EMERGENCY := by
  have hne : s.status ≠ SENSOR_STATUS_FAILED := by simp [hst]
  have hev : (tempd_evaluate s).status = SENSOR_STATUS_EMERGENCY := by
    rw [tempd_evaluate_status s hne, alarm_ladder_eq, hst]
    rw [← degrees_eq] at hmax hcrit hemer hlow
    rcases hlow with hlow | hlow
    · by_cases hl : degrees s.temp > s.yaml_sensor.alarm_thresholds.low_crit
      · simp [guarded, hl, hlow, hmax, hcrit, hemer]
      · simp [guarded, hl, hlow, hmax, hcrit, hemer]
    · have hlow' := not_lt.mpr hlow
      simp [guarded, hlow', hmax, hcrit, hemer]
  refine ⟨hev, ?_⟩
  rw [alarm_ladder_float_eq _ _ _ hlo hhi, ← tempd_evaluate_status s hne]
  exact hev

theorem alarm_cascade_to_emergency_witness :
    (mkSensor exampleAlarm exampleFan SENSOR_STATUS_NORMAL SENSOR_FAN_NORMAL 95000).status
      = SENSOR_STATUS_NORMAL ∧
    (tempd_evaluate
      (mkSensor exampleAlarm exampleFan SENSOR_STATUS_NORMAL SENSOR_FAN_NORMAL 95000)).status
      = SENSOR_STATUS_EMERGENCY ∧
    alarm_ladder_float exampleAlarm 95000 SENSOR_STATUS_NORMAL = SENSOR_STATUS_EMERGENCY :=
  ⟨rfl, alarm_cascade_to_emergency
    (mkSensor exampleAlarm exampleFan SENSOR_STATUS_NORMAL SENSOR_FAN_NORMAL 95000) rfl
    (by decide) (by decide)
    (by rw [← degrees_eq]; decide) (by rw [← degrees_eq]; decide)
    (by rw [← degrees_eq]; decide)
    (Or.inl (by rw [← degrees_eq]; decide))⟩

/-- C5 as stated fails: with critical_off = 70, critical_on = 75 and
emergency_on = 16777.5 the temperature 16777499 has
critical_off < temp/1000 < emergency_on, but `(float)` rounds it to 16777500,
the code compares 16777.5 >= emergency_on, and the alarm rules started from
CRITICAL end with EMERGENCY. -/
theorem alarm_critical_rounding_counterexample :
    halfStepEmergencyAlarm.critical_off < halfStepEmergencyAlarm.critical_on ∧
    halfStepEmergencyAlarm.critical_off < ((16777499 : Int) : ℚ) / 1000 ∧
    ((16777499 : Int) : ℚ) / 1000 < halfStepEmergencyAlarm.emergency_on ∧
    float_of_int 16777499 = 16777500 ∧
    alarm_ladder_float halfStepEmergencyAlarm 16777499 SENSOR_STATUS_CRITICAL
      = SENSOR_STATUS_EMERGENCY := by
  refine ⟨by decide, by rw [← degrees_eq]; decide, by rw [← degrees_eq]; decide, by decide,
    by decide⟩

/-- C5 amended: for every alarm threshold set with critical_off < critical_on
and every temperature of at most 2^24 = 16777216 in magnitude, the evaluation
started from CRITICAL ends with CRITICAL when
critical_off < temp/1000 < emergency_on, and ends with MAX when
max_off < temp/1000 <= critical_off; so do the alarm rules with the rounding of
`(float)`. -/
theorem alarm_critical_hysteresis (s : locl_sensor)
    (hst : s.status = SENSOR_STATUS_CRITICAL)
    (hlo : -16777216 ≤ s.temp) (hhi : s.temp ≤ 16777216)
    (hgap : s.yaml_sensor.alarm_thresholds.critical_off
      < s.yaml_sensor.alarm_thresholds.critical_on) :
    (s.yaml_sensor.alarm_thresholds.critical_off < (s.temp : ℚ) / 1000 →
      (s.temp : ℚ) / 1000 < s.yaml_sensor.alarm_thresholds.emergency_on →
      (tempd_evaluate s).status = SENSOR_STATUS_CRITICAL ∧
      alarm_ladder_float s.yaml_sensor.alarm_thresholds s.temp s.status
        = SENSOR_STATUS_CRITICAL) ∧
    (s.yaml_sensor.alarm_thresholds.max_off < (s.temp : ℚ) / 1000 →
      (s.temp : ℚ) / 1000 ≤ s.yaml_sensor.alarm_thresholds.critical_off →
      (tempd_evaluate s).status = SENSOR_STATUS_MAX ∧
      alarm_ladder_float s.yaml_sensor.alarm_thresholds s.temp s.status
        = SENSOR_STATUS_MAX) := by
  have hne : s.status ≠ SENSOR_STATUS_FAILED := by simp [hst]
  rw [alarm_ladder_float_eq _ _ _ hlo hhi, ← tempd_evaluate_status s hne, and_self, and_self]
  rw [tempd_evaluate_status s hne, alarm_ladder_eq, hst, ← degrees_eq]
  constructor
  · intro h1 h2
    simp [guarded, not_le.mpr h1, not_le.mpr h2]
  · intro h1 h2
    have h3 : ¬ degrees s.temp ≥ s.yaml_sensor.alarm_thresholds.critical_on :=
      not_le.mpr (lt_of_le_of_lt h2 hgap)
    simp [guarded, not_le.mpr h1, h2, h3]

theorem alarm_critical_hysteresis_witness :
    (tempd_evaluate
      (mkSensor exampleAlarm exampleFan SENSOR_STATUS_CRITICAL SENSOR_FAN_NORMAL 72000)).status
      = SENSOR_STATUS_CRITICAL ∧
    (tempd_evaluate
      (mkSensor exampleAlarm exampleFan SENSOR_STATUS_CRITICAL SENSOR_FAN_NORMAL 69000)).status
      = SENSOR_STATUS_MAX ∧
    alarm_ladder_float exampleAlarm 69000 SENSOR_STATUS_CRITICAL = SENSOR_STATUS_MAX :=
  ⟨((alarm_critical_hysteresis
      (mkSensor exampleAlarm exampleFan SENSOR_STATUS_CRITICAL SENSOR_FAN_NORMAL 72000) rfl
      (by decide) (by decide) (by decide)).1
      (by rw [← degrees_eq]; decide) (by rw [← degrees_eq]; decide)).1,
   (alarm_critical_hysteresis
      (mkSensor exampleAlarm exampleFan SENSOR_STATUS_CRITICAL SENSOR_FAN_NORMAL 69000) rfl
      (by decide) (by decide) (by decide)).2
      (by rw [← degrees_eq]; decide) (by rw [← degrees_eq]; decide)⟩

/-! ## The fan ladder -/

/-- C6 as stated fails: with the three `_on` thresholds at 8589935/512 and the
`_off` thresholds 35, 50 and 65 below them, the temperature 16777217 has
temp/1000 at or above medium_on, fast_on and max_on, but `(float)` rounds it to
16777216, the code compares 16777.216 with them, and the fan rules started from
NORMAL end with NORMAL. -/
theorem fan_cascade_rounding_counterexample :
    fineStepFan.medium_off < fineStepFan.medium_on ∧
    fineStepFan.fast_off < fineStepFan.fast_on ∧
    fineStepFan.max_off < fineStepFan.max_on ∧
    ((16777217 : Int) : ℚ) / 1000 ≥ fineStepFan.medium_on ∧
    ((16777217 : Int) : ℚ) / 1000 ≥ fineStepFan.fast_on ∧
    ((16777217 : Int) : ℚ) / 1000 ≥ fineStepFan.max_on ∧
    float_of_int 16777217 = 16777216 ∧
    fan_ladder_float fineStepFan 16777217 SENSOR_FAN_NORMAL = SENSOR_FAN_NORMAL := by
  refine ⟨by decide, by decide, by decide, by rw [← degrees_eq]; decide,
    by rw [← degrees_eq]; decide, by rw [← degrees_eq]; decide, by decide, by decide⟩

/-- C6 amended: for every fan threshold set in which each `_off` threshold is
strictly below its `_on` threshold and every temperature of at most
2^24 = 16777216 in magnitude with temp/1000 >= medium_on, fast_on and max_on, a
single evaluation started from fan speed NORMAL, the alarm status not being
FAILED, ends with fan speed MAX; so do the fan rules with the rounding of
`(float)`. -/
theorem fan_cascade_to_max (s : locl_sensor)
    (hst : s.status ≠ SENSOR_STATUS_FAILED)
    (hfan : s.fan_speed = SENSOR_FAN_NORMAL)
    (hlo : -16777216 ≤ s.temp) (hhi : s.temp ≤ 16777216)
    (_hoff_medium : s.yaml_sensor.fan_thresholds.medium_off
      < s.yaml_sensor.fan_thresholds.medium_on)
    (_hoff_fast : s.yaml_sensor.fan_thresholds.fast_off
      < s.yaml_sensor.fan_thresholds.fast_on)
    (hoff_max : s.yaml_sensor.fan_thresholds.max_off < s.yaml_sensor.fan_thresholds.max_on)
    (hmedium : (s.temp : ℚ) / 1000 ≥ s.yaml_sensor.fan_thresholds.medium_on)
    (hfast : (s.temp : ℚ) / 1000 ≥ s.yaml_sensor.fan_thresholds.fast_on)
    (hmax : (s.temp : ℚ) / 1000 ≥ s.yaml_sensor.fan_thresholds.max_on) :
    (tempd_evaluate s).fan_speed = SENSOR_FAN_MAX ∧
    fan_ladder_float s.yaml_sensor.fan_thresholds s.temp s.fan_speed = SENSOR_FAN_MAX := by
  have hev : (tempd_evaluate s).fan_speed = SENSOR_FAN_MAX := by
    rw [tempd_evaluate_fan_speed s hst, fan_ladder_eq, hfan]
    rw [← degrees_eq] at hmedium hfast hmax
    have h4 : ¬ degrees s.temp ≤ s.yaml_sensor.fan_thresholds.max_off :=
      not_le.mpr (lt_of_lt_of_le hoff_max hmax)
    simp [guarded, hmedium, hfast, hmax, h4]
  refine ⟨hev, ?_⟩
  rw [fan_ladder_float_eq _ _ _ hlo hhi, ← tempd_evaluate_fan_speed s hst]
  exact hev

theorem fan_cascade_to_max_witness :
    (tempd_evaluate
      (mkSensor exampleAlarm exampleFan SENSOR_STATUS_NORMAL SENSOR_FAN_NORMAL 72000)).fan_speed
      = SENSOR_FAN_MAX ∧
    fan_ladder_float exampleFan 72000 SENSOR_FAN_NORMAL = SENSOR_FAN_MAX :=
  fan_cascade_to_max
    (mkSensor exampleAlarm exampleFan SENSOR_STATUS_NORMAL SENSOR_FAN_NORMAL 72000)
    (by decide) rfl (by decide) (by decide) (by decide) (by decide) (by decide)
    (by rw [← degrees_eq]; decide) (by rw [← degrees_eq]; decide)
    (by rw [← degrees_eq]; decide)

/-- C7 as stated fails: with max_off = 8589935/512 and fast_off = 50 the
temperature 16777217 has temp/1000 > max_off, but `(float)` rounds it to
16777216, the code compares 16777.216 <= max_off, and the fan rules started from
MAX end with FAST. -/
theorem fan_max_rounding_counterexample :
    ((16777217 : Int) : ℚ) / 1000 > fineStepOffFan.max_off ∧
    float_of_int 16777217 = 16777216 ∧
    fan_ladder_float fineStepOffFan 16777217 SENSOR_FAN_MAX = SENSOR_FAN_FAST := by
  refine ⟨by rw [← degrees_eq]; decide, by decide, by decide⟩

/-- C7 amended: for every fan threshold set and every temperature of at most
2^24 = 16777216 in magnitude, an evaluation started from fan speed MAX, the
alarm status not being FAILED, ends with MAX when temp/1000 > max_off and with
FAST when fast_off < temp/1000 <= max_off; so do the fan rules with the
rounding of `(float)`. -/
theorem fan_max_hysteresis (s : locl_sensor)
    (hst : s.status ≠ SENSOR_STATUS_FAILED)
    (hfan : s.fan_speed = SENSOR_FAN_MAX)
    (hlo : -16777216 ≤ s.temp) (hhi : s.temp ≤ 16777216) :
    ((s.temp : ℚ) / 1000 > s.yaml_sensor.fan_thresholds.max_off →
      (tempd_evaluate s).fan_speed = SENSOR_FAN_MAX ∧
      fan_ladder_float s.yaml_sensor.fan_thresholds s.temp s.fan_speed = SENSOR_FAN_MAX) ∧
    (s.yaml_sensor.fan_thresholds.fast_off < (s.temp : ℚ) / 1000 →
      (s.temp : ℚ) / 1000 ≤ s.yaml_sensor.fan_thresholds.max_off →
      (tempd_evaluate s).fan_speed = SENSOR_FAN_FAST ∧
      fan_ladder_float s.yaml_sensor.fan_thresholds s.temp s.fan_speed = SENSOR_FAN_FAST) := by
  rw [fan_ladder_float_eq _ _ _ hlo hhi, ← tempd_evaluate_fan_speed s hst, and_self, and_self]
  rw [tempd_evaluate_fan_speed s hst, fan_ladder_eq, hfan, ← degrees_eq]
  constructor
  · intro h1
    simp [guarded, not_le.mpr h1]
  · intro h1 h2
    simp [guarded, not_le.mpr h1, h2]

theorem fan_max_hysteresis_witness :
    (tempd_evaluate
      (mkSensor exampleAlarm exampleFan SENSOR_STATUS_MAX SENSOR_FAN_MAX 68000)).fan_speed
      = SENSOR_FAN_MAX ∧
    (tempd_evaluate
      (mkSensor exampleAlarm exampleFan SENSOR_STATUS_MAX SENSOR_FAN_MAX 64000)).fan_speed
      = SENSOR_FAN_FAST ∧
    fan_ladder_float exampleFan 64000 SENSOR_FAN_MAX = SENSOR_FAN_FAST :=
  ⟨((fan_max_hysteresis
      (mkSensor exampleAlarm exampleFan SENSOR_STATUS_MAX SENSOR_FAN_MAX 68000)
      (by decide) rfl (by decide) (by decide)).1 (by rw [← degrees_eq]; decide)).1,
   (fan_max_hysteresis
      (mkSensor exampleAlarm exampleFan SENSOR_STATUS_MAX SENSOR_FAN_MAX 64000)
      (by decide) rfl (by decide) (by decide)).2 (by rw [← degrees_eq]; decide)
      (by rw [← degrees_eq]; decide)⟩

/-! ## Successful and failing reads -/

/-- The read step of an lm75 sensor without override whose bus read succeeds. -/
theorem tempd_read_step_success (s : locl_sensor) (b0 b1 : Int)
    (htype : s.yaml_sensor.type = "lm75") (htest : s.test_temp = -1) :
    tempd_read_step (some (b0, b1)) s =
      { s with
        fault_count := 0,
        status := if s.status = SENSOR_STATUS_FAILED then SENSOR_STATUS_NORMAL else s.status,
        temp := lm75_decode b0 b1 } := by
  unfold tempd_read_step lm75_read
  simp only [htype, htest]
  split_ifs <;> simp_all

/-- C8: for every lm75 sensor without override whose status is FAILED, a poll
whose bus read succeeds sets fault_count to 0, stores the decoded temperature,
and leaves the status that the alarm ladder gives from NORMAL at that
temperature, hence NORMAL whenever min < temp/1000 < max_on; nothing of the
result depends on a severity held before the failure. -/
theorem lm75_recovery_from_failed (s : locl_sensor) (b0 b1 : Int)
    (htype : s.yaml_sensor.type = "lm75") (htest : s.test_temp = -1)
    (hst : s.status = SENSOR_STATUS_FAILED) :
    (tempd_read_sensor (some (b0, b1)) s).fault_count = 0 ∧
    (tempd_read_sensor (some (b0, b1)) s).temp = lm75_decode b0 b1 ∧
    (tempd_read_sensor (some (b0, b1)) s).status =
      alarm_ladder s.yaml_sensor.alarm_thresholds (lm75_decode b0 b1)
        SENSOR_STATUS_NORMAL ∧
    (s.yaml_sensor.alarm_thresholds.min < ((lm75_decode b0 b1 : Int) : ℚ) / 1000 →
      ((lm75_decode b0 b1 : Int) : ℚ) / 1000 < s.yaml_sensor.alarm_thresholds.max_on →
      (tempd_read_sensor (some (b0, b1)) s).status = SENSOR_STATUS_NORMAL) := by
  have hstep := tempd_read_step_success s b0 b1 htype htest
  simp only [hst, if_true] at hstep
  obtain ⟨e1, -, e3, -, -⟩ := tempd_evaluate_frame (tempd_read_step (some (b0, b1)) s)
  have hne : (tempd_read_step (some (b0, b1)) s).status ≠ SENSOR_STATUS_FAILED := by
    rw [hstep]; simp
  have hstatus : (tempd_read_sensor (some (b0, b1)) s).status =
      alarm_ladder s.yaml_sensor.alarm_thresholds (lm75_decode b0 b1)
        SENSOR_STATUS_NORMAL := by
    unfold tempd_read_sensor
    rw [tempd_evaluate_status _ hne, hstep]
  refine ⟨?_, ?_, hstatus, ?_⟩
  · unfold tempd_read_sensor
    rw [e3, hstep]
  · unfold tempd_read_sensor
    rw [e1, hstep]
  · intro hmin hmax
    have hgo := alarm_normal_ladder_between s.yaml_sensor.alarm_thresholds
      (lm75_decode b0 b1) hmin hmax
    rw [hstatus, hgo]

theorem lm75_recovery_from_failed_witness :
    failedSensor.yaml_sensor.type = "lm75" ∧ failedSensor.test_temp = -1 ∧
    failedSensor.status = SENSOR_STATUS_FAILED ∧
    (tempd_read_sensor (some (30, -128)) failedSensor).fault_count = 0 ∧
    (tempd_read_sensor (some (30, -128)) failedSensor).temp = 30500 ∧
    (tempd_read_sensor (some (30, -128)) failedSensor).status = SENSOR_STATUS_NORMAL :=
  ⟨by decide, by decide, by decide,
    (lm75_recovery_from_failed failedSensor 30 (-128) (by decide) (by decide) (by decide)).1,
    (lm75_recovery_from_failed failedSensor 30 (-128) (by decide) (by decide)
      (by decide)).2.1.trans (by decide),
    (lm75_recovery_from_failed failedSensor 30 (-128) (by decide) (by decide)
      (by decide)).2.2.2
      (by rw [← degrees_eq]; decide)
      (by rw [← degrees_eq]; decide)⟩

/-- C9 as stated fails: the sensor as add_subsystem creates it (status NORMAL,
temp 0, fault count 0, no override, thresholds min = 5 and low_crit = 0) is
polled with a failing bus read; the read step changes nothing but the counter,
yet the evaluation runs on the stale temp 0 and the status becomes LOWCRIT. -/
theorem fault_poll_status_counterexample :
    exampleSensor.yaml_sensor.type = "lm75" ∧ exampleSensor.test_temp = -1 ∧
    exampleSensor.fault_count ≤ MAX_FAIL_RETRY ∧
    exampleSensor.status = SENSOR_STATUS_NORMAL ∧
    (tempd_read_sensor none exampleSensor).status = SENSOR_STATUS_LOWCRIT ∧
    (tempd_read_sensor none exampleSensor).status ≠ exampleSensor.status := by
  decide

/-- C9 amended: for every lm75 sensor without override and with a fault count
within the retry limit, a poll whose bus read fails leaves temp unchanged; the
read step lm75_read leaves status and temp unchanged; and the status after the
poll is the one the alarm ladder gives from the previous status at the unchanged
temp (the previous status itself when that is FAILED). -/
theorem fault_poll_keeps_temp (s : locl_sensor)
    (htype : s.yaml_sensor.type = "lm75") (htest : s.test_temp = -1)
    (hfc : s.fault_count ≤ MAX_FAIL_RETRY) :
    (tempd_read_sensor none s).temp = s.temp ∧
    (lm75_read none s).status = s.status ∧
    (lm75_read none s).temp = s.temp ∧
    (tempd_read_sensor none s).status =
      (if s.status = SENSOR_STATUS_FAILED then SENSOR_STATUS_FAILED
        else alarm_ladder s.yaml_sensor.alarm_thresholds s.temp s.status) := by
  obtain ⟨-, -, -, htemp, -, hstatus⟩ := tempd_read_sensor_fault s htype htest
  have hfc' : s.fault_count ≤ 2 := hfc
  have hnot : ¬ s.fault_count > MAX_FAIL_RETRY := not_lt.mpr hfc
  refine ⟨htemp, ?_, ?_, ?_⟩
  · simp [lm75_read, htest, hnot]
  · simp [lm75_read, htest, hnot]
  · rw [hstatus hfc']
    by_cases hf : s.status = SENSOR_STATUS_FAILED
    · rw [tempd_evaluate_failed s hf, if_pos hf, hf]
    · rw [tempd_evaluate_status s hf, if_neg hf]

theorem fault_poll_keeps_temp_witness :
    exampleSensor.yaml_sensor.type = "lm75" ∧ exampleSensor.test_temp = -1 ∧
    exampleSensor.fault_count ≤ MAX_FAIL_RETRY ∧
    (tempd_read_sensor none exampleSensor).temp = 0 ∧
    (lm75_read none exampleSensor).status = SENSOR_STATUS_NORMAL :=
  ⟨by decide, by decide, by decide,
    (fault_poll_keeps_temp exampleSensor (by decide) (by decide) (by decide)).1,
    (fault_poll_keeps_temp exampleSensor (by decide) (by decide) (by decide)).2.1⟩

/-- C10: when the status is FAILED after the read step of a poll, the evaluation
part of tempd_read_sensor changes nothing: the sensor after the poll is the
sensor after the read step, so status, fan_speed, min, max and temp are those
the read step left. -/
theorem failed_sensor_not_evaluated (rd : i2c_result) (s : locl_sensor)
    (h : (tempd_read_step rd s).status = SENSOR_STATUS_FAILED) :
    tempd_evaluate (tempd_read_step rd s) = tempd_read_step rd s ∧
    tempd_read_sensor rd s = tempd_read_step rd s ∧
    (tempd_read_sensor rd s).status = SENSOR_STATUS_FAILED ∧
    (tempd_read_sensor rd s).fan_speed = (tempd_read_step rd s).fan_speed ∧
    (tempd_read_sensor rd s).min = (tempd_read_step rd s).min ∧
    (tempd_read_sensor rd s).max = (tempd_read_step rd s).max ∧
    (tempd_read_sensor rd s).temp = (tempd_read_step rd s).temp := by
  have e : tempd_read_sensor rd s = tempd_read_step rd s := tempd_evaluate_failed _ h
  exact ⟨tempd_evaluate_failed _ h, e, by rw [e, h], by rw [e], by rw [e], by rw [e],
    by rw [e]⟩

theorem failed_sensor_not_evaluated_witness :
    (tempd_read_step none faultySensor).status = SENSOR_STATUS_FAILED ∧
    tempd_read_sensor none faultySensor = tempd_read_step none faultySensor :=
  ⟨by decide, (failed_sensor_not_evaluated none faultySensor (by decide)).2.1⟩

/-! ## Minimum and maximum tracking -/

theorem adjust_min_max_bounds (s : locl_sensor) :
    (adjust_min_max s).min ≤ s.min ∧ s.max ≤ (adjust_min_max s).max ∧
    (adjust_min_max s).min ≤ s.temp ∧ s.temp ≤ (adjust_min_max s).max := by
  unfold adjust_min_max
  simp only []
  split_ifs <;> simp at * <;> omega

theorem tempd_evaluate_min_max (s : locl_sensor) (h : s.status ≠ SENSOR_STATUS_FAILED) :
    (tempd_evaluate s).min = (adjust_min_max s).min ∧
    (tempd_evaluate s).max = (adjust_min_max s).max := by
  simp [tempd_evaluate, h]

theorem tempd_read_step_min_max (rd : i2c_result) (s : locl_sensor) :
    (tempd_read_step rd s).min = s.min ∧ (tempd_read_step rd s).max = s.max ∧
    (tempd_read_step rd s).yaml_sensor = s.yaml_sensor := by
  unfold tempd_read_step lm75_read
  rcases rd with _ | ⟨b0, b1⟩ <;> simp only [] <;> split_ifs <;> simp

/-- A read step that ends in FAILED has kept the temperature, unless the sensor
is not an lm75, whose status the read step does not touch. -/
theorem tempd_read_step_failed (rd : i2c_result) (s : locl_sensor)
    (h : (tempd_read_step rd s).status = SENSOR_STATUS_FAILED) :
    (s.yaml_sensor.type = "lm75" ∧ (tempd_read_step rd s).temp = s.temp) ∨
    (s.yaml_sensor.type ≠ "lm75" ∧ s.status = SENSOR_STATUS_FAILED) := by
  unfold tempd_read_step lm75_read at h ⊢
  by_cases ht : s.yaml_sensor.type = "lm75"
  · left
    refine ⟨ht, ?_⟩
    rcases rd with _ | ⟨b0, b1⟩
    · simp only [ht, if_true] at h ⊢
      split_ifs <;> simp_all
    · simp only [ht, if_true] at h ⊢
      split_ifs at h ⊢
      all_goals simp_all
  · right
    refine ⟨ht, ?_⟩
    simpa [ht] using h

/-- Each poll only widens the interval from min to max. -/
theorem tempd_read_sensor_widens (rd : i2c_result) (s : locl_sensor) :
    (tempd_read_sensor rd s).min ≤ s.min ∧ s.max ≤ (tempd_read_sensor rd s).max := by
  obtain ⟨hmin, hmax, -⟩ := tempd_read_step_min_max rd s
  unfold tempd_read_sensor
  by_cases hf : (tempd_read_step rd s).status = SENSOR_STATUS_FAILED
  · rw [tempd_evaluate_failed _ hf, hmin, hmax]
    exact ⟨le_refl _, le_refl _⟩
  · obtain ⟨e1, e2⟩ := tempd_evaluate_min_max _ hf
    obtain ⟨b1, b2, -, -⟩ := adjust_min_max_bounds (tempd_read_step rd s)
    rw [e1, e2]
    rw [hmin] at b1
    rw [hmax] at b2
    exact ⟨b1, b2⟩

/-- A poll that does not end in FAILED has put temp between min and max. -/
theorem tempd_read_sensor_in_range (rd : i2c_result) (s : locl_sensor)
    (h : (tempd_read_sensor rd s).status ≠ SENSOR_STATUS_FAILED) :
    (tempd_read_sensor rd s).min ≤ (tempd_read_sensor rd s).temp ∧
    (tempd_read_sensor rd s).temp ≤ (tempd_read_sensor rd s).max := by
  have hf : (tempd_read_step rd s).status ≠ SENSOR_STATUS_FAILED := by
    intro hf
    apply h
    unfold tempd_read_sensor
    rw [tempd_evaluate_failed _ hf, hf]
  obtain ⟨e1, e2⟩ := tempd_evaluate_min_max _ hf
  obtain ⟨e3, -⟩ := tempd_evaluate_frame (tempd_read_step rd s)
  obtain ⟨-, -, b3, b4⟩ := adjust_min_max_bounds (tempd_read_step rd s)
  unfold tempd_read_sensor
  rw [e1, e2, e3]
  exact ⟨b3, b4⟩

theorem tempd_read_sensor_in_range_step (rd : i2c_result) (s : locl_sensor)
    (h : in_range s) : in_range (tempd_read_sensor rd s) := by
  obtain ⟨h1, h2, h3⟩ := h
  obtain ⟨hmin, hmax, hyaml⟩ := tempd_read_step_min_max rd s
  obtain ⟨e3, e4, -⟩ := tempd_evaluate_frame (tempd_read_step rd s)
  by_cases hf : (tempd_read_step rd s).status = SENSOR_STATUS_FAILED
  · have he : tempd_read_sensor rd s = tempd_read_step rd s := tempd_evaluate_failed _ hf
    rcases tempd_read_step_failed rd s hf with ⟨ht, htemp⟩ | ⟨ht, hs⟩
    · refine ⟨?_, ?_, ?_⟩
      · rw [he, hmin, htemp]; exact h1
      · rw [he, hmax, htemp]; exact h2
      · intro hne
        rw [he, hyaml] at hne
        exact absurd ht hne
    · exact absurd hs (h3 ht)
  · have hne : (tempd_read_sensor rd s).status ≠ SENSOR_STATUS_FAILED :=
      tempd_evaluate_ne_failed _ hf
    obtain ⟨r1, r2⟩ := tempd_read_sensor_in_range rd s hne
    exact ⟨r1, r2, fun _ => hne⟩

theorem sensor_run_in_range (events : List sensor_event) (s : locl_sensor)
    (h : in_range s) : in_range (sensor_run events s) := by
  induction events generalizing s with
  | nil => exact h
  | cons ev rest ih =>
    rw [sensor_run, List.foldl_cons]
    apply ih
    cases ev with
    | poll rd => exact tempd_read_sensor_in_range_step rd s h
    | test temp => exact h

/-- C11: each poll leaves new min <= old min and new max >= old max; a poll
that ends with a status other than FAILED leaves min <= temp <= max; and from
then on min <= temp <= max holds after every later sequence of polls, also when
the test command changes the override in between. -/
theorem min_max_widen_and_bracket_temp :
    (∀ (rd : i2c_result) (s : locl_sensor),
      (tempd_read_sensor rd s).min ≤ s.min ∧ s.max ≤ (tempd_read_sensor rd s).max) ∧
    (∀ (rd : i2c_result) (s : locl_sensor),
      (tempd_read_sensor rd s).status ≠ SENSOR_STATUS_FAILED →
      (tempd_read_sensor rd s).min ≤ (tempd_read_sensor rd s).temp ∧
      (tempd_read_sensor rd s).temp ≤ (tempd_read_sensor rd s).max) ∧
    (∀ (rd : i2c_result) (s : locl_sensor) (later : List sensor_event),
      (tempd_read_sensor rd s).status ≠ SENSOR_STATUS_FAILED →
      (sensor_run later (tempd_read_sensor rd s)).min
        ≤ (sensor_run later (tempd_read_sensor rd s)).temp ∧
      (sensor_run later (tempd_read_sensor rd s)).temp
        ≤ (sensor_run later (tempd_read_sensor rd s)).max) := by
  refine ⟨tempd_read_sensor_widens, tempd_read_sensor_in_range, ?_⟩
  intro rd s later h
  obtain ⟨r1, r2⟩ := tempd_read_sensor_in_range rd s h
  have hin : in_range (tempd_read_sensor rd s) := ⟨r1, r2, fun _ => h⟩
  obtain ⟨q1, q2, -⟩ := sensor_run_in_range later _ hin
  exact ⟨q1, q2⟩

theorem min_max_widen_and_bracket_temp_witness :
    (tempd_read_sensor (some (30, 0)) exampleSensor).status ≠ SENSOR_STATUS_FAILED ∧
    (sensor_run [sensor_event.poll none, sensor_event.test 95000, sensor_event.poll none,
        sensor_event.test (-1), sensor_event.poll (some (20, -128))]
      (tempd_read_sensor (some (30, 0)) exampleSensor)).min
      ≤ (sensor_run [sensor_event.poll none, sensor_event.test 95000, sensor_event.poll none,
        sensor_event.test (-1), sensor_event.poll (some (20, -128))]
      (tempd_read_sensor (some (30, 0)) exampleSensor)).temp :=
  ⟨by decide, (min_max_widen_and_bracket_temp.2.2 (some (30, 0)) exampleSensor _
    (by decide)).1⟩

/-! ## Override and unrecognized sensor type -/

theorem adjust_min_max_eq (s : locl_sensor) :
    (adjust_min_max s).min = (if s.min > s.temp then s.temp else s.min) ∧
    (adjust_min_max s).max = (if s.max < s.temp then s.temp else s.max) := by
  unfold adjust_min_max
  simp only []
  split_ifs <;> simp

/-- The read step of an lm75 sensor with an override set. -/
theorem tempd_read_step_override (rd : i2c_result) (s : locl_sensor)
    (htype : s.yaml_sensor.type = "lm75") (htest : s.test_temp ≠ -1) :
    tempd_read_step rd s =
      { s with status := SENSOR_STATUS_NORMAL, temp := s.test_temp } := by
  unfold tempd_read_step lm75_read
  simp [htype, htest]

/-- C12 as stated fails: the example sensor with the override 95000 ends its
poll with status EMERGENCY, not NORMAL: the read step sets NORMAL and returns,
but tempd_read_sensor goes on to evaluate the override temperature. -/
theorem override_poll_counterexample :
    overrideSensor.yaml_sensor.type = "lm75" ∧ overrideSensor.test_temp ≠ -1 ∧
    (tempd_read_sensor none overrideSensor).temp = overrideSensor.test_temp ∧
    (tempd_read_sensor none overrideSensor).status = SENSOR_STATUS_EMERGENCY ∧
    (tempd_read_sensor none overrideSensor).status ≠ SENSOR_STATUS_NORMAL := by
  decide

/-- C12 amended: for every lm75 sensor with an override set, a poll does not
depend on the outcome of the bus, leaves fault_count unchanged and ends with
temp equal to the override; the read step lm75_read leaves status NORMAL, and
the status after the poll is the one the alarm ladder gives from NORMAL at the
override temperature. -/
theorem override_poll (s : locl_sensor)
    (htype : s.yaml_sensor.type = "lm75") (htest : s.test_temp ≠ -1) :
    (∀ rd rd' : i2c_result, tempd_read_sensor rd s = tempd_read_sensor rd' s) ∧
    (∀ rd : i2c_result,
      (tempd_read_sensor rd s).fault_count = s.fault_count ∧
      (tempd_read_sensor rd s).temp = s.test_temp ∧
      (lm75_read rd s).status = SENSOR_STATUS_NORMAL ∧
      (tempd_read_sensor rd s).status =
        alarm_ladder s.yaml_sensor.alarm_thresholds s.test_temp SENSOR_STATUS_NORMAL) := by
  constructor
  · intro rd rd'
    unfold tempd_read_sensor
    rw [tempd_read_step_override rd s htype htest, tempd_read_step_override rd' s htype htest]
  · intro rd
    obtain ⟨e1, -, e3, -, -⟩ := tempd_evaluate_frame (tempd_read_step rd s)
    have hstep := tempd_read_step_override rd s htype htest
    have hne : (tempd_read_step rd s).status ≠ SENSOR_STATUS_FAILED := by
      rw [hstep]; simp
    refine ⟨?_, ?_, ?_, ?_⟩
    · unfold tempd_read_sensor
      rw [e3, hstep]
    · unfold tempd_read_sensor
      rw [e1, hstep]
    · simp [lm75_read, htest]
    · unfold tempd_read_sensor
      rw [tempd_evaluate_status _ hne, hstep]

theorem override_poll_witness :
    overrideSensor.yaml_sensor.type = "lm75" ∧ overrideSensor.test_temp ≠ -1 ∧
    tempd_read_sensor none overrideSensor = tempd_read_sensor (some (30, 0)) overrideSensor ∧
    (tempd_read_sensor none overrideSensor).temp = 95000 :=
  ⟨by decide, by decide,
    (override_poll overrideSensor (by decide) (by decide)).1 none (some (30, 0)),
    ((override_poll overrideSensor (by decide) (by decide)).2 none).2.1⟩

/-- The read step of a sensor whose type is not lm75. -/
theorem tempd_read_step_unrecognized (rd : i2c_result) (s : locl_sensor)
    (htype : s.yaml_sensor.type ≠ "lm75") :
    tempd_read_step rd s = { s with temp := 35000 } := by
  unfold tempd_read_step
  simp [htype, DEFAULT_TEMP, MILI_DEGREES]

/-- C13: for every sensor whose catalog type is not lm75 and whose status is
not FAILED, a poll does not depend on the outcome of the bus, leaves fault_count
unchanged, sets temp to 35000 and is the evaluation of the sensor at 35000;
status, fan speed, min, max and temp come out as for the same sensor read
successfully as an lm75 with the payload of 35 degrees. -/
theorem unrecognized_type_poll (s : locl_sensor)
    (htype : s.yaml_sensor.type ≠ "lm75") (hst : s.status ≠ SENSOR_STATUS_FAILED) :
    (∀ rd rd' : i2c_result, tempd_read_sensor rd s = tempd_read_sensor rd' s) ∧
    (∀ rd : i2c_result,
      (tempd_read_sensor rd s).fault_count = s.fault_count ∧
      (tempd_read_sensor rd s).temp = 35000 ∧
      tempd_read_sensor rd s = tempd_evaluate { s with temp := 35000 } ∧
      (tempd_read_sensor rd s).status =
        (tempd_read_sensor (some (35, 0))
          { s with yaml_sensor := { s.yaml_sensor with type := "lm75" },
                   test_temp := -1 }).status ∧
      (tempd_read_sensor rd s).fan_speed =
        (tempd_read_sensor (some (35, 0))
          { s with yaml_sensor := { s.yaml_sensor with type := "lm75" },
                   test_temp := -1 }).fan_speed ∧
      (tempd_read_sensor rd s).min =
        (tempd_read_sensor (some (35, 0))
          { s with yaml_sensor := { s.yaml_sensor with type := "lm75" },
                   test_temp := -1 }).min ∧
      (tempd_read_sensor rd s).max =
        (tempd_read_sensor (some (35, 0))
          { s with yaml_sensor := { s.yaml_sensor with type := "lm75" },
                   test_temp := -1 }).max ∧
      (tempd_read_sensor rd s).temp =
        (tempd_read_sensor (some (35, 0))
          { s with yaml_sensor := { s.yaml_sensor with type := "lm75" },
                   test_temp := -1 }).temp) := by
  constructor
  · intro rd rd'
    unfold tempd_read_sensor
    rw [tempd_read_step_unrecognized rd s htype, tempd_read_step_unrecognized rd' s htype]
  · intro rd
    have hstep := tempd_read_step_unrecognized rd s htype
    have htwin := tempd_read_step_success
      { s with yaml_sensor := { s.yaml_sensor with type := "lm75" }, test_temp := -1 }
      35 0 rfl rfl
    simp only [hst, if_false] at htwin
    have hdec : lm75_decode 35 0 = 35000 := by decide
    rw [hdec] at htwin
    have hne : ({ s with temp := 35000 } : locl_sensor).status ≠ SENSOR_STATUS_FAILED := hst
    have hne' : (tempd_read_step (some (35, 0))
        { s with yaml_sensor := { s.yaml_sensor with type := "lm75" },
                 test_temp := -1 }).status ≠ SENSOR_STATUS_FAILED := by
      rw [htwin]; exact hst
    obtain ⟨f1, -, f3, -, -⟩ := tempd_evaluate_frame ({ s with temp := 35000 } : locl_sensor)
    obtain ⟨g1, -⟩ := tempd_evaluate_frame (tempd_read_step (some (35, 0))
        { s with yaml_sensor := { s.yaml_sensor with type := "lm75" }, test_temp := -1 })
    obtain ⟨m1, m2⟩ := tempd_evaluate_min_max _ hne
    obtain ⟨n1, n2⟩ := tempd_evaluate_min_max _ hne'
    obtain ⟨a1, a2⟩ := adjust_min_max_eq ({ s with temp := 35000 } : locl_sensor)
    obtain ⟨c1, c2⟩ := adjust_min_max_eq (tempd_read_step (some (35, 0))
        { s with yaml_sensor := { s.yaml_sensor with type := "lm75" }, test_temp := -1 })
    unfold tempd_read_sensor
    rw [hstep]
    refine ⟨f3, f1, rfl, ?_, ?_, ?_, ?_, ?_⟩
    · rw [tempd_evaluate_status _ hne, tempd_evaluate_status _ hne', htwin]
    · rw [tempd_evaluate_fan_speed _ hne, tempd_evaluate_fan_speed _ hne', htwin]
    · rw [m1, n1, a1, c1, htwin]
    · rw [m2, n2, a2, c2, htwin]
    · rw [f1, g1, htwin]

theorem unrecognized_type_poll_witness :
    unknownTypeSensor.yaml_sensor.type ≠ "lm75" ∧
    unknownTypeSensor.status ≠ SENSOR_STATUS_FAILED ∧
    tempd_read_sensor none unknownTypeSensor
      = tempd_read_sensor (some (30, 0)) unknownTypeSensor ∧
    (tempd_read_sensor none unknownTypeSensor).temp = 35000 :=
  ⟨by decide, by decide,
    (unrecognized_type_poll unknownTypeSensor (by decide) (by decide)).1 none (some (30, 0)),
    ((unrecognized_type_poll unknownTypeSensor (by decide) (by decide)).2 none).2.1⟩

/-! ## The registry: dictionary operations -/

theorem set_marked_map_name (n : String) (l : List locl_subsystem) :
    (set_marked n l).map (fun s => s.name) = l.map (fun s => s.name) := by
  induction l with
  | nil => rfl
  | cons x rest ih =>
    unfold set_marked
    split_ifs with h
    · simp
    · simp [ih]

/-- An entry of the list after `set_marked` is an old entry, or an old entry of
that name with the mark set. -/
theorem mem_set_marked (n : String) (l : List locl_subsystem) (x : locl_subsystem)
    (h : x ∈ set_marked n l) :
    x ∈ l ∨ ∃ y ∈ l, y.name = n ∧ x = { y with marked := true } := by
  induction l with
  | nil => simp [set_marked] at h
  | cons a rest ih =>
    unfold set_marked at h
    split_ifs at h with hn
    · rcases List.mem_cons.mp h with rfl | h'
      · exact Or.inr ⟨a, List.mem_cons_self _ _, hn, rfl⟩
      · exact Or.inl (List.mem_cons_of_mem _ h')
    · rcases List.mem_cons.mp h with rfl | h'
      · exact Or.inl (List.mem_cons_self _ _)
      · rcases ih h' with h1 | ⟨y, hy, hyn, rfl⟩
        · exact Or.inl (List.mem_cons_of_mem _ h1)
        · exact Or.inr ⟨y, List.mem_cons_of_mem _ hy, hyn, rfl⟩

theorem mem_set_marked_of_ne (n : String) (l : List locl_subsystem) (x : locl_subsystem)
    (h : x ∈ l) (hn : x.name ≠ n) : x ∈ set_marked n l := by
  induction l with
  | nil => simp at h
  | cons a rest ih =>
    unfold set_marked
    rcases List.mem_cons.mp h with rfl | h'
    · rw [if_neg hn]
      exact List.mem_cons_self _ _
    · split_ifs
      · exact List.mem_cons_of_mem _ h'
      · exact List.mem_cons_of_mem _ (ih h')

theorem set_marked_of_absent (n : String) (l : List locl_subsystem)
    (h : ∀ x ∈ l, x.name ≠ n) : set_marked n l = l := by
  induction l with
  | nil => rfl
  | cons a rest ih =>
    unfold set_marked
    rw [if_neg (h a (List.mem_cons_self _ _)),
      ih (fun x hx => h x (List.mem_cons_of_mem _ hx))]

theorem set_marked_append_new (n : String) (l : List locl_subsystem) (e : locl_subsystem)
    (h : ∀ x ∈ l, x.name ≠ n) (hn : e.name = n) (hm : e.marked = true) :
    set_marked n (l ++ [e]) = l ++ [e] := by
  induction l with
  | nil =>
    cases e
    simp_all [set_marked]
  | cons a rest ih =>
    rw [List.cons_append]
    unfold set_marked
    rw [if_neg (h a (List.mem_cons_self _ _)),
      ih (fun x hx => h x (List.mem_cons_of_mem _ hx))]

theorem find_name_none (n : String) (l : List locl_subsystem)
    (h : l.find? (fun s => s.name = n) = none) : ∀ x ∈ l, x.name ≠ n := by
  intro x hx hn
  have := List.find?_eq_none.mp h x hx
  simp [hn] at this

theorem find_name_some (n : String) (l : List locl_subsystem) (r : locl_subsystem)
    (h : l.find? (fun s => s.name = n) = some r) : r ∈ l ∧ r.name = n := by
  refine ⟨List.mem_of_find?_eq_some h, ?_⟩
  have := List.find?_some h
  simpa using this

theorem find_set_marked_ne (n m : String) (l : List locl_subsystem) (h : m ≠ n) :
    (set_marked n l).find? (fun s => s.name = m) = l.find? (fun s => s.name = m) := by
  induction l with
  | nil => rfl
  | cons a rest ih =>
    unfold set_marked
    split_ifs with hn
    · have : ¬ a.name = m := by rw [hn]; exact fun e => h e.symm
      simp [List.find?_cons, this]
    · simp only [List.find?_cons, ih]

theorem find_set_marked_self (n : String) (l : List locl_subsystem) (r : locl_subsystem)
    (h : l.find? (fun s => s.name = n) = some r) :
    (set_marked n l).find? (fun s => s.name = n) = some { r with marked := true } := by
  induction l with
  | nil => simp at h
  | cons a rest ih =>
    unfold set_marked
    by_cases hn : a.name = n
    · rw [if_pos hn]
      have ha : a = r := by
        simpa [List.find?_cons, hn] using h
      subst ha
      simp [List.find?_cons, hn]
    · rw [if_neg hn]
      simp only [List.find?_cons, hn, decide_False] at h ⊢
      exact ih h

theorem sensor_data_delete_sublist (k : String) (sd : List (String × String)) :
    (sensor_data_delete k sd).Sublist sd := by
  induction sd with
  | nil => exact List.Sublist.refl _
  | cons e rest ih =>
    unfold sensor_data_delete
    split_ifs
    · exact List.sublist_cons_self _ _
    · exact ih.cons₂ _

theorem sensor_data_delete_not_mem (k : String) (sd : List (String × String))
    (h : (sd.map Prod.fst).Nodup) : k ∉ (sensor_data_delete k sd).map Prod.fst := by
  induction sd with
  | nil => simp [sensor_data_delete]
  | cons e rest ih =>
    rw [List.map_cons, List.nodup_cons] at h
    unfold sensor_data_delete
    split_ifs with he
    · rw [← he]
      exact h.1
    · rw [List.map_cons, List.mem_cons]
      rintro (hk | hk)
      · exact he hk.symm
      · exact ih h.2 hk

theorem delete_sensors_sublist (sensors : List locl_sensor) (sd : List (String × String)) :
    (delete_sensors sensors sd).Sublist sd := by
  induction sensors generalizing sd with
  | nil => exact List.Sublist.refl _
  | cons x rest ih =>
    rw [delete_sensors, List.foldl_cons]
    exact (ih _).trans (sensor_data_delete_sublist _ _)

theorem delete_sensors_not_mem (sensors : List locl_sensor) (sd : List (String × String))
    (s : locl_sensor) (hs : s ∈ sensors) (h : (sd.map Prod.fst).Nodup) :
    s.name ∉ (delete_sensors sensors sd).map Prod.fst := by
  induction sensors generalizing sd with
  | nil => simp at hs
  | cons x rest ih =>
    rw [delete_sensors, List.foldl_cons]
    rcases List.mem_cons.mp hs with rfl | hs'
    · intro hmem
      have hsub := (delete_sensors_sublist rest (sensor_data_delete s.name sd)).map Prod.fst
      exact sensor_data_delete_not_mem s.name sd h (hsub.subset hmem)
    · exact ih _ hs' (h.sublist ((sensor_data_delete_sublist _ _).map Prod.fst))

/-! ## The registry: creating subsystems -/

/-- A failing `add_subsystem` answers NULL and leaves one more entry: the name
of the row, marked, not valid, without sensors; `sensor_data` is untouched. -/
theorem add_subsystem_fails (env : tempd_env) (subsys : ovsrec_subsystem) (st : tempd_state)
    (h : load_fails env subsys) :
    ∃ e : locl_subsystem, e.name = subsys.name ∧ e.marked = true ∧ e.valid = false ∧
      e.subsystem_sensors = [] ∧
      add_subsystem env subsys st =
        ({ subsystem_data := st.subsystem_data ++ [e], sensor_data := st.sensor_data },
          none) := by
  unfold load_fails at h
  unfold add_subsystem
  cases hd : subsys.hw_desc_dir with
  | none => exact ⟨_, rfl, rfl, rfl, rfl, rfl⟩
  | some dir =>
    rw [hd] at h
    simp only [] at h ⊢
    split_ifs with h1 h2 h3 h4 h5
    · exact ⟨_, rfl, rfl, rfl, rfl, rfl⟩
    · exact ⟨_, rfl, rfl, rfl, rfl, rfl⟩
    · exact ⟨_, rfl, rfl, rfl, rfl, rfl⟩
    · exact ⟨_, rfl, rfl, rfl, rfl, rfl⟩
    · exact ⟨_, rfl, rfl, rfl, rfl, rfl⟩
    · exfalso
      rcases h with h | h | h | h | h
      · exact h1 h
      · exact h2 h
      · exact h3 h
      · exact h4 h
      · exact h5 h

/-- A successful `add_subsystem` answers the new subsystem and leaves one more
entry: the name of the row, marked and valid, with the global entries of its
sensors appended to `sensor_data`. -/
theorem add_subsystem_loads (env : tempd_env) (subsys : ovsrec_subsystem) (st : tempd_state)
    (h : ¬ load_fails env subsys) :
    ∃ e : locl_subsystem, e.name = subsys.name ∧ e.marked = true ∧ e.valid = true ∧
      add_subsystem env subsys st =
        ({ subsystem_data := st.subsystem_data ++ [e],
           sensor_data := st.sensor_data ++
             e.subsystem_sensors.map (fun sensor => (sensor.name, subsys.name)) },
          some subsys.name) := by
  unfold load_fails at h
  unfold add_subsystem
  cases hd : subsys.hw_desc_dir with
  | none => rw [hd] at h; exact absurd trivial h
  | some dir =>
    rw [hd] at h
    simp only [] at h ⊢
    push_neg at h
    obtain ⟨h1, h2, h3, h4, h5⟩ := h
    rw [if_neg h1, if_neg (not_not.mpr h2), if_neg (not_not.mpr h3),
      if_neg (not_not.mpr h4), if_neg (not_le.mpr h5)]
    exact ⟨_, rfl, rfl, rfl, rfl⟩

/-- The three ways in which the body of the reconciliation loop treats a row:
the entry found is not valid and nothing happens; the entry found is valid and
is marked; there is no entry and `add_subsystem` appends one. -/
theorem tempd_reconfigure_row_cases (env : tempd_env) (st : tempd_state)
    (subsys : ovsrec_subsystem) :
    (∃ r, st.subsystem_data.find? (fun s => s.name = subsys.name) = some r ∧
      r.valid = false ∧ tempd_reconfigure_row env st subsys = st) ∨
    (∃ r, st.subsystem_data.find? (fun s => s.name = subsys.name) = some r ∧
      r.valid = true ∧
      tempd_reconfigure_row env st subsys =
        { subsystem_data := set_marked subsys.name st.subsystem_data,
          sensor_data := st.sensor_data }) ∨
    (st.subsystem_data.find? (fun s => s.name = subsys.name) = none ∧
      ∃ e : locl_subsystem, e.name = subsys.name ∧ e.marked = true ∧
        ((load_fails env subsys ∧ e.valid = false ∧ e.subsystem_sensors = [] ∧
            tempd_reconfigure_row env st subsys =
              { subsystem_data := st.subsystem_data ++ [e],
                sensor_data := st.sensor_data }) ∨
         (¬ load_fails env subsys ∧ e.valid = true ∧
            tempd_reconfigure_row env st subsys =
              { subsystem_data := st.subsystem_data ++ [e],
                sensor_data := st.sensor_data ++
                  e.subsystem_sensors.map (fun sensor => (sensor.name, subsys.name)) }))) := by
  unfold tempd_reconfigure_row get_subsystem
  cases hf : st.subsystem_data.find? (fun s => s.name = subsys.name) with
  | some r =>
    obtain ⟨-, hrn⟩ := find_name_some _ _ _ hf
    by_cases hv : r.valid = false
    · left
      exact ⟨r, rfl, hv, by simp [hv]⟩
    · right; left
      have hv' : r.valid = true := by simpa using hv
      exact ⟨r, rfl, hv', by simp [hv', hrn]⟩
  | none =>
    right; right
    refine ⟨rfl, ?_⟩
    have habs := find_name_none _ _ hf
    by_cases hl : load_fails env subsys
    · obtain ⟨e, h1, h2, h3, h4, h5⟩ := add_subsystem_fails env subsys st hl
      exact ⟨e, h1, h2, Or.inl ⟨hl, h3, h4, by simp [h5]⟩⟩
    · obtain ⟨e, h1, h2, h3, h5⟩ := add_subsystem_loads env subsys st hl
      refine ⟨e, h1, h2, Or.inr ⟨hl, h3, ?_⟩⟩
      simp only [h5]
      rw [set_marked_append_new _ _ _ habs h1 h2]

/-- A property that every step of the reconciliation loop keeps holds after the
loop. -/
theorem tempd_reconfigure_rows_induct (env : tempd_env) (P : tempd_state → Prop)
    (rows : List ovsrec_subsystem)
    (hstep : ∀ st, ∀ subsys ∈ rows, P st → P (tempd_reconfigure_row env st subsys))
    (st : tempd_state) (h : P st) :
    P (rows.foldl (tempd_reconfigure_row env) st) := by
  induction rows generalizing st with
  | nil => exact h
  | cons x rest ih =>
    rw [List.foldl_cons]
    apply ih
    · intro st' subsys hs hp
      exact hstep st' subsys (List.mem_cons_of_mem _ hs) hp
    · exact hstep st x (List.mem_cons_self _ _) h

/-! ## Failed loads -/

theorem invalid_without_sensors_row (env : tempd_env) (st : tempd_state)
    (subsys : ovsrec_subsystem) (h : invalid_without_sensors st) :
    invalid_without_sensors (tempd_reconfigure_row env st subsys) := by
  rcases tempd_reconfigure_row_cases env st subsys with
    ⟨r, -, -, he⟩ | ⟨r, -, -, he⟩ | ⟨-, e, -, -, ⟨-, -, hs, he⟩ | ⟨-, hv, he⟩⟩
  · rw [he]; exact h
  · rw [he]
    intro x hx
    rcases mem_set_marked _ _ _ hx with hx' | ⟨y, hy, -, rfl⟩
    · exact h x hx'
    · exact h y hy
  · rw [he]
    intro x hx
    rcases List.mem_append.mp hx with hx' | hx'
    · exact h x hx'
    · rw [List.mem_singleton.mp hx']
      exact Or.inr hs
  · rw [he]
    intro x hx
    rcases List.mem_append.mp hx with hx' | hx'
    · exact h x hx'
    · rw [List.mem_singleton.mp hx']
      exact Or.inl hv

theorem invalid_without_sensors_pass (env : tempd_env) (rows : List ovsrec_subsystem)
    (st : tempd_state) (h : invalid_without_sensors st) :
    invalid_without_sensors (tempd_reconfigure_pass env rows st) := by
  have h0 : invalid_without_sensors (tempd_unmark_subsystems st) := by
    intro x hx
    obtain ⟨y, hy, rfl⟩ := List.mem_map.mp hx
    exact h y hy
  have h1 : invalid_without_sensors (tempd_reconfigure_mark env rows st) :=
    tempd_reconfigure_rows_induct env invalid_without_sensors rows
      (fun st' subsys _ hp => invalid_without_sensors_row env st' subsys hp) _ h0
  intro x hx
  exact h1 x (List.mem_of_mem_filter hx)

/-- C14 as stated fails: a row without description directory, looked up in the
empty registry, makes add_subsystem fail, and an entry for its id, not valid, is
in the subsystem registry after get_subsystem and still after the whole
reconciliation pass. -/
theorem failed_load_entry_counterexample :
    load_fails exampleEnv rowNoDir ∧
    (get_subsystem exampleEnv rowNoDir init_subsystems).2 = none ∧
    (get_subsystem exampleEnv rowNoDir init_subsystems).1.subsystem_data =
      [{ name := "C", marked := true, valid := false, subsystem_sensors := [],
         emergency_shutdown := false }] ∧
    (tempd_reconfigure_pass exampleEnv [rowNoDir] init_subsystems).subsystem_data =
      [{ name := "C", marked := true, valid := false, subsystem_sensors := [],
         emergency_shutdown := false }] := by
  refine ⟨?_, by decide, by decide, by decide⟩
  simp [load_fails, rowNoDir]

/-- C14 amended: whenever creating a subsystem fails in get_subsystem and
add_subsystem (no or an empty description directory, catalog load failure,
devices or thermal parse failure, sensor count <= 0), get_subsystem answers no
subsystem and adds nothing to the global sensor lookup, and the entry it leaves
in the subsystem registry for that id is not valid and owns no sensor;
consequently, from the empty registry on, after every reconciliation pass every
subsystem present in the registry is valid or owns no sensor. -/
theorem failed_load_leaves_invalid_entry :
    (∀ (env : tempd_env) (subsys : ovsrec_subsystem) (st : tempd_state),
      st.subsystem_data.find? (fun s => s.name = subsys.name) = none →
      load_fails env subsys →
      ∃ e : locl_subsystem, e.name = subsys.name ∧ e.valid = false ∧
        e.subsystem_sensors = [] ∧
        get_subsystem env subsys st =
          ({ subsystem_data := st.subsystem_data ++ [e], sensor_data := st.sensor_data },
            none)) ∧
    (∀ (passes : List (tempd_env × List ovsrec_subsystem)),
      ∀ e ∈ (tempd_reconfigure_passes passes init_subsystems).subsystem_data,
        e.valid = true ∨ e.subsystem_sensors = []) := by
  constructor
  · intro env subsys st habs hl
    obtain ⟨e, h1, -, h3, h4, h5⟩ := add_subsystem_fails env subsys st hl
    refine ⟨e, h1, h3, h4, ?_⟩
    unfold get_subsystem
    rw [habs]
    exact h5
  · intro passes
    have hgen : ∀ st, invalid_without_sensors st →
        invalid_without_sensors (tempd_reconfigure_passes passes st) := by
      induction passes with
      | nil => exact fun st h => h
      | cons p rest ih =>
        intro st h
        rw [tempd_reconfigure_passes, List.foldl_cons]
        exact ih _ (invalid_without_sensors_pass p.1 p.2 st h)
    exact hgen init_subsystems (fun e he => by simp [init_subsystems] at he)

theorem failed_load_leaves_invalid_entry_witness :
    (∃ e : locl_subsystem, e.name = rowB.name ∧ e.valid = false ∧
      e.subsystem_sensors = [] ∧
      get_subsystem brokenEnv rowB init_subsystems =
        ({ subsystem_data := init_subsystems.subsystem_data ++ [e],
           sensor_data := init_subsystems.sensor_data }, none)) ∧
    (tempd_reconfigure_passes [(exampleEnv, [rowA]), (brokenEnv, [rowA, rowB])]
      init_subsystems).subsystem_data.length = 2 ∧
    ∀ e ∈ (tempd_reconfigure_passes
        [(exampleEnv, [rowA]), (brokenEnv, [rowA, rowB])]
        init_subsystems).subsystem_data,
      e.valid = true ∨ e.subsystem_sensors = [] :=
  ⟨failed_load_leaves_invalid_entry.1 brokenEnv rowB init_subsystems (by decide)
      (by simp [load_fails, rowB, brokenEnv, brokenYamlSubsystem]),
    by decide, failed_load_leaves_invalid_entry.2 _⟩

/-! ## The sweep -/

/-- After the marking loop only subsystems named by a row are marked. -/
theorem tempd_reconfigure_mark_marked (env : tempd_env) (rows : List ovsrec_subsystem)
    (st : tempd_state) :
    ∀ e ∈ (tempd_reconfigure_mark env rows st).subsystem_data,
      e.marked = true → e.name ∈ rows.map (fun r => r.name) := by
  apply tempd_reconfigure_rows_induct env
    (fun st' => ∀ e ∈ st'.subsystem_data,
      e.marked = true → e.name ∈ rows.map (fun r => r.name)) rows
  · intro st' subsys hs hp
    have hin : subsys.name ∈ rows.map (fun r => r.name) := List.mem_map_of_mem _ hs
    rcases tempd_reconfigure_row_cases env st' subsys with
      ⟨r, -, -, he⟩ | ⟨r, -, -, he⟩ | ⟨-, e, hn, -, ⟨-, -, -, he⟩ | ⟨-, -, he⟩⟩
    · rw [he]; exact hp
    · rw [he]
      intro x hx hm
      rcases mem_set_marked _ _ _ hx with hx' | ⟨y, -, hyn, rfl⟩
      · exact hp x hx' hm
      · rw [show ({ y with marked := true } : locl_subsystem).name = y.name from rfl, hyn]
        exact hin
    · rw [he]
      intro x hx hm
      rcases List.mem_append.mp hx with hx' | hx'
      · exact hp x hx' hm
      · rw [List.mem_singleton.mp hx', hn]; exact hin
    · rw [he]
      intro x hx hm
      rcases List.mem_append.mp hx with hx' | hx'
      · exact hp x hx' hm
      · rw [List.mem_singleton.mp hx', hn]; exact hin
  · intro e he hm
    obtain ⟨y, -, rfl⟩ := List.mem_map.mp he
    cases hm

/-- A subsystem that no row names is still there, unmarked, when the marking
loop is over. -/
theorem tempd_reconfigure_mark_keeps (env : tempd_env) (rows : List ovsrec_subsystem)
    (st : tempd_state) (sub : locl_subsystem) (hsub : sub ∈ st.subsystem_data)
    (habs : sub.name ∉ rows.map (fun r => r.name)) :
    { sub with marked := false } ∈ (tempd_reconfigure_mark env rows st).subsystem_data := by
  apply tempd_reconfigure_rows_induct env
    (fun st' => { sub with marked := false } ∈ st'.subsystem_data) rows
  · intro st' subsys hs hp
    have hne : ({ sub with marked := false } : locl_subsystem).name ≠ subsys.name := by
      intro heq
      apply habs
      rw [show sub.name = subsys.name from heq]
      exact List.mem_map_of_mem _ hs
    rcases tempd_reconfigure_row_cases env st' subsys with
      ⟨r, -, -, he⟩ | ⟨r, -, -, he⟩ | ⟨-, e, -, -, ⟨-, -, -, he⟩ | ⟨-, -, he⟩⟩
    · rw [he]; exact hp
    · rw [he]
      exact mem_set_marked_of_ne _ _ _ hp hne
    · rw [he]
      exact List.mem_append_left _ hp
    · rw [he]
      exact List.mem_append_left _ hp
  · exact List.mem_map_of_mem _ hsub

theorem sweep_sublist (subs : List locl_subsystem) (sd : List (String × String)) :
    (subs.foldl (fun sensor_data s => delete_sensors s.subsystem_sensors sensor_data)
      sd).Sublist sd := by
  induction subs generalizing sd with
  | nil => exact List.Sublist.refl _
  | cons x rest ih =>
    rw [List.foldl_cons]
    exact (ih _).trans (delete_sensors_sublist _ _)

theorem sweep_not_mem (subs : List locl_subsystem) (sd : List (String × String))
    (e : locl_subsystem) (he : e ∈ subs) (s : locl_sensor) (hs : s ∈ e.subsystem_sensors)
    (h : (sd.map Prod.fst).Nodup) :
    s.name ∉ (subs.foldl
      (fun sensor_data s => delete_sensors s.subsystem_sensors sensor_data) sd).map
        Prod.fst := by
  induction subs generalizing sd with
  | nil => simp at he
  | cons x rest ih =>
    rw [List.foldl_cons]
    rcases List.mem_cons.mp he with rfl | he'
    · intro hmem
      have hsub := (sweep_sublist rest (delete_sensors e.subsystem_sensors sd)).map Prod.fst
      exact delete_sensors_not_mem _ sd s hs h (hsub.subset hmem)
    · exact ih _ he' (h.sublist ((delete_sensors_sublist _ _).map Prod.fst))

/-- After a pass every subsystem of the registry is marked and named by a row. -/
theorem tempd_reconfigure_pass_names (env : tempd_env) (rows : List ovsrec_subsystem)
    (st : tempd_state) :
    ∀ e ∈ (tempd_reconfigure_pass env rows st).subsystem_data,
      e.marked = true ∧ e.name ∈ rows.map (fun r => r.name) := by
  intro e he
  have hm : e.marked = true := by
    have := (List.mem_filter.mp he).2
    simpa using this
  exact ⟨hm, tempd_reconfigure_mark_marked env rows st e (List.mem_of_mem_filter he) hm⟩

/-- C15: for every registry state and every list of rows, sensor names being
pairwise distinct when the sweep starts, after tempd_reconfigure with a changed
sequence number no subsystem whose id is absent from the rows remains in the
subsystem lookup, and no sensor of such a subsystem remains in the global sensor
lookup. -/
theorem reconcile_removes_absent (env : tempd_env) (idl_seqno new_idl_seqno : Nat)
    (rows : List ovsrec_subsystem) (st : tempd_state)
    (hseq : new_idl_seqno ≠ idl_seqno)
    (hnames : ((tempd_reconfigure_mark env rows st).sensor_data.map Prod.fst).Nodup)
    (sub : locl_subsystem) (hsub : sub ∈ st.subsystem_data)
    (habs : sub.name ∉ rows.map (fun r => r.name)) :
    (∀ e ∈ (tempd_reconfigure env idl_seqno new_idl_seqno rows st).2.subsystem_data,
      e.name ≠ sub.name) ∧
    (∀ s ∈ sub.subsystem_sensors,
      s.name ∉ (tempd_reconfigure env idl_seqno new_idl_seqno rows st).2.sensor_data.map
        Prod.fst) := by
  unfold tempd_reconfigure
  rw [if_neg hseq]
  constructor
  · intro e he heq
    apply habs
    rw [← heq]
    exact (tempd_reconfigure_pass_names env rows st e he).2
  · intro s hs
    have hkeep := tempd_reconfigure_mark_keeps env rows st sub hsub habs
    have hfil : ({ sub with marked := false } : locl_subsystem) ∈
        (tempd_reconfigure_mark env rows st).subsystem_data.filter
          (fun s => s.marked = false) := by
      apply List.mem_filter.mpr
      exact ⟨hkeep, by simp⟩
    exact sweep_not_mem _ _ _ hfil s hs hnames

theorem reconcile_removes_absent_witness :
    subsystemB ∈ registryAB.subsystem_data ∧
    (∀ e ∈ (tempd_reconfigure exampleEnv 0 1 [rowA] registryAB).2.subsystem_data,
      e.name ≠ "B") ∧
    (∀ s ∈ subsystemB.subsystem_sensors,
      s.name ∉ (tempd_reconfigure exampleEnv 0 1 [rowA] registryAB).2.sensor_data.map
        Prod.fst) :=
  ⟨by decide,
    reconcile_removes_absent exampleEnv 0 1 [rowA] registryAB (by decide) (by decide)
      subsystemB (by decide) (by decide)⟩

/-! ## A second pass over the same rows -/

theorem marked_first_set_marked (n : String) (l : List locl_subsystem)
    (h : marked_first l) : marked_first (set_marked n l) := by
  unfold marked_first at h ⊢
  induction l with
  | nil => exact h
  | cons a rest ih =>
    rw [List.pairwise_cons] at h
    unfold set_marked
    split_ifs with hn
    · rw [List.pairwise_cons]
      exact ⟨fun b hb hm => h.1 b hb hm, h.2⟩
    · rw [List.pairwise_cons]
      refine ⟨?_, ih h.2⟩
      intro b hb hm
      rcases mem_set_marked _ _ _ hb with hb' | ⟨y, -, hyn, rfl⟩
      · exact h.1 b hb' hm
      · rw [show ({ y with marked := true } : locl_subsystem).name = y.name from rfl, hyn]
        exact hn

theorem marked_first_row (env : tempd_env) (st : tempd_state) (subsys : ovsrec_subsystem)
    (h : marked_first st.subsystem_data) :
    marked_first (tempd_reconfigure_row env st subsys).subsystem_data := by
  have happ : ∀ e : locl_subsystem, e.name = subsys.name →
      st.subsystem_data.find? (fun s => s.name = subsys.name) = none →
      marked_first (st.subsystem_data ++ [e]) := by
    intro e hn hf
    unfold marked_first
    rw [List.pairwise_append]
    refine ⟨h, List.pairwise_singleton _ _, ?_⟩
    intro a ha b hb _
    rw [List.mem_singleton.mp hb, hn]
    exact find_name_none _ _ hf a ha
  rcases tempd_reconfigure_row_cases env st subsys with
    ⟨r, -, -, he⟩ | ⟨r, -, -, he⟩ | ⟨hf, e, hn, -, ⟨-, -, -, he⟩ | ⟨-, -, he⟩⟩
  · rw [he]; exact h
  · rw [he]; exact marked_first_set_marked _ _ h
  · rw [he]; exact happ e hn hf
  · rw [he]; exact happ e hn hf

/-- After a pass the names of the subsystems in the registry are pairwise
distinct. -/
theorem tempd_reconfigure_pass_nodup (env : tempd_env) (rows : List ovsrec_subsystem)
    (st : tempd_state) :
    ((tempd_reconfigure_pass env rows st).subsystem_data.map (fun s => s.name)).Nodup := by
  have h0 : marked_first (tempd_unmark_subsystems st).subsystem_data := by
    apply List.pairwise_of_forall_mem_list
    intro a _ b hb hm
    obtain ⟨y, -, rfl⟩ := List.mem_map.mp hb
    cases hm
  have h1 : marked_first (tempd_reconfigure_mark env rows st).subsystem_data :=
    tempd_reconfigure_rows_induct env (fun st' => marked_first st'.subsystem_data) rows
      (fun st' subsys _ hp => marked_first_row env st' subsys hp) _ h0
  have h2 : marked_first (tempd_reconfigure_pass env rows st).subsystem_data :=
    List.Pairwise.filter _ h1
  unfold List.Nodup
  rw [List.pairwise_map]
  refine List.Pairwise.imp_of_mem ?_ h2
  intro a b _ hb hr
  exact hr (tempd_reconfigure_pass_names env rows st b hb).1

theorem set_marked_of_nodup (n : String) (l : List locl_subsystem)
    (h : (l.map (fun s => s.name)).Nodup) :
    set_marked n l = l.map (fun e => if e.name = n then { e with marked := true } else e) := by
  induction l with
  | nil => rfl
  | cons a rest ih =>
    rw [List.map_cons, List.nodup_cons] at h
    unfold set_marked
    split_ifs with hn
    · rw [List.map_cons, if_pos hn]
      congr 1
      have hid : ∀ x ∈ rest,
          (if x.name = n then { x with marked := true } else x) = x := by
        intro x hx
        rw [if_neg]
        intro hxn
        apply h.1
        rw [hn, ← hxn]
        exact List.mem_map_of_mem (fun s => s.name) hx
      rw [List.map_congr_left hid]
      simp
    · rw [List.map_cons, if_neg hn, ih h.2]

theorem marked_by_map_name (seen : List String) (l : List locl_subsystem) :
    (marked_by seen l).map (fun s => s.name) = l.map (fun s => s.name) := by
  unfold marked_by
  rw [List.map_map]
  rfl

theorem mem_marked_by (seen : List String) (l : List locl_subsystem) (x : locl_subsystem)
    (h : x ∈ marked_by seen l) :
    ∃ e ∈ l, x.name = e.name ∧ x.valid = e.valid := by
  obtain ⟨e, he, rfl⟩ := List.mem_map.mp h
  exact ⟨e, he, rfl, rfl⟩

/-- The marking loop over a registry in which every row already has a valid
subsystem, names being distinct: nothing is created, and the subsystems named
by the rows seen so far are the marked ones. -/
theorem tempd_reconfigure_rows_present (env : tempd_env) (l : List locl_subsystem)
    (sd : List (String × String))
    (hnodup : (l.map (fun s => s.name)).Nodup) (hvalid : ∀ e ∈ l, e.valid = true)
    (rows : List ovsrec_subsystem) (hpresent : ∀ r ∈ rows, ∃ e ∈ l, e.name = r.name)
    (seen : List String) :
    rows.foldl (tempd_reconfigure_row env)
        { subsystem_data := marked_by seen l, sensor_data := sd } =
      { subsystem_data := marked_by (seen ++ rows.map (fun r => r.name)) l,
        sensor_data := sd } := by
  induction rows generalizing seen with
  | nil => simp
  | cons r rest ih =>
    rw [List.foldl_cons]
    have hstep : tempd_reconfigure_row env
        { subsystem_data := marked_by seen l, sensor_data := sd } r =
        { subsystem_data := marked_by (seen ++ [r.name]) l, sensor_data := sd } := by
      rcases tempd_reconfigure_row_cases env
          { subsystem_data := marked_by seen l, sensor_data := sd } r with
        ⟨r0, hf, hv, -⟩ | ⟨r0, -, -, he⟩ | ⟨hf, -⟩
      · exfalso
        obtain ⟨hmem, -⟩ := find_name_some _ _ _ hf
        obtain ⟨e, he, -, hve⟩ := mem_marked_by _ _ _ hmem
        rw [hve, hvalid e he] at hv
        cases hv
      · rw [he]
        congr 1
        rw [set_marked_of_nodup _ _ (by rw [marked_by_map_name]; exact hnodup)]
        unfold marked_by
        rw [List.map_map]
        apply List.map_congr_left
        intro e _
        by_cases hn : e.name = r.name
        · simp [hn]
        · simp [hn]
      · exfalso
        obtain ⟨e, he, hn⟩ := hpresent r (List.mem_cons_self _ _)
        have hmem : ({ e with marked := decide (e.name ∈ seen) } : locl_subsystem) ∈
            marked_by seen l := List.mem_map_of_mem _ he
        exact find_name_none _ _ hf _ hmem hn
    rw [hstep, ih (fun r' hr' => hpresent r' (List.mem_cons_of_mem _ hr')) (seen ++ [r.name])]
    simp

/-- C16 as stated fails: from the empty registry, a first pass over a row
without description directory leaves an entry that is not valid; the second
pass over the same row finds it, loads nothing, and the sweep destroys it, so
the registry after the second pass differs from the registry after the first. -/
theorem reconcile_twice_counterexample :
    (tempd_reconfigure_pass exampleEnv [rowNoDir] init_subsystems).subsystem_data.length
      = 1 ∧
    (tempd_reconfigure_pass exampleEnv [rowNoDir]
      (tempd_reconfigure_pass exampleEnv [rowNoDir] init_subsystems)).subsystem_data = [] ∧
    tempd_reconfigure_pass exampleEnv [rowNoDir]
        (tempd_reconfigure_pass exampleEnv [rowNoDir] init_subsystems) ≠
      tempd_reconfigure_pass exampleEnv [rowNoDir] init_subsystems := by
  decide

/-- C16 amended: for every registry state, every list of rows and a fixed
catalog, if after a first pass every subsystem in the registry is valid and
every row has a subsystem in the registry, then a second pass over the same
rows creates no subsystem or sensor and destroys none: the registry after the
second pass equals the registry after the first. -/
theorem reconcile_twice (env : tempd_env) (rows : List ovsrec_subsystem) (st : tempd_state)
    (hvalid : ∀ e ∈ (tempd_reconfigure_pass env rows st).subsystem_data, e.valid = true)
    (hpresent : ∀ r ∈ rows,
      ∃ e ∈ (tempd_reconfigure_pass env rows st).subsystem_data, e.name = r.name) :
    tempd_reconfigure_pass env rows (tempd_reconfigure_pass env rows st) =
      tempd_reconfigure_pass env rows st := by
  have hnames := tempd_reconfigure_pass_names env rows st
  have hnodup := tempd_reconfigure_pass_nodup env rows st
  generalize tempd_reconfigure_pass env rows st = st1 at hvalid hpresent hnames hnodup
  have hunmark : tempd_unmark_subsystems st1 =
      { subsystem_data := marked_by [] st1.subsystem_data, sensor_data := st1.sensor_data } := by
    simp [tempd_unmark_subsystems, marked_by]
  have hmark : tempd_reconfigure_mark env rows st1 = st1 := by
    unfold tempd_reconfigure_mark
    rw [hunmark, tempd_reconfigure_rows_present env st1.subsystem_data st1.sensor_data
      hnodup hvalid rows hpresent []]
    have hid : marked_by ([] ++ rows.map (fun r => r.name)) st1.subsystem_data =
        st1.subsystem_data := by
      unfold marked_by
      have : ∀ e ∈ st1.subsystem_data,
          ({ e with marked := decide (e.name ∈ [] ++ rows.map (fun r => r.name)) }
            : locl_subsystem) = e := by
        intro e he
        obtain ⟨hm, hn⟩ := hnames e he
        cases e
        simp_all
      rw [List.map_congr_left this]
      simp
    rw [hid]
  unfold tempd_reconfigure_pass
  rw [hmark]
  unfold tempd_remove_unmarked_subsystems
  have hall : st1.subsystem_data.filter (fun s => s.marked = true) = st1.subsystem_data := by
    rw [List.filter_eq_self]
    intro e he
    simpa using (hnames e he).1
  have hnone : st1.subsystem_data.filter (fun s => s.marked = false) = [] := by
    rw [List.filter_eq_nil_iff]
    intro e he
    simp [(hnames e he).1]
  rw [hall, hnone]
  rfl

theorem reconcile_twice_witness :
    (∀ e ∈ (tempd_reconfigure_pass exampleEnv [rowA, rowB] init_subsystems).subsystem_data,
      e.valid = true) ∧
    tempd_reconfigure_pass exampleEnv [rowA, rowB]
        (tempd_reconfigure_pass exampleEnv [rowA, rowB] init_subsystems) =
      tempd_reconfigure_pass exampleEnv [rowA, rowB] init_subsystems :=
  ⟨by decide, reconcile_twice exampleEnv [rowA, rowB] init_subsystems (by decide) (by decide)⟩

/-! ## Loading again after a failure -/

/-- A row of another name leaves the entry found under `x` as it is. -/
theorem tempd_reconfigure_row_find_ne (env : tempd_env) (st : tempd_state)
    (subsys : ovsrec_subsystem) (x : String) (hne : subsys.name ≠ x) :
    (tempd_reconfigure_row env st subsys).subsystem_data.find? (fun s => s.name = x) =
      st.subsystem_data.find? (fun s => s.name = x) := by
  have happ : ∀ e : locl_subsystem, e.name = subsys.name →
      (st.subsystem_data ++ [e]).find? (fun s => s.name = x) =
        st.subsystem_data.find? (fun s => s.name = x) := by
    intro e hn
    have hex : ¬ e.name = x := by rw [hn]; exact hne
    rw [List.find?_append]
    cases st.subsystem_data.find? (fun s => s.name = x) with
    | none => simp [List.find?_cons, hex]
    | some y => rfl
  rcases tempd_reconfigure_row_cases env st subsys with
    ⟨r, -, -, he⟩ | ⟨r, -, -, he⟩ | ⟨-, e, hn, -, ⟨-, -, -, he⟩ | ⟨-, -, he⟩⟩
  · rw [he]
  · rw [he]
    exact find_set_marked_ne _ _ _ (fun h => hne h.symm)
  · rw [he]; exact happ e hn
  · rw [he]; exact happ e hn

/-- One step of the marking loop, seen from the name `x`: a row of that name
whose load has the outcome `v` makes the entry found under `x` a marked one of
validity `v`, when there was none or already such a one; other rows change
nothing of this. -/
theorem tempd_reconfigure_row_found (env : tempd_env) (st : tempd_state)
    (subsys : ovsrec_subsystem) (x : String) (v : Bool)
    (hload : subsys.name = x → (load_fails env subsys ↔ v = false))
    (h : st.subsystem_data.find? (fun s => s.name = x) = none ∨ found_marked x v st) :
    (subsys.name = x → found_marked x v (tempd_reconfigure_row env st subsys)) ∧
    (found_marked x v st → found_marked x v (tempd_reconfigure_row env st subsys)) ∧
    ((tempd_reconfigure_row env st subsys).subsystem_data.find? (fun s => s.name = x) = none ∨
      found_marked x v (tempd_reconfigure_row env st subsys)) := by
  by_cases hx : subsys.name = x
  · have key : found_marked x v (tempd_reconfigure_row env st subsys) := by
      subst hx
      rcases tempd_reconfigure_row_cases env st subsys with
        ⟨r, hf, hv, he⟩ | ⟨r, hf, hv, he⟩ |
        ⟨hf, e, hn, hm, ⟨hl, hv, -, he⟩ | ⟨hl, hv, he⟩⟩
      · rcases h with h | ⟨e, hfe, hve, hme⟩
        · rw [h] at hf; cases hf
        · rw [he]; exact ⟨e, hfe, hve, hme⟩
      · rcases h with h | ⟨e, hfe, hve, -⟩
        · rw [h] at hf; cases hf
        · rw [he]
          rw [hf] at hfe
          cases hfe
          exact ⟨_, find_set_marked_self _ _ _ hf, hve, rfl⟩
      · rw [he]
        refine ⟨e, ?_, ?_, hm⟩
        · rw [List.find?_append, hf]
          simp [List.find?_cons, hn]
        · rw [hv]; exact ((hload rfl).mp hl).symm
      · rw [he]
        refine ⟨e, ?_, ?_, hm⟩
        · rw [List.find?_append, hf]
          simp [List.find?_cons, hn]
        · rw [hv]
          cases v with
          | true => rfl
          | false => exact absurd ((hload rfl).mpr rfl) hl
    exact ⟨fun _ => key, fun _ => key, Or.inr key⟩
  · have hfind := tempd_reconfigure_row_find_ne env st subsys x hx
    refine ⟨fun h' => absurd h' hx, ?_, ?_⟩
    · rintro ⟨e, hfe, hve, hme⟩
      exact ⟨e, by rw [hfind]; exact hfe, hve, hme⟩
    · rcases h with h | ⟨e, hfe, hve, hme⟩
      · left; rw [hfind]; exact h
      · right; exact ⟨e, by rw [hfind]; exact hfe, hve, hme⟩

theorem tempd_reconfigure_rows_found (env : tempd_env) (x : String) (v : Bool)
    (rows : List ovsrec_subsystem)
    (hload : ∀ r ∈ rows, r.name = x → (load_fails env r ↔ v = false))
    (st : tempd_state)
    (h : st.subsystem_data.find? (fun s => s.name = x) = none ∨ found_marked x v st)
    (hsome : found_marked x v st ∨ ∃ r ∈ rows, r.name = x) :
    found_marked x v (rows.foldl (tempd_reconfigure_row env) st) := by
  induction rows generalizing st with
  | nil =>
    rcases hsome with hk | ⟨r, hr, -⟩
    · exact hk
    · simp at hr
  | cons r rest ih =>
    rw [List.foldl_cons]
    obtain ⟨s1, s2, s3⟩ := tempd_reconfigure_row_found env st r x v
      (hload r (List.mem_cons_self _ _)) h
    apply ih (fun r' hr' => hload r' (List.mem_cons_of_mem _ hr')) _ s3
    rcases hsome with hk | ⟨r', hr', hn⟩
    · exact Or.inl (s2 hk)
    · rcases List.mem_cons.mp hr' with rfl | hr''
      · exact Or.inl (s1 hn)
      · exact Or.inr ⟨r', hr'', hn⟩

theorem find_filter_of_found (p q : locl_subsystem → Bool) (l : List locl_subsystem)
    (e : locl_subsystem) (h : l.find? p = some e) (hq : q e = true) :
    (l.filter q).find? p = some e := by
  induction l with
  | nil => simp at h
  | cons a rest ih =>
    rw [List.find?_cons] at h
    cases hp : p a with
    | true =>
      rw [hp] at h
      cases h
      rw [List.filter_cons, if_pos hq, List.find?_cons, hp]
    | false =>
      rw [hp] at h
      rw [List.filter_cons]
      split_ifs
      · rw [List.find?_cons, hp]
        exact ih h
      · exact ih h

/-- A pass over rows that name `x`, started without an entry for `x`: when the
load of `x` has the outcome `v`, the registry after the pass holds an entry for
`x` of validity `v`. -/
theorem tempd_reconfigure_pass_loads (env : tempd_env) (x : String) (v : Bool)
    (rows : List ovsrec_subsystem) (st : tempd_state)
    (habs : st.subsystem_data.find? (fun s => s.name = x) = none)
    (hrow : ∃ r ∈ rows, r.name = x)
    (hload : ∀ r ∈ rows, r.name = x → (load_fails env r ↔ v = false)) :
    ∃ e, (tempd_reconfigure_pass env rows st).subsystem_data.find?
      (fun s => s.name = x) = some e ∧ e.valid = v := by
  have h0 : (tempd_unmark_subsystems st).subsystem_data.find? (fun s => s.name = x)
      = none := by
    rw [List.find?_eq_none]
    intro y hy
    obtain ⟨z, hz, rfl⟩ := List.mem_map.mp hy
    have := find_name_none _ _ habs z hz
    simpa using this
  obtain ⟨e, hf, hv, hm⟩ := tempd_reconfigure_rows_found env x v rows hload
    (tempd_unmark_subsystems st) (Or.inl h0) (Or.inr hrow)
  exact ⟨e, find_filter_of_found _ _ _ e hf (by simpa using hm), hv⟩

theorem found_invalid_unmarked_row (env : tempd_env) (st : tempd_state)
    (subsys : ovsrec_subsystem) (x : String) (h : found_invalid_unmarked x st) :
    found_invalid_unmarked x (tempd_reconfigure_row env st subsys) := by
  obtain ⟨⟨e0, hf0, hv0⟩, hun⟩ := h
  by_cases hx : subsys.name = x
  · subst hx
    rcases tempd_reconfigure_row_cases env st subsys with
      ⟨r, -, -, he⟩ | ⟨r, hf, hv, -⟩ | ⟨hf, -⟩
    · rw [he]; exact ⟨⟨e0, hf0, hv0⟩, hun⟩
    · rw [hf0] at hf
      cases hf
      rw [hv0] at hv
      cases hv
    · rw [hf0] at hf
      cases hf
  · refine ⟨⟨e0, ?_, hv0⟩, ?_⟩
    · rw [tempd_reconfigure_row_find_ne env st subsys x hx]
      exact hf0
    · rcases tempd_reconfigure_row_cases env st subsys with
        ⟨r, -, -, he⟩ | ⟨r, -, -, he⟩ | ⟨-, e, hn, -, ⟨-, -, -, he⟩ | ⟨-, -, he⟩⟩
      · rw [he]; exact hun
      · rw [he]
        intro y hy hyx
        rcases mem_set_marked _ _ _ hy with hy' | ⟨z, -, hzn, rfl⟩
        · exact hun y hy' hyx
        · exact absurd (hzn.symm.trans hyx) hx
      · rw [he]
        intro y hy hyx
        rcases List.mem_append.mp hy with hy' | hy'
        · exact hun y hy' hyx
        · rw [List.mem_singleton.mp hy'] at hyx
          exact absurd (hn.symm.trans hyx) hx
      · rw [he]
        intro y hy hyx
        rcases List.mem_append.mp hy with hy' | hy'
        · exact hun y hy' hyx
        · rw [List.mem_singleton.mp hy'] at hyx
          exact absurd (hn.symm.trans hyx) hx

/-- A pass started with an entry for `x` that is not valid ends without any
entry for `x`, whatever the rows and the catalog. -/
theorem tempd_reconfigure_pass_sweeps_invalid (env : tempd_env)
    (rows : List ovsrec_subsystem) (st : tempd_state) (x : String) (r0 : locl_subsystem)
    (hfound : st.subsystem_data.find? (fun s => s.name = x) = some r0)
    (hinvalid : r0.valid = false) :
    (tempd_reconfigure_pass env rows st).subsystem_data.find? (fun s => s.name = x)
      = none := by
  have h0 : found_invalid_unmarked x (tempd_unmark_subsystems st) := by
    constructor
    · refine ⟨{ r0 with marked := false }, ?_, hinvalid⟩
      unfold tempd_unmark_subsystems
      simp only [List.find?_map]
      have : ((fun s : locl_subsystem => decide (s.name = x)) ∘
          fun s : locl_subsystem => { s with marked := false }) =
          fun s : locl_subsystem => decide (s.name = x) := rfl
      rw [this, hfound]
      rfl
    · intro e he _
      obtain ⟨z, -, rfl⟩ := List.mem_map.mp he
      rfl
  have h1 : found_invalid_unmarked x (tempd_reconfigure_mark env rows st) :=
    tempd_reconfigure_rows_induct env (found_invalid_unmarked x) rows
      (fun st' subsys _ hp => found_invalid_unmarked_row env st' subsys x hp) _ h0
  rw [List.find?_eq_none]
  intro e he
  have hmem := List.mem_filter.mp he
  intro hn
  have hname : e.name = x := by simpa using hn
  have := h1.2 e hmem.1 hname
  rw [this] at hmem
  simp at hmem

/-- C17 as stated fails: the load of `A` fails in a first pass; in the very next
pass the row `A` is there and the catalog would load, yet get_subsystem finds
the entry that is not valid, answers no subsystem and loads nothing, and after
that pass the registry holds no subsystem `A` at all. -/
theorem reload_next_pass_counterexample :
    load_fails brokenEnv rowA ∧ ¬ load_fails exampleEnv rowA ∧
    (tempd_reconfigure_pass brokenEnv [rowA] init_subsystems).subsystem_data.map
      (fun s => (s.name, s.valid)) = [("A", false)] ∧
    get_subsystem exampleEnv rowA (tempd_reconfigure_pass brokenEnv [rowA] init_subsystems) =
      (tempd_reconfigure_pass brokenEnv [rowA] init_subsystems, none) ∧
    (tempd_reconfigure_passes [(brokenEnv, [rowA]), (exampleEnv, [rowA])]
      init_subsystems).subsystem_data = [] := by
  refine ⟨?_, ?_, by decide, by decide, by decide⟩
  · simp [load_fails, rowA, brokenEnv, brokenYamlSubsystem]
  · simp only [load_fails, rowA, exampleEnv, exampleYamlSubsystem]
    decide

/-- C17 amended: a pass in which the load of X fails leaves an entry for X that
is not valid.  From a registry with such an entry, get_subsystem answers no
subsystem for X and loads nothing (the entry is not treated as absent), and the
next pass, whatever its rows and catalog, ends with no entry for X; the pass
after that one, when its rows name X and the catalog loads, ends with a valid
subsystem X. -/
theorem reload_second_pass_after_failure (x : String) :
    (∀ (env : tempd_env) (rows : List ovsrec_subsystem) (st : tempd_state),
      st.subsystem_data.find? (fun s => s.name = x) = none →
      (∃ r ∈ rows, r.name = x) →
      (∀ r ∈ rows, r.name = x → load_fails env r) →
      ∃ e, (tempd_reconfigure_pass env rows st).subsystem_data.find?
        (fun s => s.name = x) = some e ∧ e.valid = false) ∧
    (∀ (st : tempd_state) (r0 : locl_subsystem),
      st.subsystem_data.find? (fun s => s.name = x) = some r0 → r0.valid = false →
      (∀ (env : tempd_env) (subsys : ovsrec_subsystem), subsys.name = x →
        get_subsystem env subsys st = (st, none)) ∧
      (∀ (env : tempd_env) (rows : List ovsrec_subsystem),
        (tempd_reconfigure_pass env rows st).subsystem_data.find?
          (fun s => s.name = x) = none) ∧
      (∀ (env : tempd_env) (rows : List ovsrec_subsystem)
          (env' : tempd_env) (rows' : List ovsrec_subsystem),
        (∃ r ∈ rows', r.name = x) →
        (∀ r ∈ rows', r.name = x → ¬ load_fails env' r) →
        ∃ e, (tempd_reconfigure_pass env' rows'
            (tempd_reconfigure_pass env rows st)).subsystem_data.find?
          (fun s => s.name = x) = some e ∧ e.valid = true)) := by
  constructor
  · intro env rows st habs hrow hload
    exact tempd_reconfigure_pass_loads env x false rows st habs hrow
      (fun r hr hn => ⟨fun _ => rfl, fun _ => hload r hr hn⟩)
  · intro st r0 hfound hinvalid
    refine ⟨?_, ?_, ?_⟩
    · intro env subsys hn
      unfold get_subsystem
      rw [hn, hfound]
      simp [hinvalid]
    · intro env rows
      exact tempd_reconfigure_pass_sweeps_invalid env rows st x r0 hfound hinvalid
    · intro env rows env' rows' hrow hload
      exact tempd_reconfigure_pass_loads env' x true rows' _
        (tempd_reconfigure_pass_sweeps_invalid env rows st x r0 hfound hinvalid) hrow
        (fun r hr hn => ⟨fun h => absurd h (hload r hr hn), fun h => by cases h⟩)

theorem reload_second_pass_after_failure_witness :
    (∃ e, (tempd_reconfigure_pass brokenEnv [rowA] init_subsystems).subsystem_data.find?
      (fun s => s.name = "A") = some e ∧ e.valid = false) ∧
    (tempd_reconfigure_pass exampleEnv [rowA]
      (tempd_reconfigure_pass brokenEnv [rowA] init_subsystems)).subsystem_data.find?
        (fun s => s.name = "A") = none :=
  ⟨(reload_second_pass_after_failure "A").1 brokenEnv [rowA] init_subsystems (by decide)
      ⟨rowA, by decide, by decide⟩
      (fun r hr _ => by
        rw [List.mem_singleton.mp hr]
        simp [load_fails, rowA, brokenEnv, brokenYamlSubsystem]),
    ((reload_second_pass_after_failure "A").2
      (tempd_reconfigure_pass brokenEnv [rowA] init_subsystems)
      { name := "A", marked := true, valid := false, subsystem_sensors := [],
        emergency_shutdown := false } (by decide) (by decide)).2.1 exampleEnv [rowA]⟩

/-! ## The publish step -/

/-- The loop body on a row that has a sensor of its name, as six compare-and-set
steps, innermost first. -/
theorem tempd_run_publish_row_eq (st : tempd_state) (change : Bool)
    (cfg : ovsrec_temp_sensor) (sensor : locl_sensor)
    (h : sensor_data_find st cfg.name = some sensor) :
    tempd_run_publish_row st change cfg =
      publish_column temp_sensor_column.location
        (fun r => decide (sensor.yaml_sensor.location ≠ r.location))
        (fun r => { r with location := sensor.yaml_sensor.location })
      (publish_column temp_sensor_column.fan_state
        (fun r => decide (sensor_speed_to_string sensor.fan_speed ≠ r.fan_state))
        (fun r => { r with fan_state := sensor_speed_to_string sensor.fan_speed })
      (publish_column temp_sensor_column.max
        (fun r => decide (r.max ≠ sensor.max)) (fun r => { r with max := sensor.max })
      (publish_column temp_sensor_column.min
        (fun r => decide (r.min ≠ sensor.min)) (fun r => { r with min := sensor.min })
      (publish_column temp_sensor_column.temperature
        (fun r => decide (r.temperature ≠ sensor.temp))
        (fun r => { r with temperature := sensor.temp })
      (publish_column temp_sensor_column.status
        (fun r => decide (sensor_status_to_string sensor.status ≠ r.status))
        (fun r => { r with status := sensor_status_to_string sensor.status })
        { cfg := cfg, written := [], change := change }))))) := by
  unfold tempd_run_publish_row
  rw [h]
  simp only [publish_column, decide_eq_true_eq]

theorem exists_column_differs (cfg : ovsrec_temp_sensor) (sensor : locl_sensor) :
    (∃ c, column_differs cfg sensor c) ↔
      (sensor_status_to_string sensor.status ≠ cfg.status ∨
       cfg.temperature ≠ sensor.temp ∨ cfg.min ≠ sensor.min ∨ cfg.max ≠ sensor.max ∨
       sensor_speed_to_string sensor.fan_speed ≠ cfg.fan_state ∨
       sensor.yaml_sensor.location ≠ cfg.location) := by
  constructor
  · rintro ⟨c, hc⟩
    cases c
    · exact Or.inl hc
    · exact Or.inr (Or.inl hc)
    · exact Or.inr (Or.inr (Or.inl hc))
    · exact Or.inr (Or.inr (Or.inr (Or.inl hc)))
    · exact Or.inr (Or.inr (Or.inr (Or.inr (Or.inl hc))))
    · exact Or.inr (Or.inr (Or.inr (Or.inr (Or.inr hc))))
  · rintro (h | h | h | h | h | h)
    · exact ⟨temp_sensor_column.status, h⟩
    · exact ⟨temp_sensor_column.temperature, h⟩
    · exact ⟨temp_sensor_column.min, h⟩
    · exact ⟨temp_sensor_column.max, h⟩
    · exact ⟨temp_sensor_column.fan_state, h⟩
    · exact ⟨temp_sensor_column.location, h⟩

/-- The loop body on a row that has a sensor of its name: the row becomes the
mirror of the sensor, the columns written are those that differed, and the flag
is raised exactly when it was raised before or a column differed. -/
theorem tempd_run_publish_row_matched (st : tempd_state) (change : Bool)
    (cfg : ovsrec_temp_sensor) (sensor : locl_sensor)
    (h : sensor_data_find st cfg.name = some sensor) :
    (tempd_run_publish_row st change cfg).cfg = sensor_record cfg.name sensor ∧
    (∀ c, c ∈ (tempd_run_publish_row st change cfg).written ↔ column_differs cfg sensor c) ∧
    ((tempd_run_publish_row st change cfg).change = true ↔
      change = true ∨ ∃ c, column_differs cfg sensor c) := by
  rw [tempd_run_publish_row_eq st change cfg sensor h, exists_column_differs]
  obtain ⟨name, status, temperature, min, max, fan_state, location⟩ := cfg
  simp only [sensor_record]
  by_cases h1 : sensor_status_to_string sensor.status = status <;>
  by_cases h2 : temperature = sensor.temp <;>
  by_cases h3 : min = sensor.min <;>
  by_cases h4 : max = sensor.max <;>
  by_cases h5 : sensor_speed_to_string sensor.fan_speed = fan_state <;>
  by_cases h6 : sensor.yaml_sensor.location = location <;>
  (refine ⟨?_, ?_, ?_⟩
   · simp [publish_column, h1, h2, h3, h4, h5, h6]
   · intro c
     cases c <;> simp [publish_column, column_differs, h1, h2, h3, h4, h5, h6]
   · simp [publish_column, h1, h2, h3, h4, h5, h6])

/-- The loop body on a row that has no sensor of its name. -/
theorem tempd_run_publish_row_orphan (st : tempd_state) (change : Bool)
    (cfg : ovsrec_temp_sensor) (h : sensor_data_find st cfg.name = none) :
    tempd_run_publish_row st change cfg =
      { cfg := { cfg with status := "uninitialized" },
        written := [temp_sensor_column.status], change := true } := by
  unfold tempd_run_publish_row
  rw [h]
  rfl

theorem tempd_run_publish_row_name (st : tempd_state) (change : Bool)
    (cfg : ovsrec_temp_sensor) : (tempd_run_publish_row st change cfg).cfg.name = cfg.name := by
  cases h : sensor_data_find st cfg.name with
  | none => rw [tempd_run_publish_row_orphan st change cfg h]
  | some sensor =>
    rw [(tempd_run_publish_row_matched st change cfg sensor h).1]
    rfl

theorem tempd_run_publish_row_published (st : tempd_state) (change : Bool)
    (cfg : ovsrec_temp_sensor) : published st cfg (tempd_run_publish_row st change cfg) := by
  unfold published
  cases h : sensor_data_find st cfg.name with
  | none =>
    rw [tempd_run_publish_row_orphan st change cfg h]
    exact ⟨rfl, rfl⟩
  | some sensor =>
    obtain ⟨h1, h2, -⟩ := tempd_run_publish_row_matched st change cfg sensor h
    exact ⟨h1, h2⟩

theorem tempd_run_publish_rows_published (st : tempd_state) (change : Bool)
    (rows : List ovsrec_temp_sensor) :
    List.Forall₂ (published st) rows (tempd_run_publish_rows st change rows).1 := by
  induction rows generalizing change with
  | nil => exact List.Forall₂.nil
  | cons cfg rest ih =>
    rw [tempd_run_publish_rows]
    exact List.Forall₂.cons (tempd_run_publish_row_published st change cfg) (ih _)

theorem tempd_run_publish_rows_names (st : tempd_state) (change : Bool)
    (rows : List ovsrec_temp_sensor) :
    (tempd_run_publish_rows st change rows).1.map (fun u => u.cfg.name) =
      rows.map (fun cfg => cfg.name) := by
  induction rows generalizing change with
  | nil => rfl
  | cons cfg rest ih =>
    rw [tempd_run_publish_rows]
    simp only [List.map_cons, tempd_run_publish_row_name, ih]

/-- The loop keeps the flag down when it was down and every row has a sensor of
its name that differs from it in no column; then nothing is written either. -/
theorem tempd_run_publish_rows_quiet (st : tempd_state) (rows : List ovsrec_temp_sensor)
    (h : ∀ cfg ∈ rows, ∃ sensor, sensor_data_find st cfg.name = some sensor ∧
      ∀ c, ¬ column_differs cfg sensor c) :
    (tempd_run_publish_rows st false rows).2 = false ∧
    ∀ u ∈ (tempd_run_publish_rows st false rows).1, u.written = [] := by
  induction rows with
  | nil => exact ⟨rfl, fun u hu => by simp [tempd_run_publish_rows] at hu⟩
  | cons cfg rest ih =>
    obtain ⟨sensor, hf, hd⟩ := h cfg (List.mem_cons_self _ _)
    obtain ⟨-, hw, hc⟩ := tempd_run_publish_row_matched st false cfg sensor hf
    have hflag : (tempd_run_publish_row st false cfg).change = false := by
      cases hb : (tempd_run_publish_row st false cfg).change with
      | false => rfl
      | true =>
        rcases hc.mp hb with h' | ⟨c, hcd⟩
        · cases h'
        · exact absurd hcd (hd c)
    have hwr : (tempd_run_publish_row st false cfg).written = [] := by
      apply List.eq_nil_iff_forall_not_mem.mpr
      intro c hcm
      exact hd c ((hw c).mp hcm)
    obtain ⟨i1, i2⟩ := ih (fun cfg' hc' => h cfg' (List.mem_cons_of_mem _ hc'))
    rw [tempd_run_publish_rows]
    simp only [hflag]
    refine ⟨i1, ?_⟩
    intro u hu
    rcases List.mem_cons.mp hu with rfl | hu'
    · exact hwr
    · exact i2 u hu'

/-- C18, the code on the claim's scenario.  When every persisted record has a
sensor of its name that differs from it in no column and cur_hw is already set,
the change flag stays false, nothing is written and no commit happens.  But a
persisted record without a sensor of its name, its status already
"uninitialized", gets that same status written again, the change flag is
raised and the transaction is committed although no value differs. -/
theorem publish_commit_flag :
    (∀ (st : tempd_state) (rows : List ovsrec_temp_sensor) (daemons : List ovsrec_daemon),
      (∀ cfg ∈ rows, ∃ sensor, sensor_data_find st cfg.name = some sensor ∧
        ∀ c, ¬ column_differs cfg sensor c) →
      (tempd_run_publish st true rows daemons).change = false ∧
      (tempd_run_publish st true rows daemons).committed = false ∧
      ∀ u ∈ (tempd_run_publish st true rows daemons).temp_sensors, u.written = []) ∧
    ((tempd_run_publish init_subsystems true [orphanRow] []).temp_sensors.map
        (fun u => u.cfg) = [orphanRow] ∧
     (tempd_run_publish init_subsystems true [orphanRow] []).change = true ∧
     (tempd_run_publish init_subsystems true [orphanRow] []).committed = true) := by
  constructor
  · intro st rows daemons h
    obtain ⟨q1, q2⟩ := tempd_run_publish_rows_quiet st rows h
    unfold tempd_run_publish
    simp only [Bool.true_eq_false, if_false]
    exact ⟨q1, q1, q2⟩
  · decide

/-- C19 as stated fails: the registry holds the sensor `A-1`, no persisted
record has its name, and the publish step publishes nothing for it: no record
comes out, nothing is written and nothing is committed. -/
theorem publish_missing_record_counterexample :
    (sensor_data_find registryAB "A-1").isSome = true ∧
    (tempd_run_publish registryAB true [] []).temp_sensors = [] ∧
    (tempd_run_publish registryAB true [orphanRow] []).temp_sensors.map
      (fun u => u.cfg.name) = ["gone-1"] ∧
    (tempd_run_publish registryAB true [] []).committed = false := by
  decide

/-- C19 amended: the publish step goes through the persisted records, not
through the sensors: the records after it are the records before it, name by
name, so a sensor without a record of its name is not published; and every
persisted record that has no in-memory sensor of its name gets the status
"uninitialized". -/
theorem publish_marks_orphan_rows (st : tempd_state) (cur_hw_set : Bool)
    (rows : List ovsrec_temp_sensor) (daemons : List ovsrec_daemon) :
    (tempd_run_publish st cur_hw_set rows daemons).temp_sensors.map (fun u => u.cfg.name) =
      rows.map (fun cfg => cfg.name) ∧
    (∀ name, name ∉ rows.map (fun cfg => cfg.name) →
      ∀ u ∈ (tempd_run_publish st cur_hw_set rows daemons).temp_sensors, u.cfg.name ≠ name) ∧
    List.Forall₂
      (fun cfg u => sensor_data_find st cfg.name = none →
        u.cfg.status = "uninitialized" ∧ temp_sensor_column.status ∈ u.written)
      rows (tempd_run_publish st cur_hw_set rows daemons).temp_sensors := by
  have hnames : (tempd_run_publish st cur_hw_set rows daemons).temp_sensors.map
      (fun u => u.cfg.name) = rows.map (fun cfg => cfg.name) :=
    tempd_run_publish_rows_names st false rows
  refine ⟨hnames, ?_, ?_⟩
  · intro name hn u hu heq
    apply hn
    rw [← hnames, ← heq]
    exact List.mem_map_of_mem (fun u => u.cfg.name) hu
  · have hp : List.Forall₂ (published st) rows
        (tempd_run_publish st cur_hw_set rows daemons).temp_sensors :=
      tempd_run_publish_rows_published st false rows
    refine hp.imp ?_
    intro cfg u hpub hnone
    unfold published at hpub
    rw [hnone] at hpub
    obtain ⟨h1, h2⟩ := hpub
    rw [h1, h2]
    exact ⟨rfl, List.mem_singleton.mpr rfl⟩

/-- C20: after the publish step every persisted record that has an in-memory
sensor of its name is the mirror of that sensor (status string, temperature,
min, max, fan-state string, location) and was written in exactly the columns
that differed, and every persisted record without such a sensor has status
"uninitialized", its other fields unchanged. -/
theorem publish_mirrors_sensors (st : tempd_state) (cur_hw_set : Bool)
    (rows : List ovsrec_temp_sensor) (daemons : List ovsrec_daemon) :
    List.Forall₂
      (fun cfg u =>
        (∀ sensor, sensor_data_find st cfg.name = some sensor →
          u.cfg.name = cfg.name ∧
          u.cfg.status = sensor_status_to_string sensor.status ∧
          u.cfg.temperature = sensor.temp ∧ u.cfg.min = sensor.min ∧
          u.cfg.max = sensor.max ∧
          u.cfg.fan_state = sensor_speed_to_string sensor.fan_speed ∧
          u.cfg.location = sensor.yaml_sensor.location ∧
          ∀ c, c ∈ u.written ↔ column_differs cfg sensor c) ∧
        (sensor_data_find st cfg.name = none →
          u.cfg = { cfg with status := "uninitialized" }))
      rows (tempd_run_publish st cur_hw_set rows daemons).temp_sensors := by
  have hp : List.Forall₂ (published st) rows
      (tempd_run_publish st cur_hw_set rows daemons).temp_sensors :=
    tempd_run_publish_rows_published st false rows
  refine hp.imp ?_
  intro cfg u hpub
  unfold published at hpub
  constructor
  · intro sensor hs
    rw [hs] at hpub
    obtain ⟨h1, h2⟩ := hpub
    rw [h1]
    exact ⟨rfl, rfl, rfl, rfl, rfl, rfl, rfl, h2⟩
  · intro hnone
    rw [hnone] at hpub
    exact hpub.1

theorem publish_mirrors_sensors_witness :
    (tempd_run_publish registryAB false [staleRowA1, orphanRow] []).temp_sensors.map
      (fun u => (u.cfg.temperature, u.cfg.status, u.written)) =
      [(30000, "normal", [temp_sensor_column.temperature]),
       (41000, "uninitialized", [temp_sensor_column.status])] ∧
    List.Forall₂
      (fun cfg u =>
        (∀ sensor, sensor_data_find registryAB cfg.name = some sensor →
          u.cfg.name = cfg.name ∧
          u.cfg.status = sensor_status_to_string sensor.status ∧
          u.cfg.temperature = sensor.temp ∧ u.cfg.min = sensor.min ∧
          u.cfg.max = sensor.max ∧
          u.cfg.fan_state = sensor_speed_to_string sensor.fan_speed ∧
          u.cfg.location = sensor.yaml_sensor.location ∧
          ∀ c, c ∈ u.written ↔ column_differs cfg sensor c) ∧
        (sensor_data_find registryAB cfg.name = none →
          u.cfg = { cfg with status := "uninitialized" }))
      [staleRowA1, orphanRow]
      (tempd_run_publish registryAB false [staleRowA1, orphanRow] []).temp_sensors :=
  ⟨by decide, publish_mirrors_sensors registryAB false [staleRowA1, orphanRow] []⟩

/-! ## Status and fan-state strings -/

/-- C21: sensor_status_to_string maps the eight statuses to "uninitialized",
"normal", "min", "max", "low_critical", "critical", "fault", "emergency" and
sensor_speed_to_string maps the four fan speeds to "normal", "medium", "fast",
"max"; both maps are injective, so the status and fan-state strings of the
record that mirrors a sensor determine the status and fan speed in memory. -/
theorem status_strings_round_trip :
    (sensor_status_to_string SENSOR_STATUS_UNINITIALIZED = "uninitialized" ∧
     sensor_status_to_string SENSOR_STATUS_NORMAL = "normal" ∧
     sensor_status_to_string SENSOR_STATUS_MIN = "min" ∧
     sensor_status_to_string SENSOR_STATUS_MAX = "max" ∧
     sensor_status_to_string SENSOR_STATUS_LOWCRIT = "low_critical" ∧
     sensor_status_to_string SENSOR_STATUS_CRITICAL = "critical" ∧
     sensor_status_to_string SENSOR_STATUS_FAILED = "fault" ∧
     sensor_status_to_string SENSOR_STATUS_EMERGENCY = "emergency") ∧
    (sensor_speed_to_string SENSOR_FAN_NORMAL = "normal" ∧
     sensor_speed_to_string SENSOR_FAN_MEDIUM = "medium" ∧
     sensor_speed_to_string SENSOR_FAN_FAST = "fast" ∧
     sensor_speed_to_string SENSOR_FAN_MAX = "max") ∧
    Function.Injective sensor_status_to_string ∧
    Function.Injective sensor_speed_to_string ∧
    (∀ (name : String) (s1 s2 : locl_sensor),
      (sensor_record name s1).status = (sensor_record name s2).status →
      (sensor_record name s1).fan_state = (sensor_record name s2).fan_state →
      s1.status = s2.status ∧ s1.fan_speed = s2.fan_speed) := by
  have hst : Function.Injective sensor_status_to_string := by
    intro a b h
    cases a <;> cases b <;> first | rfl | exact absurd h (by decide)
  have hfan : Function.Injective sensor_speed_to_string := by
    intro a b h
    cases a <;> cases b <;> first | rfl | exact absurd h (by decide)
  refine ⟨by decide, by decide, hst, hfan, ?_⟩
  intro name s1 s2 h1 h2
  exact ⟨hst h1, hfan h2⟩

/-! ## The LM75 payload -/

/-- C23: for every two-byte payload (b0, b1) read successfully, the decoded
temperature is 1000 times b0 read as a signed 8-bit integer, plus 500 when the
top bit of b1 is set; it is 500 times the signed 9-bit value made of b0 followed
by the top bit of b1, a multiple of 500 between -128000 and 127500; and it is
the temp that a poll of an lm75 sensor without override stores. -/
theorem lm75_decode_payload (b0 b1 : Nat) (h0 : b0 < 256) (h1 : b1 < 256) :
    lm75_decode (char_of_byte b0) (char_of_byte b1) =
      1000 * (if b0 < 128 then (b0 : Int) else (b0 : Int) - 256)
        + (if 128 ≤ b1 then 500 else 0) ∧
    lm75_decode (char_of_byte b0) (char_of_byte b1) = 500 * lm75_signed9 b0 b1 ∧
    (500 : Int) ∣ lm75_decode (char_of_byte b0) (char_of_byte b1) ∧
    -128000 ≤ lm75_decode (char_of_byte b0) (char_of_byte b1) ∧
    lm75_decode (char_of_byte b0) (char_of_byte b1) ≤ 127500 ∧
    (∀ s : locl_sensor, s.yaml_sensor.type = "lm75" → s.test_temp = -1 →
      (tempd_read_sensor (some (char_of_byte b0, char_of_byte b1)) s).temp =
        lm75_decode (char_of_byte b0) (char_of_byte b1)) := by
  have e9 : lm75_decode (char_of_byte b0) (char_of_byte b1) = 500 * lm75_signed9 b0 b1 := by
    unfold lm75_decode char_of_byte lm75_signed9 MILI_DEGREES
    simp only []
    split_ifs <;> push_cast <;> omega
  refine ⟨?_, e9, ⟨lm75_signed9 b0 b1, e9⟩, ?_, ?_, ?_⟩
  · unfold lm75_decode char_of_byte MILI_DEGREES
    simp only []
    split_ifs <;> omega
  · unfold lm75_decode char_of_byte MILI_DEGREES
    simp only []
    split_ifs <;> omega
  · unfold lm75_decode char_of_byte MILI_DEGREES
    simp only []
    split_ifs <;> omega
  · intro s htype htest
    obtain ⟨e1, -⟩ := tempd_evaluate_frame
      (tempd_read_step (some (char_of_byte b0, char_of_byte b1)) s)
    unfold tempd_read_sensor
    rw [e1, tempd_read_step_success s _ _ htype htest]

theorem lm75_decode_payload_witness :
    lm75_decode (char_of_byte 25) (char_of_byte 128) = 25500 ∧
    lm75_decode (char_of_byte 231) (char_of_byte 0) = 500 * lm75_signed9 231 0 ∧
    lm75_decode (char_of_byte 231) (char_of_byte 0) = -25000 :=
  ⟨(lm75_decode_payload 25 128 (by decide) (by decide)).1.trans (by decide),
   (lm75_decode_payload 231 0 (by decide) (by decide)).2.1,
   by decide⟩

/-! ## LOWCRIT -/

/-- No alarm rule starts from LOWCRIT. -/
theorem alarm_ladder_lowcrit (a : YamlAlarmThresholds) (t : Int) :
    alarm_ladder a t SENSOR_STATUS_LOWCRIT = SENSOR_STATUS_LOWCRIT := by
  rw [alarm_ladder_eq]
  simp [guarded]

/-- C29: for every alarm threshold set and every temperature the alarm ladder
started from LOWCRIT ends with LOWCRIT; a poll whose read step leaves LOWCRIT
ends with LOWCRIT; and a poll of a LOWCRIT sensor that does not end with
LOWCRIT is the poll of an lm75 whose read step took the status away: an
override set it to NORMAL, or a read fault beyond the retry limit set it to
FAILED. -/
theorem lowcrit_absorbing :
    (∀ (a : YamlAlarmThresholds) (t : Int),
      alarm_ladder a t SENSOR_STATUS_LOWCRIT = SENSOR_STATUS_LOWCRIT) ∧
    (∀ (rd : i2c_result) (s : locl_sensor),
      (tempd_read_step rd s).status = SENSOR_STATUS_LOWCRIT →
      (tempd_read_sensor rd s).status = SENSOR_STATUS_LOWCRIT) ∧
    (∀ (rd : i2c_result) (s : locl_sensor),
      s.status = SENSOR_STATUS_LOWCRIT →
      (tempd_read_sensor rd s).status ≠ SENSOR_STATUS_LOWCRIT →
      s.yaml_sensor.type = "lm75" ∧
      ((s.test_temp ≠ -1 ∧ (tempd_read_step rd s).status = SENSOR_STATUS_NORMAL) ∨
       (s.test_temp = -1 ∧ rd = none ∧ s.fault_count > MAX_FAIL_RETRY ∧
        (tempd_read_sensor rd s).status = SENSOR_STATUS_FAILED))) := by
  have hkeep : ∀ (rd : i2c_result) (s : locl_sensor),
      (tempd_read_step rd s).status = SENSOR_STATUS_LOWCRIT →
      (tempd_read_sensor rd s).status = SENSOR_STATUS_LOWCRIT := by
    intro rd s h
    unfold tempd_read_sensor
    rw [tempd_evaluate_status _ (by rw [h]; decide), h]
    exact alarm_ladder_lowcrit _ _
  refine ⟨alarm_ladder_lowcrit, hkeep, ?_⟩
  intro rd s hs hne
  have hstep : (tempd_read_step rd s).status ≠ SENSOR_STATUS_LOWCRIT :=
    fun h => hne (hkeep rd s h)
  by_cases htype : s.yaml_sensor.type = "lm75"
  · refine ⟨htype, ?_⟩
    by_cases htest : s.test_temp = -1
    · right
      rcases rd with _ | ⟨b0, b1⟩
      · by_cases hfc : s.fault_count > MAX_FAIL_RETRY
        · obtain ⟨-, -, -, -, hfail, -⟩ := tempd_read_sensor_fault s htype htest
          exact ⟨htest, rfl, hfc, hfail hfc⟩
        · exfalso
          apply hstep
          rw [tempd_read_step_fault s htype htest, if_neg hfc]
          exact hs
      · exfalso
        apply hstep
        rw [tempd_read_step_success s b0 b1 htype htest]
        simp [hs]
    · left
      refine ⟨htest, ?_⟩
      rw [tempd_read_step_override rd s htype htest]
  · exfalso
    apply hstep
    rw [tempd_read_step_unrecognized rd s htype]
    exact hs

theorem lowcrit_absorbing_witness :
    (tempd_read_step (some (40, 0))
      (mkSensor exampleAlarm exampleFan SENSOR_STATUS_LOWCRIT SENSOR_FAN_NORMAL (-5000))).status
      = SENSOR_STATUS_LOWCRIT ∧
    (tempd_read_sensor (some (40, 0))
      (mkSensor exampleAlarm exampleFan SENSOR_STATUS_LOWCRIT SENSOR_FAN_NORMAL (-5000))).temp
      = 40000 ∧
    (tempd_read_sensor (some (40, 0))
      (mkSensor exampleAlarm exampleFan SENSOR_STATUS_LOWCRIT SENSOR_FAN_NORMAL (-5000))).status
      = SENSOR_STATUS_LOWCRIT :=
  ⟨by decide, by decide,
    lowcrit_absorbing.2.1 (some (40, 0))
      (mkSensor exampleAlarm exampleFan SENSOR_STATUS_LOWCRIT SENSOR_FAN_NORMAL (-5000))
      (by decide)⟩

/-! ## UNINITIALIZED is never entered -/

/-! ## Properties of every sensor in the registry -/

theorem mem_modify_found {α : Type} (p : α → Bool) (f : α → α) (l : List α) (x : α)
    (h : x ∈ modify_found p f l) : x ∈ l ∨ ∃ y ∈ l, x = f y := by
  induction l with
  | nil => simp [modify_found] at h
  | cons a rest ih =>
    unfold modify_found at h
    split_ifs at h
    · rcases List.mem_cons.mp h with rfl | h'
      · exact Or.inr ⟨a, List.mem_cons_self _ _, rfl⟩
      · exact Or.inl (List.mem_cons_of_mem _ h')
    · rcases List.mem_cons.mp h with rfl | h'
      · exact Or.inl (List.mem_cons_self _ _)
      · rcases ih h' with h1 | ⟨y, hy, rfl⟩
        · exact Or.inl (List.mem_cons_of_mem _ h1)
        · exact Or.inr ⟨y, List.mem_cons_of_mem _ hy, rfl⟩

/-- The sensors of the entry that `add_subsystem` appends are made by
`new_sensor`. -/
theorem add_subsystem_sensors (env : tempd_env) (subsys : ovsrec_subsystem)
    (st : tempd_state) :
    ∃ e : locl_subsystem,
      (add_subsystem env subsys st).1.subsystem_data = st.subsystem_data ++ [e] ∧
      ∀ s ∈ e.subsystem_sensors, ∃ y : YamlSensor, s = new_sensor env subsys.name y := by
  by_cases hl : load_fails env subsys
  · obtain ⟨e, -, -, -, hs, he⟩ := add_subsystem_fails env subsys st hl
    refine ⟨e, by rw [he], ?_⟩
    intro s hsm
    rw [hs] at hsm
    cases hsm
  · unfold load_fails at hl
    unfold add_subsystem
    cases hd : subsys.hw_desc_dir with
    | none => rw [hd] at hl; exact absurd trivial hl
    | some dir =>
      rw [hd] at hl
      simp only [] at hl ⊢
      push_neg at hl
      obtain ⟨h1, h2, h3, h4, h5⟩ := hl
      rw [if_neg h1, if_neg (not_not.mpr h2), if_neg (not_not.mpr h3),
        if_neg (not_not.mpr h4), if_neg (not_le.mpr h5)]
      refine ⟨_, rfl, ?_⟩
      intro s hsm
      obtain ⟨idx, -, rfl⟩ := List.mem_map.mp hsm
      exact ⟨_, rfl⟩

theorem all_sensors_row (P : locl_sensor → Prop)
    (hnew : ∀ env name y, P (new_sensor env name y))
    (env : tempd_env) (st : tempd_state) (subsys : ovsrec_subsystem)
    (h : all_sensors P st) : all_sensors P (tempd_reconfigure_row env st subsys) := by
  unfold tempd_reconfigure_row get_subsystem
  cases hf : st.subsystem_data.find? (fun s => s.name = subsys.name) with
  | some r =>
    by_cases hv : r.valid = false
    · simp only [hv, if_true]
      exact h
    · simp only [hv, if_false]
      intro e he s hs
      rcases mem_set_marked _ _ _ he with he' | ⟨y, hy, -, rfl⟩
      · exact h e he' s hs
      · exact h y hy s hs
  | none =>
    simp only []
    obtain ⟨e, hdata, hsens⟩ := add_subsystem_sensors env subsys st
    have hall : all_sensors P (add_subsystem env subsys st).1 := by
      intro e' he' s hs
      rw [hdata] at he'
      rcases List.mem_append.mp he' with h1 | h1
      · exact h e' h1 s hs
      · rw [List.mem_singleton.mp h1] at hs
        obtain ⟨y, rfl⟩ := hsens s hs
        exact hnew _ _ _
    rcases hres : add_subsystem env subsys st with ⟨st', o⟩
    rw [hres] at hall
    cases o with
    | none => exact hall
    | some name =>
      intro e' he' s hs
      rcases mem_set_marked _ _ _ he' with he'' | ⟨y, hy, -, rfl⟩
      · exact hall e' he'' s hs
      · exact hall y hy s hs

theorem all_sensors_pass (P : locl_sensor → Prop)
    (hnew : ∀ env name y, P (new_sensor env name y))
    (env : tempd_env) (rows : List ovsrec_subsystem) (st : tempd_state)
    (h : all_sensors P st) : all_sensors P (tempd_reconfigure_pass env rows st) := by
  have h0 : all_sensors P (tempd_unmark_subsystems st) := by
    intro e he s hs
    obtain ⟨y, hy, rfl⟩ := List.mem_map.mp he
    exact h y hy s hs
  have h1 : all_sensors P (tempd_reconfigure_mark env rows st) :=
    tempd_reconfigure_rows_induct env (all_sensors P) rows
      (fun st' subsys _ hp => all_sensors_row P hnew env st' subsys hp) _ h0
  intro e he s hs
  exact h1 e (List.mem_of_mem_filter he) s hs

theorem tempd_run_sensor_state (subsystem : locl_subsystem) (rd1 rd2 : i2c_result)
    (sensor : locl_sensor) :
    (tempd_run_sensor subsystem rd1 rd2 sensor).1 =
      (if (tempd_read_sensor rd1 sensor).status = SENSOR_STATUS_EMERGENCY
        then tempd_read_sensor rd2 (tempd_read_sensor rd1 sensor)
        else tempd_read_sensor rd1 sensor) := by
  unfold tempd_run_sensor
  simp only []
  split_ifs <;> rfl

theorem tempd_run_sensors_all (P : locl_sensor → Prop)
    (hpoll : ∀ rd s, P s → P (tempd_read_sensor rd s))
    (subsystem : locl_subsystem) (i2c : String → i2c_result × i2c_result)
    (sensors out : List locl_sensor) (h : ∀ s ∈ sensors, P s)
    (hout : tempd_run_sensors subsystem i2c sensors = some out) : ∀ s ∈ out, P s := by
  induction sensors generalizing out with
  | nil =>
    simp only [tempd_run_sensors, Option.some.injEq] at hout
    subst hout
    intro s hs
    cases hs
  | cons x rest ih =>
    rw [tempd_run_sensors] at hout
    have hx : P (tempd_run_sensor subsystem (i2c x.name).1 (i2c x.name).2 x).1 := by
      rw [(tempd_run_sensor_state subsystem (i2c x.name).1 (i2c x.name).2 x)]
      split_ifs
      · exact hpoll _ _ (hpoll _ _ (h x (List.mem_cons_self _ _)))
      · exact hpoll _ _ (h x (List.mem_cons_self _ _))
    rcases hr : tempd_run_sensor subsystem (i2c x.name).1 (i2c x.name).2 x with ⟨x', b⟩
    rw [hr] at hout hx
    cases b with
    | true => simp at hout
    | false =>
      cases hrest : tempd_run_sensors subsystem i2c rest with
      | none => rw [hrest] at hout; simp at hout
      | some r =>
        rw [hrest] at hout
        simp only [Option.some.injEq] at hout
        subst hout
        intro s hs
        rcases List.mem_cons.mp hs with rfl | hs'
        · exact hx
        · exact ih r (fun s hs => h s (List.mem_cons_of_mem _ hs)) hrest s hs'


theorem tempd_run_poll_all (P : locl_sensor → Prop)
    (hpoll : ∀ rd s, P s → P (tempd_read_sensor rd s))
    (i2c : String → i2c_result × i2c_result)
    (l out : List locl_subsystem) (h : ∀ e ∈ l, ∀ s ∈ e.subsystem_sensors, P s)
    (hout : tempd_run_poll i2c l = some out) :
    ∀ e ∈ out, ∀ s ∈ e.subsystem_sensors, P s := by
  induction l generalizing out with
  | nil =>
    simp only [tempd_run_poll, Option.some.injEq] at hout
    subst hout
    intro e he
    cases he
  | cons x rest ih =>
    rw [tempd_run_poll] at hout
    cases hs : tempd_run_sensors x i2c x.subsystem_sensors with
    | none => rw [hs] at hout; simp at hout
    | some sensors =>
      rw [hs] at hout
      cases hrest : tempd_run_poll i2c rest with
      | none => rw [hrest] at hout; simp at hout
      | some r =>
        rw [hrest] at hout
        simp only [Option.some.injEq] at hout
        subst hout
        intro e he s hsm
        rcases List.mem_cons.mp he with rfl | he'
        · exact tempd_run_sensors_all P hpoll x i2c _ _
            (h x (List.mem_cons_self _ _)) hs s hsm
        · exact ih r (fun e he => h e (List.mem_cons_of_mem _ he)) hrest e he' s hsm

theorem all_sensors_test (P : locl_sensor → Prop)
    (htest : ∀ temp s, P s → P (tempd_unixctl_test temp s))
    (name : String) (temp : Int) (st : tempd_state) (h : all_sensors P st) :
    all_sensors P (tempd_unixctl_test_sensor name temp st) := by
  unfold tempd_unixctl_test_sensor
  cases hf : st.sensor_data.find? (fun e => e.1 = name) with
  | none => exact h
  | some p =>
    obtain ⟨key, owner⟩ := p
    simp only []
    intro e he s hs
    rcases mem_modify_found _ _ _ e he with he' | ⟨y, hy, rfl⟩
    · exact h e he' s hs
    · rcases mem_modify_found _ _ _ s hs with hs' | ⟨z, hz, rfl⟩
      · exact h y hy s hs'
      · exact htest temp z (h y hy z hz)

/-- A property that new sensors have and that polls and the test command keep
holds for every sensor of the registry at all times. -/
theorem all_sensors_run (P : locl_sensor → Prop)
    (hnew : ∀ env name y, P (new_sensor env name y))
    (hpoll : ∀ rd s, P s → P (tempd_read_sensor rd s))
    (htest : ∀ temp s, P s → P (tempd_unixctl_test temp s))
    (events : List registry_event) (st : tempd_state) (h : all_sensors P st) :
    all_sensors P (registry_run events st) := by
  induction events generalizing st with
  | nil => exact h
  | cons ev rest ih =>
    rw [registry_run, List.foldl_cons]
    apply ih
    cases ev with
    | reconfigure env rows => exact all_sensors_pass P hnew env rows st h
    | poll i2c =>
      simp only [registry_step]
      cases hp : tempd_run_poll i2c st.subsystem_data with
      | none => exact h
      | some out => exact tempd_run_poll_all P hpoll i2c _ out h hp
    | test name temp => exact all_sensors_test P htest name temp st h

/-! ## UNINITIALIZED -/

theorem alarm_ladder_ne_uninitialized (a : YamlAlarmThresholds) (t : Int)
    (st : sensorstatus) (h : st ≠ SENSOR_STATUS_UNINITIALIZED) :
    alarm_ladder a t st ≠ SENSOR_STATUS_UNINITIALIZED := by
  rw [alarm_ladder_eq]
  iterate 10 refine guarded_avoids _ _ _ _ _ (by decide) ?_
  exact h

theorem tempd_read_step_ne_uninitialized (rd : i2c_result) (s : locl_sensor)
    (h : s.status ≠ SENSOR_STATUS_UNINITIALIZED) :
    (tempd_read_step rd s).status ≠ SENSOR_STATUS_UNINITIALIZED := by
  unfold tempd_read_step lm75_read
  rcases rd with _ | ⟨b0, b1⟩ <;> simp only [] <;> split_ifs <;> simp [h]

theorem tempd_read_sensor_ne_uninitialized (rd : i2c_result) (s : locl_sensor)
    (h : s.status ≠ SENSOR_STATUS_UNINITIALIZED) :
    (tempd_read_sensor rd s).status ≠ SENSOR_STATUS_UNINITIALIZED := by
  have hstep := tempd_read_step_ne_uninitialized rd s h
  unfold tempd_read_sensor
  by_cases hf : (tempd_read_step rd s).status = SENSOR_STATUS_FAILED
  · rw [tempd_evaluate_failed _ hf]
    exact hstep
  · rw [tempd_evaluate_status _ hf]
    exact alarm_ladder_ne_uninitialized _ _ _ hstep

/-- C26: for every sensor whose status is not UNINITIALIZED and every read
outcome (success with any payload, fault, override, unrecognized type) the
status after a poll is not UNINITIALIZED; the same holds after any sequence of
polls and test commands; a sensor is created with a status other than
UNINITIALIZED; and from the empty registry on, after any sequence of
reconciliation passes, polls and test commands, no sensor in the registry has
status UNINITIALIZED. -/
theorem uninitialized_never_entered :
    (∀ (rd : i2c_result) (s : locl_sensor),
      s.status ≠ SENSOR_STATUS_UNINITIALIZED →
      (tempd_read_sensor rd s).status ≠ SENSOR_STATUS_UNINITIALIZED) ∧
    (∀ (events : List sensor_event) (s : locl_sensor),
      s.status ≠ SENSOR_STATUS_UNINITIALIZED →
      (sensor_run events s).status ≠ SENSOR_STATUS_UNINITIALIZED) ∧
    (∀ (env : tempd_env) (name : String) (y : YamlSensor),
      (new_sensor env name y).status ≠ SENSOR_STATUS_UNINITIALIZED) ∧
    (∀ (events : List registry_event),
      ∀ e ∈ (registry_run events init_subsystems).subsystem_data,
      ∀ s ∈ e.subsystem_sensors, s.status ≠ SENSOR_STATUS_UNINITIALIZED) := by
  have hnew : ∀ (env : tempd_env) (name : String) (y : YamlSensor),
      (new_sensor env name y).status ≠ SENSOR_STATUS_UNINITIALIZED := by
    intro env name y
    unfold new_sensor
    exact tempd_read_sensor_ne_uninitialized _ _ (by simp)
  refine ⟨tempd_read_sensor_ne_uninitialized, ?_, hnew, ?_⟩
  · intro events
    induction events with
    | nil => exact fun s h => h
    | cons ev rest ih =>
      intro s h
      rw [sensor_run, List.foldl_cons]
      apply ih
      cases ev with
      | poll rd => exact tempd_read_sensor_ne_uninitialized rd s h
      | test temp => exact h
  · intro events
    exact all_sensors_run (fun s => s.status ≠ SENSOR_STATUS_UNINITIALIZED) hnew
      tempd_read_sensor_ne_uninitialized (fun _ _ h => h) events init_subsystems
      (fun e he => by simp [init_subsystems] at he)

theorem uninitialized_never_entered_witness :
    exampleSensor.status ≠ SENSOR_STATUS_UNINITIALIZED ∧
    (tempd_read_sensor none exampleSensor).status ≠ SENSOR_STATUS_UNINITIALIZED ∧
    (registry_run [registry_event.reconfigure exampleEnv [rowA, rowB],
        registry_event.test "A-1" 95000,
        registry_event.poll (fun _ => (none, none))]
      init_subsystems).subsystem_data.length = 2 ∧
    ∀ e ∈ (registry_run [registry_event.reconfigure exampleEnv [rowA, rowB],
        registry_event.test "A-1" 95000,
        registry_event.poll (fun _ => (none, none))]
      init_subsystems).subsystem_data,
    ∀ s ∈ e.subsystem_sensors, s.status ≠ SENSOR_STATUS_UNINITIALIZED :=
  ⟨by decide, uninitialized_never_entered.1 none exampleSensor (by decide), by decide,
    uninitialized_never_entered.2.2.2 _⟩

/-! ## Evaluating twice -/

theorem alarm_rules_idem (eoff coff moff mon con eon minle lowle : Bool) (st : sensorstatus) :
    alarm_rules eoff coff moff mon con eon minle lowle
      (alarm_rules eoff coff moff mon con eon minle lowle st) =
    alarm_rules eoff coff moff mon con eon minle lowle st := by
  cases st <;> revert eoff coff moff mon con eon minle lowle <;> decide

theorem fan_rules_idem (medon faston maxon maxoff fastoff medoff : Bool) (fs : fanspeed) :
    fan_rules medon faston maxon maxoff fastoff medoff
      (fan_rules medon faston maxon maxoff fastoff medoff fs) =
    fan_rules medon faston maxon maxoff fastoff medoff fs := by
  cases fs <;> revert medon faston maxon maxoff fastoff medoff <;> decide

theorem alarm_ladder_idem (a : YamlAlarmThresholds) (t : Int) (st : sensorstatus) :
    alarm_ladder a t (alarm_ladder a t st) = alarm_ladder a t st := by
  rw [alarm_ladder_rules, alarm_ladder_rules, alarm_rules_idem]

theorem fan_ladder_idem (f : YamlFanThresholds) (t : Int) (fs : fanspeed) :
    fan_ladder f t (fan_ladder f t fs) = fan_ladder f t fs := by
  rw [fan_ladder_rules, fan_ladder_rules, fan_rules_idem]
theorem adjust_min_max_def (s : locl_sensor) :
    adjust_min_max s =
      { s with min := (if s.min > s.temp then s.temp else s.min),
               max := (if s.max < s.temp then s.temp else s.max) } := by
  unfold adjust_min_max
  simp only []
  split_ifs <;> rfl

theorem adjust_min_max_fixed (s : locl_sensor) (h1 : s.min ≤ s.temp) (h2 : s.temp ≤ s.max) :
    adjust_min_max s = s := by
  rw [adjust_min_max_def, if_neg (not_lt.mpr h1), if_neg (not_lt.mpr h2)]

/-- The evaluation of a sensor that is not FAILED, field by field. -/
theorem tempd_evaluate_def (s : locl_sensor) (h : s.status ≠ SENSOR_STATUS_FAILED) :
    tempd_evaluate s =
      { s with min := (if s.min > s.temp then s.temp else s.min),
               max := (if s.max < s.temp then s.temp else s.max),
               status := alarm_ladder s.yaml_sensor.alarm_thresholds s.temp s.status,
               fan_speed := fan_ladder s.yaml_sensor.fan_thresholds s.temp s.fan_speed } := by
  unfold tempd_evaluate
  rw [if_neg h, adjust_min_max_def]

theorem tempd_evaluate_idem (s : locl_sensor) :
    tempd_evaluate (tempd_evaluate s) = tempd_evaluate s := by
  by_cases h : s.status = SENSOR_STATUS_FAILED
  · rw [tempd_evaluate_failed s h, tempd_evaluate_failed s h]
  · have h' := tempd_evaluate_ne_failed s h
    rw [tempd_evaluate_def _ h']
    rw [tempd_evaluate_def s h]
    simp only [alarm_ladder_idem, fan_ladder_idem]
    have hmin : (if s.min > s.temp then s.temp else s.min) ≤ s.temp := by
      split_ifs with hc
      · exact le_refl _
      · exact not_lt.mp hc
    have hmax : s.temp ≤ (if s.max < s.temp then s.temp else s.max) := by
      split_ifs with hc
      · exact le_refl _
      · exact not_lt.mp hc
    rw [if_neg (not_lt.mpr hmin), if_neg (not_lt.mpr hmax)]

/-- C27: evaluating twice at the same temperature gives what evaluating once
gives: for every alarm threshold set, temperature and status the alarm rules
applied to their own result leave it unchanged; likewise the fan rules; and
the evaluation part of a poll applied to its own result leaves every field of
the sensor, status, fan speed, min and max among them, unchanged. -/
theorem evaluation_idempotent :
    (∀ (a : YamlAlarmThresholds) (t : Int) (st : sensorstatus),
      alarm_ladder a t (alarm_ladder a t st) = alarm_ladder a t st) ∧
    (∀ (f : YamlFanThresholds) (t : Int) (fs : fanspeed),
      fan_ladder f t (fan_ladder f t fs) = fan_ladder f t fs) ∧
    (∀ s : locl_sensor, adjust_min_max (adjust_min_max s) = adjust_min_max s) ∧
    (∀ s : locl_sensor, tempd_evaluate (tempd_evaluate s) = tempd_evaluate s) ∧
    (∀ (rd : i2c_result) (s : locl_sensor),
      tempd_evaluate (tempd_read_sensor rd s) = tempd_read_sensor rd s) := by
  refine ⟨alarm_ladder_idem, fan_ladder_idem, ?_, tempd_evaluate_idem, ?_⟩
  · intro s
    obtain ⟨_, h2, _⟩ := adjust_min_max_frame s
    obtain ⟨_, _, h3, h4⟩ := adjust_min_max_bounds s
    exact adjust_min_max_fixed _ (by rw [h2]; exact h3) (by rw [h2]; exact h4)
  · intro rd s
    exact tempd_evaluate_idem _

/-! ## The fan rules and the alarm status -/

/-- What the read step never touches, and the temperature it leaves. -/
theorem tempd_read_step_frame (rd : i2c_result) (s : locl_sensor) :
    (tempd_read_step rd s).yaml_sensor = s.yaml_sensor ∧
    (tempd_read_step rd s).test_temp = s.test_temp ∧
    (tempd_read_step rd s).fan_speed = s.fan_speed ∧
    (tempd_read_step rd s).name = s.name ∧
    (tempd_read_step rd s).temp =
      (if s.yaml_sensor.type = "lm75" then
        (if s.test_temp ≠ -1 then s.test_temp
         else match rd with
          | none => s.temp
          | some (b0, b1) => lm75_decode b0 b1)
       else DEFAULT_TEMP * MILI_DEGREES) := by
  unfold tempd_read_step lm75_read
  rcases rd with _ | ⟨b0, b1⟩ <;> simp only [] <;> split_ifs <;> simp

theorem tempd_read_sensor_frame (rd : i2c_result) (s : locl_sensor) :
    (tempd_read_sensor rd s).yaml_sensor = s.yaml_sensor ∧
    (tempd_read_sensor rd s).test_temp = s.test_temp ∧
    (tempd_read_sensor rd s).name = s.name := by
  obtain ⟨_, e2, _, e4, e5⟩ := tempd_evaluate_frame (tempd_read_step rd s)
  obtain ⟨f1, f2, _, f4, _⟩ := tempd_read_step_frame rd s
  unfold tempd_read_sensor
  rw [e2, e4, e5, f1, f2, f4]
  exact ⟨rfl, rfl, rfl⟩

/-- C28: for every lm75 sensor without override whose status is EMERGENCY after
the first read and evaluation of a poll, with a fault count of at most
MAX_FAIL_RETRY at that moment, a confirming read that faults only adds one to
the fault count: temperature and status EMERGENCY stay, and the power-off is
reached exactly when the auto-shutdown flag of the subsystem is set. -/
theorem failed_reverification_confirms (subsystem : locl_subsystem) (rd1 : i2c_result)
    (s : locl_sensor) (htype : s.yaml_sensor.type = "lm75") (htest : s.test_temp = -1)
    (hem : (tempd_read_sensor rd1 s).status = SENSOR_STATUS_EMERGENCY)
    (hbudget : (tempd_read_sensor rd1 s).fault_count ≤ MAX_FAIL_RETRY) :
    (tempd_read_sensor none (tempd_read_sensor rd1 s)).status = SENSOR_STATUS_EMERGENCY ∧
    (tempd_read_sensor none (tempd_read_sensor rd1 s)).temp =
      (tempd_read_sensor rd1 s).temp ∧
    (tempd_read_sensor none (tempd_read_sensor rd1 s)).fault_count =
      (tempd_read_sensor rd1 s).fault_count + 1 ∧
    (tempd_run_sensor subsystem rd1 none s).2 = subsystem.emergency_shutdown := by
  obtain ⟨f1, f2, _⟩ := tempd_read_sensor_frame rd1 s
  have htype1 : (tempd_read_sensor rd1 s).yaml_sensor.type = "lm75" := by rw [f1]; exact htype
  have htest1 : (tempd_read_sensor rd1 s).test_temp = -1 := by rw [f2]; exact htest
  obtain ⟨_, _, g3, g4, _, g6⟩ := tempd_read_sensor_fault _ htype1 htest1
  have hidem : tempd_evaluate (tempd_read_sensor rd1 s) = tempd_read_sensor rd1 s :=
    tempd_evaluate_idem _
  have hst : (tempd_read_sensor none (tempd_read_sensor rd1 s)).status =
      SENSOR_STATUS_EMERGENCY := by
    rw [g6 hbudget, hidem]
    exact hem
  refine ⟨hst, g4, g3, ?_⟩
  rw [Bool.eq_iff_iff, tempd_run_sensor_poweroff]
  simp [hem, hst]

theorem failed_reverification_confirms_witness :
    exampleSensor.yaml_sensor.type = "lm75" ∧ exampleSensor.test_temp = -1 ∧
    (tempd_read_sensor (some (95, 0)) exampleSensor).status = SENSOR_STATUS_EMERGENCY ∧
    (tempd_read_sensor (some (95, 0)) exampleSensor).fault_count ≤ MAX_FAIL_RETRY ∧
    subsystemB.emergency_shutdown = true ∧
    ((tempd_read_sensor none (tempd_read_sensor (some (95, 0)) exampleSensor)).status =
        SENSOR_STATUS_EMERGENCY ∧
      (tempd_read_sensor none (tempd_read_sensor (some (95, 0)) exampleSensor)).temp =
        (tempd_read_sensor (some (95, 0)) exampleSensor).temp ∧
      (tempd_read_sensor none (tempd_read_sensor (some (95, 0)) exampleSensor)).fault_count =
        (tempd_read_sensor (some (95, 0)) exampleSensor).fault_count + 1 ∧
      (tempd_run_sensor subsystemB (some (95, 0)) none exampleSensor).2 =
        subsystemB.emergency_shutdown) :=
  ⟨by decide, by decide, by decide, by decide, by decide,
    failed_reverification_confirms subsystemB (some (95, 0)) exampleSensor
      (by decide) (by decide) (by decide) (by decide)⟩

/-! ## The fan rules are monotone -/

theorem degrees_mono (t1 t2 : Int) (h : t1 ≤ t2) : degrees t1 ≤ degrees t2 := by
  rw [degrees_eq, degrees_eq]
  have hc : (t1 : ℚ) ≤ (t2 : ℚ) := by exact_mod_cast h
  exact div_le_div_of_nonneg_right hc (by norm_num)

/-- A rule that raises the fan speed by one keeps the order of two fan speeds
when its guard holds for the second whenever it holds for the first. -/
theorem guarded_up_mono (src dst : fanspeed) (hd : dst.code = src.code + 1)
    (g1 g2 : Prop) [Decidable g1] [Decidable g2] (himp : g1 → g2)
    (c1 c2 : fanspeed) (h : c1.code ≤ c2.code) :
    (guarded src g1 dst c1).code ≤ (guarded src g2 dst c2).code := by
  by_cases h1 : g1
  · have h2 := himp h1
    cases src <;> cases dst <;> cases c1 <;> cases c2 <;>
      simp [guarded, fanspeed.code, h1, h2] at hd h ⊢
  · by_cases h2 : g2
    · cases src <;> cases dst <;> cases c1 <;> cases c2 <;>
        simp [guarded, fanspeed.code, h1, h2] at hd h ⊢
    · simpa [guarded, h1, h2] using h

/-- A rule that lowers the fan speed by one keeps the order of two fan speeds
when its guard holds for the first whenever it holds for the second. -/
theorem guarded_down_mono (src dst : fanspeed) (hd : src.code = dst.code + 1)
    (g1 g2 : Prop) [Decidable g1] [Decidable g2] (himp : g2 → g1)
    (c1 c2 : fanspeed) (h : c1.code ≤ c2.code) :
    (guarded src g1 dst c1).code ≤ (guarded src g2 dst c2).code := by
  by_cases h2 : g2
  · have h1 := himp h2
    cases src <;> cases dst <;> cases c1 <;> cases c2 <;>
      simp [guarded, fanspeed.code, h1, h2] at hd h ⊢
  · by_cases h1 : g1
    · cases src <;> cases dst <;> cases c1 <;> cases c2 <;>
        simp [guarded, fanspeed.code, h1, h2] at hd h ⊢
    · simpa [guarded, h1, h2] using h

/-- C30: with the order NORMAL < MEDIUM < FAST < MAX given by the numeric
values of the enumeration, for every fan threshold set, all starting fan
speeds s1 ≤ s2 and all temperatures t1 ≤ t2, the fan speed the fan rules give
for (s1, t1) is at most the one they give for (s2, t2). -/
theorem fan_ladder_monotone (f : YamlFanThresholds) (t1 t2 : Int) (s1 s2 : fanspeed)
    (hs : s1.code ≤ s2.code) (ht : t1 ≤ t2) :
    (fan_ladder f t1 s1).code ≤ (fan_ladder f t2 s2).code := by
  have hd := degrees_mono t1 t2 ht
  rw [fan_ladder_eq, fan_ladder_eq]
  refine guarded_down_mono _ _ (by decide) _ _ (fun h => le_trans hd h) _ _ ?_
  refine guarded_down_mono _ _ (by decide) _ _ (fun h => le_trans hd h) _ _ ?_
  refine guarded_down_mono _ _ (by decide) _ _ (fun h => le_trans hd h) _ _ ?_
  refine guarded_up_mono _ _ (by decide) _ _ (fun h => le_trans h hd) _ _ ?_
  refine guarded_up_mono _ _ (by decide) _ _ (fun h => le_trans h hd) _ _ ?_
  exact guarded_up_mono _ _ (by decide) _ _ (fun h => le_trans h hd) _ _ hs

theorem fan_ladder_monotone_witness :
    SENSOR_FAN_NORMAL.code ≤ SENSOR_FAN_FAST.code ∧ (41000 : Int) ≤ 72000 ∧
    fan_ladder exampleFan 41000 SENSOR_FAN_NORMAL = SENSOR_FAN_MEDIUM ∧
    fan_ladder exampleFan 72000 SENSOR_FAN_FAST = SENSOR_FAN_MAX ∧
    (fan_ladder exampleFan 41000 SENSOR_FAN_NORMAL).code ≤
      (fan_ladder exampleFan 72000 SENSOR_FAN_FAST).code :=
  ⟨by decide, by decide, by decide, by decide,
    fan_ladder_monotone exampleFan 41000 72000 SENSOR_FAN_NORMAL SENSOR_FAN_FAST
      (by decide) (by decide)⟩

/-! ## Sensor names -/

theorem digitChar_decimal (d : Nat) (h : d < 10) :
    (Nat.digitChar d).toNat - 48 = d ∧ Nat.digitChar d ≠ '-' := by
  interval_cases d <;> decide

theorem decimal_value_append (l : List Char) (c : Char) :
    decimal_value (l ++ [c]) = 10 * decimal_value l + (c.toNat - 48) := by
  simp [decimal_value, List.foldl_append]

/-- The digits that `Nat.toDigitsCore` puts in front of `ds`, given enough
fuel: they denote `n`, and none of them is a minus sign. -/
theorem toDigitsCore_decimal (fuel : Nat) :
    ∀ (n : Nat) (ds : List Char), n < fuel →
      ∃ pre : List Char, Nat.toDigitsCore 10 fuel n ds = pre ++ ds ∧
        decimal_value pre = n ∧ '-' ∉ pre := by
  induction fuel with
  | zero => intro n ds h; omega
  | succ fuel ih =>
    intro n ds h
    obtain ⟨hv, hm⟩ := digitChar_decimal (n % 10) (Nat.mod_lt _ (by norm_num))
    by_cases h0 : n / 10 = 0
    · refine ⟨[Nat.digitChar (n % 10)], ?_, ?_, ?_⟩
      · simp [Nat.toDigitsCore, h0]
      · have := decimal_value_append [] (Nat.digitChar (n % 10))
        simp only [List.nil_append] at this
        rw [this, hv]
        simp only [decimal_value, List.foldl_nil]
        omega
      · simpa using hm.symm
    · have hlt : n / 10 < fuel := by omega
      obtain ⟨pre, hpre, hval, hmem⟩ := ih (n / 10) (Nat.digitChar (n % 10) :: ds) hlt
      refine ⟨pre ++ [Nat.digitChar (n % 10)], ?_, ?_, ?_⟩
      · simp [Nat.toDigitsCore, h0, hpre]
      · rw [decimal_value_append, hval, hv]
        omega
      · simp only [List.mem_append, List.mem_singleton, not_or]
        exact ⟨hmem, hm.symm⟩

theorem repr_decimal (n : Nat) :
    decimal_value (Nat.repr n).data = n ∧ '-' ∉ (Nat.repr n).data := by
  obtain ⟨pre, hpre, hval, hmem⟩ := toDigitsCore_decimal (n + 1) n [] (Nat.lt_succ_self n)
  have : (Nat.repr n).data = pre := by
    simp [Nat.repr, Nat.toDigits, hpre, List.asString]
  rw [this]
  exact ⟨hval, hmem⟩

/-- Two lists around the same separator are equal only part by part, when the
separator does not occur after it. -/
theorem append_separator_inj {α : Type} (c : α) :
    ∀ (l1 l2 m1 m2 : List α), c ∉ m1 → c ∉ m2 →
      l1 ++ c :: m1 = l2 ++ c :: m2 → l1 = l2 ∧ m1 = m2 := by
  intro l1
  induction l1 with
  | nil =>
    intro l2 m1 m2 h1 h2 h
    cases l2 with
    | nil => simpa using h
    | cons b l2 =>
      simp only [List.nil_append, List.cons_append, List.cons.injEq] at h
      obtain ⟨rfl, hm⟩ := h
      exact absurd (by rw [hm]; simp) h1
  | cons a l1 ih =>
    intro l2 m1 m2 h1 h2 h
    cases l2 with
    | nil =>
      simp only [List.nil_append, List.cons_append, List.cons.injEq] at h
      obtain ⟨rfl, hm⟩ := h
      exact absurd (by rw [← hm]; simp) h2
    | cons b l2 =>
      simp only [List.cons_append, List.cons.injEq] at h
      obtain ⟨rfl, hm⟩ := h
      obtain ⟨e1, e2⟩ := ih l2 m1 m2 h1 h2 hm
      exact ⟨by rw [e1], e2⟩

theorem toString_ofNat_decimal (n : Nat) :
    toString ((n : Nat) : Int) = Nat.repr n := rfl

/-- The name built from a subsystem name and a non-negative number, as a list of
characters. -/
theorem sensor_name_data (subsystem : String) (n : Nat) :
    (subsystem ++ "-" ++ toString ((n : Nat) : Int)).data =
      subsystem.data ++ '-' :: (Nat.repr n).data := by
  rw [toString_ofNat_decimal]
  simp [String.data_append]

theorem sensor_name_inj (sub1 sub2 : String) (n1 n2 : Int) (h1 : 0 ≤ n1) (h2 : 0 ≤ n2)
    (h : sub1 ++ "-" ++ toString n1 = sub2 ++ "-" ++ toString n2) :
    sub1 = sub2 ∧ n1 = n2 := by
  obtain ⟨a, rfl⟩ := Int.eq_ofNat_of_zero_le h1
  obtain ⟨b, rfl⟩ := Int.eq_ofNat_of_zero_le h2
  have hd := congrArg String.data h
  rw [sensor_name_data, sensor_name_data] at hd
  obtain ⟨e1, e2⟩ := append_separator_inj '-' _ _ _ _ (repr_decimal a).2 (repr_decimal b).2 hd
  refine ⟨String.ext e1, ?_⟩
  have := congrArg decimal_value e2
  rw [(repr_decimal a).1, (repr_decimal b).1] at this
  rw [this]
theorem repr_inj (a b : Nat) (h : (Nat.repr a).data = (Nat.repr b).data) : a = b := by
  have := congrArg decimal_value h
  rw [(repr_decimal a).1, (repr_decimal b).1] at this
  exact this

theorem toString_negSucc_data (n : Nat) :
    (toString (Int.negSucc n)).data = '-' :: (Nat.repr (n + 1)).data := by
  show ("-" ++ Nat.repr (n + 1)).data = _
  simp [String.data_append]

/-- The decimal form `%d` of an integer determines the integer. -/
theorem toString_int_inj (n1 n2 : Int) (h : toString n1 = toString n2) : n1 = n2 := by
  have hd := congrArg String.data h
  cases n1 with
  | ofNat a =>
    cases n2 with
    | ofNat b =>
      have := repr_inj a b hd
      rw [this]
    | negSucc b =>
      rw [toString_negSucc_data] at hd
      have hmem : '-' ∈ (Nat.repr a).data := by
        have e : (toString (Int.ofNat a)).data = (Nat.repr a).data := rfl
        rw [← e, hd]
        simp
      exact absurd hmem (repr_decimal a).2
  | negSucc a =>
    cases n2 with
    | ofNat b =>
      rw [toString_negSucc_data] at hd
      have hmem : '-' ∈ (Nat.repr b).data := by
        have e : (toString (Int.ofNat b)).data = (Nat.repr b).data := rfl
        rw [← e, ← hd]
        simp
      exact absurd hmem (repr_decimal b).2
    | negSucc b =>
      rw [toString_negSucc_data, toString_negSucc_data] at hd
      simp only [List.cons.injEq, true_and] at hd
      have := repr_inj _ _ hd
      have hab : a = b := by omega
      rw [hab]

theorem new_sensor_name (env : tempd_env) (subsystem : String) (y : YamlSensor) :
    (new_sensor env subsystem y).name = subsystem ++ "-" ++ toString y.number := by
  unfold new_sensor
  exact (tempd_read_sensor_frame _ _).2.2

/-- C22, counterexample: the pairs ("a", -1) and ("a-", 1) differ, and the
sensors created for them both get the name "a--1". -/
theorem sensor_names_collide_counterexample :
    (("a", -1) : String × Int) ≠ ("a-", 1) ∧
    (new_sensor exampleEnv "a" { exampleYaml with number := -1 }).name = "a--1" ∧
    (new_sensor exampleEnv "a-" { exampleYaml with number := 1 }).name = "a--1" := by
  decide

/-- C22: for every two catalog descriptors whose numbers are not negative and
every two subsystem names, the sensors created for them get different names
whenever the pairs (subsystem name, sensor number) differ; within one
subsystem the names differ whenever the numbers differ, negative or not. -/
theorem sensor_names_unique (env1 env2 : tempd_env) (sub1 sub2 : String)
    (y1 y2 : YamlSensor) (hne : (sub1, y1.number) ≠ (sub2, y2.number))
    (h : (0 ≤ y1.number ∧ 0 ≤ y2.number) ∨ sub1 = sub2) :
    (new_sensor env1 sub1 y1).name ≠ (new_sensor env2 sub2 y2).name := by
  rw [new_sensor_name, new_sensor_name]
  intro heq
  rcases h with ⟨h1, h2⟩ | hsub
  · obtain ⟨e1, e2⟩ := sensor_name_inj sub1 sub2 _ _ h1 h2 heq
    exact hne (by rw [e1, e2])
  · subst hsub
    have hd := congrArg String.data heq
    simp only [String.data_append, List.append_cancel_left_eq] at hd
    have := toString_int_inj _ _ (String.ext hd)
    exact hne (by rw [this])

theorem sensor_names_unique_witness :
    (new_sensor exampleEnv "A" (exampleYamlSubsystem.sensor 0)).name = "A-1" ∧
    (new_sensor exampleEnv "A-1" (exampleYamlSubsystem.sensor 1)).name = "A-1-2" ∧
    (new_sensor exampleEnv "A" (exampleYamlSubsystem.sensor 0)).name ≠
      (new_sensor exampleEnv "A-1" (exampleYamlSubsystem.sensor 1)).name :=
  ⟨by decide, by decide,
    sensor_names_unique exampleEnv exampleEnv "A" "A-1" (exampleYamlSubsystem.sensor 0)
      (exampleYamlSubsystem.sensor 1) (by decide) (Or.inl (by decide))⟩

/-! ## The first sight of a subsystem -/

/-- C25: when `get_subsystem` finds no entry under the name of the row and the
catalog loads (description directory present and not empty, the three catalog
calls return 0) with n > 0 descriptors of pairwise distinct numbers, it answers
the name of the row and appends one entry of that name to the registry: valid,
marked, its auto-shutdown flag the one of the catalog, owning n sensors in
descriptor order, each the result of one `tempd_read_sensor` on the state
status NORMAL, fan speed NORMAL, temp 0, min 1000000, max -1000000, no
override, named subsystem name, hyphen, number; the n names are pairwise
distinct, and each is entered in the global sensor dictionary. -/
theorem get_subsystem_creates (env : tempd_env) (subsys : ovsrec_subsystem) (dir : String)
    (st : tempd_state)
    (habsent : st.subsystem_data.find? (fun s => s.name = subsys.name) = none)
    (hdir : subsys.hw_desc_dir = some dir) (hlen : dir.length ≠ 0)
    (hadd : (env.yaml subsys.name dir).add_rc = 0)
    (hdev : (env.yaml subsys.name dir).devices_rc = 0)
    (hth : (env.yaml subsys.name dir).thermal_rc = 0)
    (hcount : 0 < (env.yaml subsys.name dir).sensor_count)
    (hdistinct : ∀ i j : Nat, i < (env.yaml subsys.name dir).sensor_count.toNat →
      j < (env.yaml subsys.name dir).sensor_count.toNat →
      ((env.yaml subsys.name dir).sensor i).number =
        ((env.yaml subsys.name dir).sensor j).number → i = j) :
    ∃ e : locl_subsystem,
      get_subsystem env subsys st =
        ({ subsystem_data := st.subsystem_data ++ [e],
           sensor_data := st.sensor_data ++
             e.subsystem_sensors.map (fun sensor => (sensor.name, subsys.name)) },
          some subsys.name) ∧
      e.name = subsys.name ∧ e.valid = true ∧ e.marked = true ∧
      e.emergency_shutdown = (env.yaml subsys.name dir).auto_shutdown ∧
      (e.subsystem_sensors.length : Int) = (env.yaml subsys.name dir).sensor_count ∧
      e.subsystem_sensors =
        (List.range (env.yaml subsys.name dir).sensor_count.toNat).map (fun idx =>
          tempd_read_sensor
            (env.i2c
              (subsys.name ++ "-" ++ toString ((env.yaml subsys.name dir).sensor idx).number))
            { name :=
                subsys.name ++ "-" ++ toString ((env.yaml subsys.name dir).sensor idx).number,
              subsystem := subsys.name,
              yaml_sensor := (env.yaml subsys.name dir).sensor idx,
              status := SENSOR_STATUS_NORMAL, fan_speed := SENSOR_FAN_NORMAL,
              temp := 0, min := 1000000, max := -1000000,
              fault_count := env.fault_count
                (subsys.name ++ "-" ++ toString ((env.yaml subsys.name dir).sensor idx).number),
              test_temp := -1 }) ∧
      e.subsystem_sensors.map (fun sensor => sensor.name) =
        (List.range (env.yaml subsys.name dir).sensor_count.toNat).map (fun idx =>
          subsys.name ++ "-" ++ toString ((env.yaml subsys.name dir).sensor idx).number) ∧
      (e.subsystem_sensors.map (fun sensor => sensor.name)).Nodup := by
  have hnames : ((List.range (env.yaml subsys.name dir).sensor_count.toNat).map
      (fun idx => new_sensor env subsys.name ((env.yaml subsys.name dir).sensor idx))).map
        (fun sensor => sensor.name) =
      (List.range (env.yaml subsys.name dir).sensor_count.toNat).map (fun idx =>
        subsys.name ++ "-" ++ toString ((env.yaml subsys.name dir).sensor idx).number) := by
    rw [List.map_map]
    apply List.map_congr_left
    intro idx _
    exact new_sensor_name _ _ _
  refine ⟨{ name := subsys.name, marked := true, valid := true,
            subsystem_sensors := (List.range (env.yaml subsys.name dir).sensor_count.toNat).map
              (fun idx => new_sensor env subsys.name ((env.yaml subsys.name dir).sensor idx)),
            emergency_shutdown := (env.yaml subsys.name dir).auto_shutdown },
    ?_, rfl, rfl, rfl, rfl, ?_, rfl, hnames, ?_⟩
  · unfold get_subsystem
    rw [habsent]
    unfold add_subsystem
    simp only [hdir]
    rw [if_neg hlen, if_neg (not_not.mpr hadd), if_neg (not_not.mpr hdev),
      if_neg (not_not.mpr hth), if_neg (not_le.mpr hcount)]
  · simp only [List.length_map, List.length_range]
    exact Int.toNat_of_nonneg (le_of_lt hcount)
  · rw [hnames]
    refine (List.nodup_map_iff_inj_on (List.nodup_range _)).mpr ?_
    intro i hi j hj hij
    have hd := congrArg String.data hij
    simp only [String.data_append, List.append_cancel_left_eq] at hd
    exact hdistinct i j (List.mem_range.mp hi) (List.mem_range.mp hj)
      (toString_int_inj _ _ (String.ext hd))

theorem get_subsystem_creates_witness :
    ∃ e : locl_subsystem,
      get_subsystem exampleEnv rowA init_subsystems =
        ({ subsystem_data := init_subsystems.subsystem_data ++ [e],
           sensor_data := init_subsystems.sensor_data ++
             e.subsystem_sensors.map (fun sensor => (sensor.name, rowA.name)) },
          some rowA.name) ∧
      e.name = rowA.name ∧ e.valid = true ∧ e.marked = true ∧
      e.emergency_shutdown = (exampleEnv.yaml rowA.name "/etc/hw/A").auto_shutdown ∧
      (e.subsystem_sensors.length : Int) = (exampleEnv.yaml rowA.name "/etc/hw/A").sensor_count ∧
      e.subsystem_sensors =
        (List.range (exampleEnv.yaml rowA.name "/etc/hw/A").sensor_count.toNat).map (fun idx =>
          tempd_read_sensor
            (exampleEnv.i2c
              (rowA.name ++ "-" ++
                toString ((exampleEnv.yaml rowA.name "/etc/hw/A").sensor idx).number))
            { name :=
                rowA.name ++ "-" ++
                  toString ((exampleEnv.yaml rowA.name "/etc/hw/A").sensor idx).number,
              subsystem := rowA.name,
              yaml_sensor := (exampleEnv.yaml rowA.name "/etc/hw/A").sensor idx,
              status := SENSOR_STATUS_NORMAL, fan_speed := SENSOR_FAN_NORMAL,
              temp := 0, min := 1000000, max := -1000000,
              fault_count := exampleEnv.fault_count
                (rowA.name ++ "-" ++
                  toString ((exampleEnv.yaml rowA.name "/etc/hw/A").sensor idx).number),
              test_temp := -1 }) ∧
      e.subsystem_sensors.map (fun sensor => sensor.name) =
        (List.range (exampleEnv.yaml rowA.name "/etc/hw/A").sensor_count.toNat).map (fun idx =>
          rowA.name ++ "-" ++
            toString ((exampleEnv.yaml rowA.name "/etc/hw/A").sensor idx).number) ∧
      (e.subsystem_sensors.map (fun sensor => sensor.name)).Nodup :=
  get_subsystem_creates exampleEnv rowA "/etc/hw/A" init_subsystems (by decide) (by decide)
    (by decide) (by decide) (by decide) (by decide) (by decide)
    (by
      intro i j _ _ h
      simpa [exampleEnv, exampleYamlSubsystem] using h)

/-! ## Registry consistency -/

theorem set_marked_flatMap {β : Type} (n : String) (f : locl_subsystem → List β)
    (hf : ∀ e : locl_subsystem, f { e with marked := true } = f e)
    (l : List locl_subsystem) : (set_marked n l).flatMap f = l.flatMap f := by
  induction l with
  | nil => rfl
  | cons a rest ih =>
    unfold set_marked
    split_ifs
    · simp only [List.flatMap_cons, hf]
    · simp only [List.flatMap_cons, ih]

theorem tempd_read_sensor_subsystem (rd : i2c_result) (s : locl_sensor) :
    (tempd_read_sensor rd s).subsystem = s.subsystem := by
  have h1 : ∀ x : locl_sensor, (tempd_evaluate x).subsystem = x.subsystem := by
    intro x
    by_cases h : x.status = SENSOR_STATUS_FAILED
    · rw [tempd_evaluate_failed x h]
    · rw [tempd_evaluate_def x h]
  have h2 : (tempd_read_step rd s).subsystem = s.subsystem := by
    unfold tempd_read_step lm75_read
    rcases rd with _ | ⟨b0, b1⟩ <;> simp only [] <;> split_ifs <;> simp
  unfold tempd_read_sensor
  rw [h1, h2]

theorem new_sensor_subsystem (env : tempd_env) (subsystem : String) (y : YamlSensor) :
    (new_sensor env subsystem y).subsystem = subsystem := by
  unfold new_sensor
  exact tempd_read_sensor_subsystem _ _

theorem registry_mirrors_unmark (st : tempd_state) (h : registry_mirrors st) :
    registry_mirrors (tempd_unmark_subsystems st) := by
  obtain ⟨h1, h2⟩ := h
  constructor
  · unfold owned_sensors tempd_unmark_subsystems
    simp only [List.flatMap_map]
    exact h1
  · intro e he s hs
    obtain ⟨y, hy, rfl⟩ := List.mem_map.mp he
    exact h2 y hy s hs

/-- The entry that `add_subsystem` appends carries the name of the row, and the
back-reference of each of its sensors is that name. -/
theorem add_subsystem_owner (env : tempd_env) (subsys : ovsrec_subsystem)
    (st : tempd_state) :
    ∃ e : locl_subsystem, e.name = subsys.name ∧
      (add_subsystem env subsys st).1.subsystem_data = st.subsystem_data ++ [e] ∧
      ∀ s ∈ e.subsystem_sensors, s.subsystem = e.name := by
  obtain ⟨e, hdata, hsens⟩ := add_subsystem_sensors env subsys st
  have hname : e.name = subsys.name := by
    by_cases hl : load_fails env subsys
    · obtain ⟨e', hn, -, -, -, he⟩ := add_subsystem_fails env subsys st hl
      rw [he] at hdata
      have := List.append_cancel_left hdata
      simp only [List.cons.injEq, and_true] at this
      rw [← this]
      exact hn
    · obtain ⟨e', hn, -, -, he⟩ := add_subsystem_loads env subsys st hl
      rw [he] at hdata
      have := List.append_cancel_left hdata
      simp only [List.cons.injEq, and_true] at this
      rw [← this]
      exact hn
  refine ⟨e, hname, hdata, ?_⟩
  intro s hs
  obtain ⟨y, rfl⟩ := hsens s hs
  rw [new_sensor_subsystem, hname]

theorem registry_mirrors_row (env : tempd_env) (st : tempd_state) (subsys : ovsrec_subsystem)
    (h : registry_mirrors st) : registry_mirrors (tempd_reconfigure_row env st subsys) := by
  obtain ⟨h1, h2⟩ := h
  constructor
  · rcases tempd_reconfigure_row_cases env st subsys with
      ⟨r, -, -, he⟩ | ⟨r, -, -, he⟩ | ⟨-, e, hn, -, ⟨-, -, hs, he⟩ | ⟨-, -, he⟩⟩
    · rw [he]; exact h1
    · rw [he]
      unfold owned_sensors
      simp only []
      rw [set_marked_flatMap subsys.name
        (fun e : locl_subsystem =>
          e.subsystem_sensors.map (fun sensor : locl_sensor => (sensor.name, e.name)))
        (fun _ => rfl)]
      exact h1
    · rw [he]
      unfold owned_sensors
      simp only [List.flatMap_append, List.flatMap_cons, List.flatMap_nil, hs, List.map_nil,
        List.append_nil]
      exact h1
    · rw [he]
      unfold owned_sensors
      simp only [List.flatMap_append, List.flatMap_cons, List.flatMap_nil, List.append_nil, hn]
      rw [h1]
      rfl
  · unfold tempd_reconfigure_row get_subsystem
    cases hf : st.subsystem_data.find? (fun s => s.name = subsys.name) with
    | some r =>
      by_cases hv : r.valid = false
      · simp only [hv, if_true]
        exact h2
      · simp only [hv, if_false]
        intro x hx s hs
        rcases mem_set_marked _ _ _ hx with hx' | ⟨y, hy, -, rfl⟩
        · exact h2 x hx' s hs
        · exact h2 y hy s hs
    | none =>
      simp only []
      obtain ⟨e, -, hdata, hown⟩ := add_subsystem_owner env subsys st
      have hall : ∀ x ∈ (add_subsystem env subsys st).1.subsystem_data,
          ∀ s ∈ x.subsystem_sensors, s.subsystem = x.name := by
        intro x hx s hs
        rw [hdata] at hx
        rcases List.mem_append.mp hx with hx1 | hx1
        · exact h2 x hx1 s hs
        · rw [List.mem_singleton.mp hx1] at hs ⊢
          exact hown s hs
      rcases hres : add_subsystem env subsys st with ⟨st', o⟩
      rw [hres] at hall
      cases o with
      | none => exact hall
      | some name =>
        intro x hx s hs
        rcases mem_set_marked _ _ _ hx with hx' | ⟨y, hy, -, rfl⟩
        · exact hall x hx' s hs
        · exact hall y hy s hs

theorem registry_mirrors_mark (env : tempd_env) (rows : List ovsrec_subsystem)
    (st : tempd_state) (h : registry_mirrors st) :
    registry_mirrors (tempd_reconfigure_mark env rows st) :=
  tempd_reconfigure_rows_induct env registry_mirrors rows
    (fun st' subsys _ hp => registry_mirrors_row env st' subsys hp) _
    (registry_mirrors_unmark st h)

/-- With pairwise distinct keys, deleting the entry found under a key deletes
every entry of that key. -/
theorem sensor_data_delete_eq_filter (k : String) (sd : List (String × String))
    (h : (sd.map Prod.fst).Nodup) :
    sensor_data_delete k sd = sd.filter (fun e => decide (e.1 ≠ k)) := by
  induction sd with
  | nil => rfl
  | cons a rest ih =>
    rw [List.map_cons, List.nodup_cons] at h
    unfold sensor_data_delete
    split_ifs with ha
    · rw [List.filter_cons_of_neg (by simp [ha])]
      symm
      apply List.filter_eq_self.mpr
      intro x hx
      have : x.1 ≠ k := by
        intro hxk
        apply h.1
        rw [ha, ← hxk]
        exact List.mem_map_of_mem _ hx
      simpa using this
    · rw [List.filter_cons_of_pos (by simpa using ha), ih h.2]

theorem delete_sensors_eq_filter (sensors : List locl_sensor) (sd : List (String × String))
    (h : (sd.map Prod.fst).Nodup) :
    delete_sensors sensors sd =
      sd.filter (fun e => decide (e.1 ∉ sensors.map (fun s => s.name))) := by
  induction sensors generalizing sd with
  | nil => simp [delete_sensors]
  | cons x rest ih =>
    have hsub : ((sensor_data_delete x.name sd).map Prod.fst).Nodup :=
      h.sublist ((sensor_data_delete_sublist _ _).map Prod.fst)
    rw [delete_sensors, List.foldl_cons]
    have := ih (sensor_data_delete x.name sd) hsub
    rw [delete_sensors] at this
    rw [this, sensor_data_delete_eq_filter _ _ h, List.filter_filter]
    apply List.filter_congr
    intro e _
    simp only [List.map_cons, List.mem_cons, not_or, Bool.decide_and, Bool.and_comm]

theorem sweep_eq_filter (subs : List locl_subsystem) (sd : List (String × String))
    (h : (sd.map Prod.fst).Nodup) :
    subs.foldl (fun sensor_data s => delete_sensors s.subsystem_sensors sensor_data) sd =
      sd.filter (fun e => decide (e.1 ∉
        subs.flatMap (fun u => u.subsystem_sensors.map (fun s => s.name)))) := by
  induction subs generalizing sd with
  | nil => simp
  | cons x rest ih =>
    have hsub : ((delete_sensors x.subsystem_sensors sd).map Prod.fst).Nodup :=
      h.sublist ((delete_sensors_sublist _ _).map Prod.fst)
    rw [List.foldl_cons, ih _ hsub, delete_sensors_eq_filter _ _ h, List.filter_filter]
    apply List.filter_congr
    intro e _
    simp only [List.flatMap_cons, List.mem_append, not_or, Bool.decide_and, Bool.and_comm]

/-- A filter that keeps the entries of the marked subsystems and drops those of
the others leaves the entries of the marked subsystems. -/
theorem filter_owned (keep : String × String → Bool) (l : List locl_subsystem)
    (h1 : ∀ e ∈ l, e.marked = true → ∀ s ∈ e.subsystem_sensors, keep (s.name, e.name) = true)
    (h2 : ∀ e ∈ l, e.marked = false → ∀ s ∈ e.subsystem_sensors,
      keep (s.name, e.name) = false) :
    (l.flatMap (fun e => e.subsystem_sensors.map (fun s => (s.name, e.name)))).filter keep =
      (l.filter (fun s => s.marked = true)).flatMap
        (fun e => e.subsystem_sensors.map (fun s => (s.name, e.name))) := by
  induction l with
  | nil => rfl
  | cons a rest ih =>
    have ih' := ih (fun e he => h1 e (List.mem_cons_of_mem _ he))
      (fun e he => h2 e (List.mem_cons_of_mem _ he))
    rw [List.flatMap_cons, List.filter_append, ih']
    cases hm : a.marked with
    | true =>
      rw [List.filter_cons_of_pos (by simp [hm]), List.flatMap_cons]
      congr 1
      apply List.filter_eq_self.mpr
      intro x hx
      obtain ⟨s, hs, rfl⟩ := List.mem_map.mp hx
      exact h1 a (List.mem_cons_self _ _) hm s hs
    | false =>
      rw [List.filter_cons_of_neg (by simp [hm])]
      have : (a.subsystem_sensors.map (fun s => (s.name, a.name))).filter keep = [] := by
        apply List.filter_eq_nil_iff.mpr
        intro x hx
        obtain ⟨s, hs, rfl⟩ := List.mem_map.mp hx
        rw [h2 a (List.mem_cons_self _ _) hm s hs]
        simp
      rw [this, List.nil_append]

theorem owned_sensors_keys (st : tempd_state) :
    (owned_sensors st).map Prod.fst =
      st.subsystem_data.flatMap (fun e => e.subsystem_sensors.map (fun s => s.name)) := by
  unfold owned_sensors
  rw [List.map_flatMap]
  simp only [List.map_map]
  rfl

/-- With pairwise distinct sensor names, two sensors of one name are owned by
the same subsystem. -/
theorem owner_unique (l : List locl_subsystem)
    (h : (l.flatMap (fun e => e.subsystem_sensors.map (fun s => s.name))).Nodup)
    (e u : locl_subsystem) (he : e ∈ l) (hu : u ∈ l) (s s' : locl_sensor)
    (hs : s ∈ e.subsystem_sensors) (hs' : s' ∈ u.subsystem_sensors)
    (hn : s.name = s'.name) : e = u := by
  by_contra hne
  obtain ⟨-, hp⟩ := List.nodup_flatMap.mp h
  have hsym : Symmetric (fun a b : locl_subsystem =>
      List.Disjoint (a.subsystem_sensors.map (fun s => s.name))
        (b.subsystem_sensors.map (fun s => s.name))) := fun a b hab => hab.symm
  have hd := List.Pairwise.forall hsym hp he hu hne
  exact hd (List.mem_map_of_mem _ hs) (by rw [hn]; exact List.mem_map_of_mem _ hs')

theorem registry_mirrors_sweep (st : tempd_state) (h : registry_mirrors st)
    (hn : (st.sensor_data.map Prod.fst).Nodup) :
    registry_mirrors (tempd_remove_unmarked_subsystems st) := by
  obtain ⟨h1, h2⟩ := h
  have hkeys : (st.subsystem_data.flatMap
      (fun e => e.subsystem_sensors.map (fun s => s.name))).Nodup := by
    rw [← owned_sensors_keys, ← h1]
    exact hn
  constructor
  · unfold tempd_remove_unmarked_subsystems owned_sensors
    simp only []
    rw [sweep_eq_filter _ _ hn]
    nth_rewrite 1 [h1]
    unfold owned_sensors
    apply filter_owned
    · intro e he hm s hs
      simp only [decide_eq_true_eq, List.mem_flatMap, List.mem_filter, List.mem_map, not_exists,
        not_and]
      intro u hu s' hs' hname
      have := owner_unique _ hkeys e u he hu.1 s s' hs hs' hname.symm
      rw [this] at hm
      have hum := hu.2
      simp [hm] at hum
    · intro e he hm s hs
      simp only [decide_eq_false_iff_not, not_not, List.mem_flatMap, List.mem_filter,
        List.mem_map]
      exact ⟨e, ⟨he, by simp [hm]⟩, s, hs, rfl⟩
  · intro e he s hs
    exact h2 e (List.mem_of_mem_filter he) s hs

theorem registry_mirrors_pass (env : tempd_env) (rows : List ovsrec_subsystem)
    (st : tempd_state) (h : registry_mirrors st)
    (hn : ((tempd_reconfigure_mark env rows st).sensor_data.map Prod.fst).Nodup) :
    registry_mirrors (tempd_reconfigure_pass env rows st) ∧
    ((tempd_reconfigure_pass env rows st).sensor_data.map Prod.fst).Nodup :=
  ⟨registry_mirrors_sweep _ (registry_mirrors_mark env rows st h) hn,
    hn.sublist ((sweep_sublist _ _).map Prod.fst)⟩

/-- In a dictionary with pairwise distinct keys the lookup of the key of an
entry finds that entry. -/
theorem find_of_nodup_key {α : Type} (key : α → String) (l : List α)
    (h : (l.map key).Nodup) (a : α) (ha : a ∈ l) :
    l.find? (fun x => decide (key x = key a)) = some a := by
  induction l with
  | nil => simp at ha
  | cons b rest ih =>
    rw [List.map_cons, List.nodup_cons] at h
    rcases List.mem_cons.mp ha with rfl | ha'
    · simp
    · have hne : key b ≠ key a := by
        intro hk
        apply h.1
        rw [hk]
        exact List.mem_map_of_mem _ ha'
      rw [List.find?_cons_of_neg _ (by simpa using hne)]
      exact ih h.2 ha'

/-- What the reconciliation passes keep, from a state that has it: the global
dictionary mirrors the owned sensors, its keys are pairwise distinct, and so
are the names of the subsystems. -/
theorem registry_mirrors_passes (passes : List (tempd_env × List ovsrec_subsystem)) :
    ∀ st : tempd_state, registry_mirrors st → (st.sensor_data.map Prod.fst).Nodup →
      (st.subsystem_data.map (fun s => s.name)).Nodup → names_distinct passes st →
      registry_mirrors (tempd_reconfigure_passes passes st) ∧
      ((tempd_reconfigure_passes passes st).sensor_data.map Prod.fst).Nodup ∧
      ((tempd_reconfigure_passes passes st).subsystem_data.map (fun s => s.name)).Nodup := by
  induction passes with
  | nil => exact fun st h1 h2 h3 _ => ⟨h1, h2, h3⟩
  | cons pass rest ih =>
    intro st h1 _ _ hd
    obtain ⟨hn, hrest⟩ := hd
    obtain ⟨g1, g2⟩ := registry_mirrors_pass pass.1 pass.2 st h1 hn
    rw [tempd_reconfigure_passes, List.foldl_cons]
    exact ih _ g1 g2 (tempd_reconfigure_pass_nodup pass.1 pass.2 st) hrest

/-- The lookups of a registry whose global dictionary mirrors the owned sensors
under pairwise distinct names. -/
theorem registry_mirrors_lookup (st : tempd_state) (h : registry_mirrors st)
    (hk : (st.sensor_data.map Prod.fst).Nodup)
    (hs : (st.subsystem_data.map (fun s => s.name)).Nodup) :
    (∀ k o, (k, o) ∈ st.sensor_data ↔
      ∃ e ∈ st.subsystem_data, e.name = o ∧ ∃ s ∈ e.subsystem_sensors, s.name = k) ∧
    (∀ e ∈ st.subsystem_data, ∀ s ∈ e.subsystem_sensors,
      sensor_data_find st s.name = some s ∧ s.subsystem = e.name) := by
  obtain ⟨h1, h2⟩ := h
  have hmem : ∀ k o, (k, o) ∈ st.sensor_data ↔
      ∃ e ∈ st.subsystem_data, e.name = o ∧ ∃ s ∈ e.subsystem_sensors, s.name = k := by
    intro k o
    rw [h1]
    unfold owned_sensors
    simp only [List.mem_flatMap, List.mem_map, Prod.mk.injEq]
    constructor
    · rintro ⟨e, he, s, hs, rfl, rfl⟩
      exact ⟨e, he, rfl, s, hs, rfl⟩
    · rintro ⟨e, he, rfl, s, hs, rfl⟩
      exact ⟨e, he, s, hs, rfl, rfl⟩
  refine ⟨hmem, ?_⟩
  intro e he s hse
  refine ⟨?_, h2 e he s hse⟩
  have hentry : (s.name, e.name) ∈ st.sensor_data :=
    (hmem _ _).mpr ⟨e, he, rfl, s, hse, rfl⟩
  have hkeys : (st.subsystem_data.flatMap
      (fun e => e.subsystem_sensors.map (fun s => s.name))).Nodup := by
    rw [← owned_sensors_keys, ← h1]
    exact hk
  have hsens : (e.subsystem_sensors.map (fun s => s.name)).Nodup :=
    (List.nodup_flatMap.mp hkeys).1 e he
  have f1 := find_of_nodup_key Prod.fst st.sensor_data hk (s.name, e.name) hentry
  have f2 := find_of_nodup_key (fun x : locl_subsystem => x.name) st.subsystem_data hs e he
  have f3 := find_of_nodup_key (fun x : locl_sensor => x.name) e.subsystem_sensors hsens s hse
  unfold sensor_data_find
  simp only [] at f1 f2 f3
  rw [f1]
  simp only []
  rw [f2]
  exact f3

theorem sensor_data_find_some (st : tempd_state) (k : String) (s : locl_sensor)
    (h : sensor_data_find st k = some s) :
    s.name = k ∧ ∃ e ∈ st.subsystem_data, s ∈ e.subsystem_sensors ∧
      (k, e.name) ∈ st.sensor_data := by
  unfold sensor_data_find at h
  cases h1 : st.sensor_data.find? (fun e => e.1 = k) with
  | none => rw [h1] at h; cases h
  | some p =>
    obtain ⟨key, owner⟩ := p
    rw [h1] at h
    simp only [] at h
    have hk : key = k := by simpa using List.find?_some h1
    cases h2 : st.subsystem_data.find? (fun s => s.name = owner) with
    | none => rw [h2] at h; cases h
    | some e =>
      rw [h2] at h
      simp only [] at h
      obtain ⟨he, hen⟩ := find_name_some _ _ _ h2
      have hsn : s.name = key := by simpa using List.find?_some h
      refine ⟨by rw [hsn, hk], e, he, List.mem_of_find?_eq_some h, ?_⟩
      rw [hen, ← hk]
      exact List.mem_of_find?_eq_some h1

theorem names_distinct_take (passes : List (tempd_env × List ovsrec_subsystem)) :
    ∀ (n : Nat) (st : tempd_state), names_distinct passes st →
      names_distinct (passes.take n) st := by
  induction passes with
  | nil => intro n st h; simpa using h
  | cons pass rest ih =>
    intro n st h
    cases n with
    | zero => exact trivial
    | succ n => exact ⟨h.1, ih n _ h.2⟩

theorem registry_consistent_of_mirrors (st : tempd_state) (h : registry_mirrors st)
    (hk : (st.sensor_data.map Prod.fst).Nodup)
    (hs : (st.subsystem_data.map (fun s => s.name)).Nodup) : registry_consistent st := by
  obtain ⟨hmem, hfind⟩ := registry_mirrors_lookup st h hk hs
  refine ⟨hk, hmem, hfind, ?_, ?_⟩
  · intro k s hks
    obtain ⟨hn, e, he, hse, -⟩ := sensor_data_find_some st k s hks
    exact ⟨hn, e, he, hse, h.2 e he s hse⟩
  · intro p hp
    obtain ⟨e, he, -, s, hse, hsn⟩ := (hmem p.1 p.2).mp hp
    refine ⟨s, ?_⟩
    rw [← hsn]
    exact (hfind e he s hse).1

/-- C31: from the empty registry, when the keys of the global sensor dictionary
are pairwise distinct each time a sweep starts, the registry is consistent
after every reconciliation pass: the global dictionary has an entry exactly for
the sensors owned by the subsystems of the subsystem dictionary, the lookup of
the name of an owned sensor gives that sensor, every sensor a lookup gives is
owned by a subsystem of the registry, which its back-reference names, and no
entry is left without sensor. -/
theorem registry_consistent_after_every_pass
    (passes : List (tempd_env × List ovsrec_subsystem))
    (hnames : names_distinct passes init_subsystems) (n : Nat) :
    registry_consistent (tempd_reconfigure_passes (passes.take n) init_subsystems) := by
  have hinit : registry_mirrors init_subsystems := by
    constructor
    · rfl
    · intro e he
      simp [init_subsystems] at he
  obtain ⟨h1, h2, h3⟩ := registry_mirrors_passes (passes.take n) init_subsystems hinit
    (by simp [init_subsystems]) (by simp [init_subsystems])
    (names_distinct_take passes n _ hnames)
  exact registry_consistent_of_mirrors _ h1 h2 h3

theorem registry_consistent_after_every_pass_witness :
    names_distinct examplePasses init_subsystems ∧
    (tempd_reconfigure_passes (examplePasses.take 1) init_subsystems).sensor_data =
      [("A-1", "A"), ("A-2", "A"), ("B-1", "B"), ("B-2", "B")] ∧
    (tempd_reconfigure_passes (examplePasses.take 2) init_subsystems).sensor_data =
      [("A-1", "A"), ("A-2", "A")] ∧
    (tempd_reconfigure_passes (examplePasses.take 2) init_subsystems).subsystem_data.map
      (fun s => s.name) = ["A"] ∧
    registry_consistent (tempd_reconfigure_passes (examplePasses.take 2) init_subsystems) :=
  ⟨⟨by decide, by decide, trivial⟩, by decide, by decide, by decide,
    registry_consistent_after_every_pass examplePasses ⟨by decide, by decide, trivial⟩ 2⟩

/-! ## A first read that fails -/

/-- C32: for every lm75 sensor as `add_subsystem` creates it (status NORMAL,
fan speed NORMAL, temp 0, min 1000000, max -1000000, no override) whose first
bus read fails while the fault count it starts with is 0, or anything up to
MAX_FAIL_RETRY, the initial `tempd_read_sensor` still evaluates: afterwards
temp is 0, min and max are 0, status and fan speed are what the alarm rules
and the fan rules give at 0 from NORMAL, and the fault count is one more. -/
theorem initial_read_fault_evaluates (env : tempd_env) (subsystem : String) (y : YamlSensor)
    (htype : y.type = "lm75")
    (hrd : env.i2c (subsystem ++ "-" ++ toString y.number) = none)
    (hfc : env.fault_count (subsystem ++ "-" ++ toString y.number) ≤ MAX_FAIL_RETRY) :
    (new_sensor env subsystem y).temp = 0 ∧
    (new_sensor env subsystem y).min = 0 ∧
    (new_sensor env subsystem y).max = 0 ∧
    (new_sensor env subsystem y).status =
      alarm_ladder y.alarm_thresholds 0 SENSOR_STATUS_NORMAL ∧
    (new_sensor env subsystem y).fan_speed =
      fan_ladder y.fan_thresholds 0 SENSOR_FAN_NORMAL ∧
    (new_sensor env subsystem y).fault_count =
      env.fault_count (subsystem ++ "-" ++ toString y.number) + 1 := by
  unfold new_sensor
  simp only [hrd]
  unfold tempd_read_sensor
  rw [tempd_read_step_fault _ htype rfl, if_neg (not_lt.mpr hfc)]
  rw [tempd_evaluate_def _ (by simp)]
  simp

theorem initial_read_fault_evaluates_witness :
    (exampleYamlSubsystem.sensor 0).type = "lm75" ∧
    deadBusEnv.i2c ("A" ++ "-" ++ toString (exampleYamlSubsystem.sensor 0).number) = none ∧
    deadBusEnv.fault_count ("A" ++ "-" ++ toString (exampleYamlSubsystem.sensor 0).number) = 0 ∧
    (new_sensor deadBusEnv "A" (exampleYamlSubsystem.sensor 0)).status = SENSOR_STATUS_LOWCRIT ∧
    (new_sensor deadBusEnv "A" (exampleYamlSubsystem.sensor 0)).min = 0 ∧
    (new_sensor deadBusEnv "A" (exampleYamlSubsystem.sensor 0)).max = 0 ∧
    (new_sensor deadBusEnv "A" (exampleYamlSubsystem.sensor 0)).status =
      alarm_ladder (exampleYamlSubsystem.sensor 0).alarm_thresholds 0 SENSOR_STATUS_NORMAL :=
  ⟨by decide, by decide, by decide, by decide,
    (initial_read_fault_evaluates deadBusEnv "A" (exampleYamlSubsystem.sensor 0)
      (by decide) (by decide) (by decide)).2.1,
    (initial_read_fault_evaluates deadBusEnv "A" (exampleYamlSubsystem.sensor 0)
      (by decide) (by decide) (by decide)).2.2.1,
    (initial_read_fault_evaluates deadBusEnv "A" (exampleYamlSubsystem.sensor 0)
      (by decide) (by decide) (by decide)).2.2.2.1⟩

end Tempd
